import Mathlib

/-!
# sftpd: a verification development

A shallow embedding of the SFTP v3 server of `leffss/sftpd` (Go):
the mode mappings of `file_linux.go`, the handle table of `handle.go`,
the stub backend of `emptyfs.go` and the wire codec and session loop of
`server.go`.

Conventions of the embedding
* a byte is a `Nat` below 256, a Go `string` or `[]byte` is a `List Nat`;
* `uint32`/`uint64` values are `Nat`, reduced modulo `2^32`/`2^64` where the
  source converts or encodes them; `int`/`int64` values are `Int`;
* a Go `error` is `Option GoError`, `none` being `nil`;
* a run-time panic (index out of range) is an explicit result.
-/

namespace Sftpd

/-! ## Mode bits (`os.FileMode`, `syscall`) -/

/-- Go `os.ModeDir`. -/
def ModeDir : Nat := 2 ^ 31
/-- Go `os.ModeSymlink`. -/
def ModeSymlink : Nat := 2 ^ 27
/-- Go `os.ModeDevice`. -/
def ModeDevice : Nat := 2 ^ 26
/-- Go `os.ModeNamedPipe`. -/
def ModeNamedPipe : Nat := 2 ^ 25
/-- Go `os.ModeSocket`. -/
def ModeSocket : Nat := 2 ^ 24
/-- Go `os.ModeSetuid`. -/
def ModeSetuid : Nat := 2 ^ 23
/-- Go `os.ModeSetgid`. -/
def ModeSetgid : Nat := 2 ^ 22
/-- Go `os.ModeCharDevice`. -/
def ModeCharDevice : Nat := 2 ^ 21
/-- Go `os.ModeSticky`. -/
def ModeSticky : Nat := 2 ^ 20
/-- Go `os.ModeIrregular`. -/
def ModeIrregular : Nat := 2 ^ 19
/-- Go `os.ModeType`, the mask of the type bits. -/
def ModeType : Nat :=
  ModeDir ||| ModeSymlink ||| ModeNamedPipe ||| ModeSocket ||| ModeDevice ||| ModeCharDevice
    ||| ModeIrregular
/-- Go `os.ModePerm`. -/
def ModePerm : Nat := 0o777

/-- Linux `syscall.S_IFBLK`. -/
def S_IFBLK : Nat := 0x6000
/-- Linux `syscall.S_IFCHR`. -/
def S_IFCHR : Nat := 0x2000
/-- Linux `syscall.S_IFDIR`. -/
def S_IFDIR : Nat := 0x4000
/-- Linux `syscall.S_IFIFO`. -/
def S_IFIFO : Nat := 0x1000
/-- Linux `syscall.S_IFLNK`. -/
def S_IFLNK : Nat := 0xa000
/-- Linux `syscall.S_IFREG`. -/
def S_IFREG : Nat := 0x8000
/-- Linux `syscall.S_IFSOCK`. -/
def S_IFSOCK : Nat := 0xc000
/-- Linux `syscall.S_ISGID`. -/
def S_ISGID : Nat := 0x400
/-- Linux `syscall.S_ISUID`. -/
def S_ISUID : Nat := 0x800
/-- Linux `syscall.S_ISVTX`. -/
def S_ISVTX : Nat := 0x200
/-- Modelled from the spec: the constant `S_IFMT` of the package (its declaring file
is not among the sources); the POSIX file-type mask that `sftp_to_file_mode`
applies as `u & S_IFMT`. -/
def S_IFMT : Nat := 0xf000

/-- Go `fileModeToSftp` of `file_linux.go`: `ret` is threaded through the `if`s. -/
def fileModeToSftp (mode : Nat) : Nat :=
  let ret := 0
  let ret :=
    if mode &&& ModeDevice ≠ 0 then
      if mode &&& ModeCharDevice ≠ 0 then ret ||| S_IFCHR else ret ||| S_IFBLK
    else ret
  let ret := if mode &&& ModeDir ≠ 0 then ret ||| S_IFDIR else ret
  let ret := if mode &&& ModeSymlink ≠ 0 then ret ||| S_IFLNK else ret
  let ret := if mode &&& ModeNamedPipe ≠ 0 then ret ||| S_IFIFO else ret
  let ret := if mode &&& ModeSetgid ≠ 0 then ret ||| S_ISGID else ret
  let ret := if mode &&& ModeSetuid ≠ 0 then ret ||| S_ISUID else ret
  let ret := if mode &&& ModeSticky ≠ 0 then ret ||| S_ISVTX else ret
  let ret := if mode &&& ModeSocket ≠ 0 then ret ||| S_IFSOCK else ret
  let ret := if mode &&& ModeType = 0 then ret ||| S_IFREG else ret
  ret ||| ((mode &&& ModePerm) % 2 ^ 32)

/-- Go `sftpToFileMode` of `file_linux.go`: the `switch` on `mode & S_IFMT`, then the
three special bits. -/
def sftpToFileMode (mode : Nat) : Nat :=
  let fm := mode &&& 0o777
  let t := mode &&& S_IFMT
  let fm :=
    if t = S_IFBLK then fm ||| ModeDevice
    else if t = S_IFCHR then fm ||| (ModeDevice ||| ModeCharDevice)
    else if t = S_IFDIR then fm ||| ModeDir
    else if t = S_IFIFO then fm ||| ModeNamedPipe
    else if t = S_IFLNK then fm ||| ModeSymlink
    else if t = S_IFREG then fm
    else if t = S_IFSOCK then fm ||| ModeSocket
    else fm
  let fm := if mode &&& S_ISGID ≠ 0 then fm ||| ModeSetgid else fm
  let fm := if mode &&& S_ISUID ≠ 0 then fm ||| ModeSetuid else fm
  let fm := if mode &&& S_ISVTX ≠ 0 then fm ||| ModeSticky else fm
  fm

/-- The seven type classes of the closed set: regular (no type bit), directory,
symlink, character device, block device, fifo, socket. -/
def typeClasses : List Nat :=
  [0, ModeDir, ModeSymlink, ModeDevice ||| ModeCharDevice, ModeDevice, ModeNamedPipe, ModeSocket]

/-- The subset of `{setuid, setgid, sticky}` picked by three booleans. -/
def specialBits (su sg st : Bool) : Nat :=
  (if su then ModeSetuid else 0) ||| (if sg then ModeSetgid else 0)
    ||| (if st then ModeSticky else 0)

/-- A `FileMode` of the closed set: one type class, permission bits and special bits. -/
def closedMode (t p : Nat) (su sg st : Bool) : Nat := t ||| p ||| specialBits su sg st

/-- A mask without permission bits: a value below 512 has no bit in common with it. -/
def HighMask (M : Nat) : Prop := ∀ p < 512, p &&& M = 0

/-! ## Errors and protocol constants -/

/-- A Go `error` value; `io.EOF` is the only one the server tells apart. -/
inductive GoError where
  | EOF
  | other (msg : String)
  deriving DecidableEq, Repr

/-- The error `Failure` of `emptyfs.go`. -/
def Failure : GoError := .other "Failure"

/-- The error of the short-packet guard of `ServeChannel`. -/
def errTooShort : GoError := .other "SFTP PACKET TOO SHORT"

/-- Modelled from the spec: the packet types `SSH_FXP_*` of the package, declared in a
file that is not among the sources; the numbers are those of
draft-ietf-secsh-filexfer-02, with which the spec is bit-exact. -/
def SSH_FXP_INIT : Nat := 1
/-- Modelled from the spec: packet type, see `SSH_FXP_INIT`. -/
def SSH_FXP_VERSION : Nat := 2
/-- Modelled from the spec: packet type, see `SSH_FXP_INIT`. -/
def SSH_FXP_OPEN : Nat := 3
/-- Modelled from the spec: packet type, see `SSH_FXP_INIT`. -/
def SSH_FXP_CLOSE : Nat := 4
/-- Modelled from the spec: packet type, see `SSH_FXP_INIT`. -/
def SSH_FXP_READ : Nat := 5
/-- Modelled from the spec: packet type, see `SSH_FXP_INIT`. -/
def SSH_FXP_WRITE : Nat := 6
/-- Modelled from the spec: packet type, see `SSH_FXP_INIT`. -/
def SSH_FXP_LSTAT : Nat := 7
/-- Modelled from the spec: packet type, see `SSH_FXP_INIT`. -/
def SSH_FXP_FSTAT : Nat := 8
/-- Modelled from the spec: packet type, see `SSH_FXP_INIT`. -/
def SSH_FXP_SETSTAT : Nat := 9
/-- Modelled from the spec: packet type, see `SSH_FXP_INIT`. -/
def SSH_FXP_FSETSTAT : Nat := 10
/-- Modelled from the spec: packet type, see `SSH_FXP_INIT`. -/
def SSH_FXP_OPENDIR : Nat := 11
/-- Modelled from the spec: packet type, see `SSH_FXP_INIT`. -/
def SSH_FXP_READDIR : Nat := 12
/-- Modelled from the spec: packet type, see `SSH_FXP_INIT`. -/
def SSH_FXP_REMOVE : Nat := 13
/-- Modelled from the spec: packet type, see `SSH_FXP_INIT`. -/
def SSH_FXP_MKDIR : Nat := 14
/-- Modelled from the spec: packet type, see `SSH_FXP_INIT`. -/
def SSH_FXP_RMDIR : Nat := 15
/-- Modelled from the spec: packet type, see `SSH_FXP_INIT`. -/
def SSH_FXP_REALPATH : Nat := 16
/-- Modelled from the spec: packet type, see `SSH_FXP_INIT`. -/
def SSH_FXP_STAT : Nat := 17
/-- Modelled from the spec: packet type, see `SSH_FXP_INIT`. -/
def SSH_FXP_RENAME : Nat := 18
/-- Modelled from the spec: packet type, see `SSH_FXP_INIT`. -/
def SSH_FXP_READLINK : Nat := 19
/-- Modelled from the spec: packet type, see `SSH_FXP_INIT`. -/
def SSH_FXP_SYMLINK : Nat := 20
/-- Modelled from the spec: packet type, see `SSH_FXP_INIT`. -/
def SSH_FXP_STATUS : Nat := 101
/-- Modelled from the spec: packet type, see `SSH_FXP_INIT`. -/
def SSH_FXP_HANDLE : Nat := 102
/-- Modelled from the spec: packet type, see `SSH_FXP_INIT`. -/
def SSH_FXP_DATA : Nat := 103
/-- Modelled from the spec: packet type, see `SSH_FXP_INIT`. -/
def SSH_FXP_NAME : Nat := 104
/-- Modelled from the spec: packet type, see `SSH_FXP_INIT`. -/
def SSH_FXP_ATTRS : Nat := 105
/-- Modelled from the spec: packet type, see `SSH_FXP_INIT`. -/
def SSH_FXP_EXTENDED : Nat := 200

/-- Modelled from the spec: the status codes `SSH_FX_*` of the package, declared in a
file that is not among the sources; numbers of draft-ietf-secsh-filexfer-02. -/
def SSH_FX_OK : Nat := 0
/-- Modelled from the spec: status code, see `SSH_FX_OK`. -/
def SSH_FX_EOF : Nat := 1
/-- Modelled from the spec: status code, see `SSH_FX_OK`. -/
def SSH_FX_NO_SUCH_FILE : Nat := 2
/-- Modelled from the spec: status code, see `SSH_FX_OK`. -/
def SSH_FX_PERMISSION_DENIED : Nat := 3
/-- Modelled from the spec: status code, see `SSH_FX_OK`. -/
def SSH_FX_FAILURE : Nat := 4
/-- Modelled from the spec: status code, see `SSH_FX_OK`. -/
def SSH_FX_BAD_MESSAGE : Nat := 5
/-- Modelled from the spec: status code, see `SSH_FX_OK`. -/
def SSH_FX_OP_UNSUPPORTED : Nat := 8

/-- Modelled from the spec: the attribute flags `SSH_FILEXFER_ATTR_*` of the package,
declared in a file that is not among the sources; numbers of
draft-ietf-secsh-filexfer-02. -/
def SSH_FILEXFER_ATTR_SIZE : Nat := 0x00000001
/-- Modelled from the spec: attribute flag, see `SSH_FILEXFER_ATTR_SIZE`. -/
def SSH_FILEXFER_ATTR_UIDGID : Nat := 0x00000002
/-- Modelled from the spec: attribute flag, see `SSH_FILEXFER_ATTR_SIZE`. -/
def SSH_FILEXFER_ATTR_PERMISSIONS : Nat := 0x00000004
/-- Modelled from the spec: attribute flag, see `SSH_FILEXFER_ATTR_SIZE`. -/
def SSH_FILEXFER_ATTR_ACMODTIME : Nat := 0x00000008
/-- Modelled from the spec: attribute flag, see `SSH_FILEXFER_ATTR_SIZE`. -/
def SSH_FILEXFER_ATTR_EXTENDED : Nat := 0x80000000

/-- Go `ATTR_SIZE` of `file_linux.go`. -/
def ATTR_SIZE : Nat := SSH_FILEXFER_ATTR_SIZE
/-- Go `ATTR_UIDGID` of `file_linux.go`. -/
def ATTR_UIDGID : Nat := SSH_FILEXFER_ATTR_UIDGID
/-- Go `ATTR_MODE` of `file_linux.go`. -/
def ATTR_MODE : Nat := SSH_FILEXFER_ATTR_PERMISSIONS
/-- Go `ATTR_TIME` of `file_linux.go`. -/
def ATTR_TIME : Nat := SSH_FILEXFER_ATTR_ACMODTIME

/-- Go `maxFiles` of `server.go`. -/
def maxFiles : Int := 0x100

/-! ## Attributes (`file_linux.go`) -/

/-- The seconds of the zero `time.Time` (January 1, year 1), as `Unix()` reports them. -/
def zeroTime : Int := -62135596800

/-- Go `Attr` of `file_linux.go`. A `time.Time` is kept as its `Unix()` seconds, the only
part of it that reaches the wire. -/
structure Attr where
  Flags : Nat
  Size : Nat
  Uid : Nat
  Gid : Nat
  User : List Nat
  Group : List Nat
  Mode : Nat
  ModeString : List Nat
  ATime : Int
  MTime : Int
  Extended : List (List Nat)
  deriving DecidableEq, Repr

/-- The zero value of `Attr` (`var a Attr`). -/
def Attr.zero : Attr :=
  { Flags := 0, Size := 0, Uid := 0, Gid := 0, User := [], Group := [], Mode := 0,
    ModeString := [], ATime := zeroTime, MTime := zeroTime, Extended := [] }

/-- Go `NamedAttr` of `file_linux.go`. -/
structure NamedAttr extends Attr where
  Name : List Nat
  deriving DecidableEq, Repr

/-! ## Wire codec (`binp`, `encoding/binary`) -/

/-- Big-endian bytes of a `uint32` (`binary.BigEndian.PutUint32`). -/
def be32 (n : Nat) : List Nat :=
  [n / 2 ^ 24 % 256, n / 2 ^ 16 % 256, n / 2 ^ 8 % 256, n % 256]

/-- Big-endian bytes of a `uint64`. -/
def be64 (n : Nat) : List Nat := be32 (n / 2 ^ 32) ++ be32 n

/-- Modelled from the spec: the chained typed reader of the wire codec (`binp.Parser`,
a package outside the sources). The parser object holds the unread bytes `rest`; every
reading method returns the object itself, or `nil` on underflow or when called on `nil`,
and a failing method leaves both the object and its destination untouched. `ok = false`
stands for a `nil` chain value over the object left in state `rest`. -/
structure Parser where
  rest : List Nat
  ok : Bool
  deriving DecidableEq, Repr

/-- Go `binp.NewParser`. -/
def NewParser (bs : List Nat) : Parser := { rest := bs, ok := true }

/-- Go `Parser.B32(&d)`: a big-endian `uint32`; returns the chain value and the new `d`. -/
def Parser.B32 (p : Parser) (d : Nat) : Parser × Nat :=
  if p.ok then
    match p.rest with
    | b0 :: b1 :: b2 :: b3 :: rest =>
      ({ rest := rest, ok := true }, ((b0 * 256 + b1) * 256 + b2) * 256 + b3)
    | _ => ({ p with ok := false }, d)
  else (p, d)

/-- Go `Parser.B64(&d)`: a big-endian `uint64`. -/
def Parser.B64 (p : Parser) (d : Nat) : Parser × Nat :=
  if p.ok ∧ 8 ≤ p.rest.length then
    let hi := ({ rest := p.rest, ok := true } : Parser).B32 0
    let lo := hi.1.B32 0
    (lo.1, hi.2 * 2 ^ 32 + lo.2)
  else ({ p with ok := false }, d)

/-- Go `Parser.NBytesPeek(n, &d)`: the next `n` bytes. -/
def Parser.NBytesPeek (p : Parser) (n : Nat) (d : List Nat) : Parser × List Nat :=
  if p.ok ∧ n ≤ p.rest.length then
    ({ rest := p.rest.drop n, ok := true }, p.rest.take n)
  else ({ p with ok := false }, d)

/-- Go `Parser.B32String(&d)`: a `uint32` length, then that many bytes. -/
def Parser.B32String (p : Parser) (d : List Nat) : Parser × List Nat :=
  let l := p.B32 0
  if l.1.ok ∧ l.2 ≤ l.1.rest.length then
    ({ rest := l.1.rest.drop l.2, ok := true }, l.1.rest.take l.2)
  else ({ p with ok := false }, d)

/-- The error that `Parser.End` reports. -/
def errParse : GoError := .other "binp: parse error"

/-- Go `Parser.End()`: `nil` exactly when the chain is alive and all input is consumed. -/
def Parser.End (p : Parser) : Option GoError :=
  if p.ok ∧ p.rest = [] then none else some errParse

/-- Modelled from the spec: the packet builder of the wire codec (`binp.Printer`, a
package outside the sources): the bytes emitted so far; every method appends in place and
returns the printer. -/
structure Printer where
  w : List Nat
  deriving DecidableEq, Repr

/-- Go `binp.Out()` (and `binp.OutCap`): an empty printer. -/
def Out : Printer := { w := [] }
/-- Go `Printer.Out()`: the bytes. -/
def Printer.Out (o : Printer) : List Nat := o.w
/-- Go `Printer.Byte` / `Printer.B8`. -/
def Printer.Byte (o : Printer) (b : Nat) : Printer := { w := o.w ++ [b % 256] }
/-- Go `Printer.B32`. -/
def Printer.B32 (o : Printer) (d : Nat) : Printer := { w := o.w ++ be32 d }
/-- Go `Printer.B64`. -/
def Printer.B64 (o : Printer) (d : Nat) : Printer := { w := o.w ++ be64 d }
/-- Go `Printer.B32String`: `uint32` length, then the bytes. -/
def Printer.B32String (o : Printer) (s : List Nat) : Printer :=
  { w := o.w ++ be32 s.length ++ s }
/-- Go `Out().LenB32(&l).LenStart(&l)` ... `LenDone(&l)` ... `Out()` around a packet body:
the `uint32` placeholder at the front is patched with the number of bytes after it. -/
def Printer.withLen (body : Printer) : List Nat := be32 body.w.length ++ body.w

/-! ## Attribute marshalling (`server.go`) -/

/-- Go `inTimes` of `server.go`. -/
def inTimes (p : Parser) (a : Attr) : Parser × Attr :=
  let ra := p.B32 0
  let rm := ra.1.B32 0
  (rm.1, { a with ATime := (ra.2 : Int), MTime := (rm.2 : Int) })

/-- The loop of `parseAttr` over the `count` extended pairs; `k` and `v` start empty in
every round. -/
def parseExtended (p : Parser) : Nat → Parser × List (List Nat)
  | 0 => (p, [])
  | n + 1 =>
    let k := p.B32String []
    let v := k.1.B32String []
    let r := parseExtended v.1 n
    (r.1, k.2 :: v.2 :: r.2)

/-- Go `parseAttr` of `server.go`: returns the chain value and the attribute as written
through the pointer `a`. -/
def parseAttr (p : Parser) (a : Attr) : Parser × Attr :=
  let r := p.B32 a.Flags
  let p := r.1
  let a := { a with Flags := r.2 }
  let r :=
    if a.Flags &&& SSH_FILEXFER_ATTR_SIZE ≠ 0 then
      ((p.B64 a.Size).1, { a with Size := (p.B64 a.Size).2 })
    else (p, a)
  let p := r.1
  let a := r.2
  let r :=
    if a.Flags &&& SSH_FILEXFER_ATTR_UIDGID ≠ 0 then
      (((p.B32 a.Uid).1.B32 a.Gid).1,
        { a with Uid := (p.B32 a.Uid).2, Gid := ((p.B32 a.Uid).1.B32 a.Gid).2 })
    else (p, a)
  let p := r.1
  let a := r.2
  let r :=
    if a.Flags &&& SSH_FILEXFER_ATTR_PERMISSIONS ≠ 0 then
      ((p.B32 0).1, { a with Mode := sftpToFileMode (p.B32 0).2 })
    else (p, a)
  let p := r.1
  let a := r.2
  let r := if a.Flags &&& SSH_FILEXFER_ATTR_ACMODTIME ≠ 0 then inTimes p a else (p, a)
  let p := r.1
  let a := r.2
  if a.Flags &&& SSH_FILEXFER_ATTR_EXTENDED ≠ 0 then
    let c := p.B32 0
    if c.2 > 0xFF then ({ c.1 with ok := false }, a)
    else ((parseExtended c.1 c.2).1, { a with Extended := (parseExtended c.1 c.2).2 })
  else (p, a)

/-- Go `uint32(t.Unix())`. -/
def unix32 (t : Int) : Nat := (t % 2 ^ 32).toNat

/-- Go `outTimes` of `server.go`. -/
def outTimes (o : Printer) (a : Attr) : Printer :=
  (o.B32 (unix32 a.ATime)).B32 (unix32 a.MTime)

/-- The packet `o.Out()` that `writeAttr` builds when its error argument is `nil`. -/
def attrPacket (id : Nat) (a : Attr) : List Nat :=
  let o := ((Out.Byte SSH_FXP_ATTRS).B32 id).B32 a.Flags
  let o := if a.Flags &&& SSH_FILEXFER_ATTR_SIZE ≠ 0 then o.B64 a.Size else o
  let o := if a.Flags &&& SSH_FILEXFER_ATTR_UIDGID ≠ 0 then (o.B32 a.Uid).B32 a.Gid else o
  let o :=
    if a.Flags &&& SSH_FILEXFER_ATTR_PERMISSIONS ≠ 0 then o.B32 (fileModeToSftp a.Mode) else o
  let o := if a.Flags &&& SSH_FILEXFER_ATTR_ACMODTIME ≠ 0 then outTimes o a else o
  let o :=
    if a.Flags &&& SSH_FILEXFER_ATTR_EXTENDED ≠ 0 then
      a.Extended.foldl (fun o s => Printer.B32String o s)
        (o.B32 ((a.Extended.length / 2) % 2 ^ 32))
    else o
  o.withLen

/-- The bytes of a `writeAttr` packet after the length, the packet type and the id. -/
def attrBytes (a : Attr) : List Nat := (attrPacket 0 a).drop 9

/-- The packet of `writeResponse`: the 21-byte template with the id at `bs[5:]` and the
code at `bs[12]`. -/
def statusPacket (id code : Nat) : List Nat :=
  [0, 0, 0, 1 + 4 + 4 + 4 + 4, SSH_FXP_STATUS] ++ be32 id ++ [0, 0, 0, code % 256]
    ++ [0, 0, 0, 0, 0, 0, 0, 0]

/-- The packet of `writeHandle`. -/
def handlePacket (id : Nat) (handle : List Nat) : List Nat :=
  ((((Out.B32 (9 + handle.length)).Byte SSH_FXP_HANDLE).B32 id).B32String handle).Out

/-- The packet of `writeNameOnly` when its error argument is `nil`. -/
def nameOnlyPacket (id : Nat) (path : List Nat) : List Nat :=
  let o := ((Out.Byte SSH_FXP_NAME).B32 id).B32 1
  let o := ((o.B32String path).B32String path).B32 0
  o.withLen

/-- The header that the READ case writes in front of the data. -/
def dataHeader (id n : Nat) : List Nat :=
  ((((Out.B32 (1 + 4 + 4 + n)).Byte SSH_FXP_DATA).B32 id).B32 n).Out

/-- Go `initReply` of `server.go`. -/
def initReply : List Nat := [0, 0, 0, 5, SSH_FXP_VERSION, 0, 0, 0, 3]

/-! ## Text recoding (`server.go`) -/

/-- Go `preNUm` of `server.go`: the number of leading `'1'` of `fmt.Sprintf("%b", data)`. -/
def preNUm (data : Nat) : Nat :=
  ((Nat.toDigits 2 data).takeWhile (fun ch => ch == '1')).length

/-- The inner `for j` loop of `isUtf8`, `k` rounds from index `i`: `none` is the
index-out-of-range panic at `data[i]`, `some none` is `return false`, `some (some i)`
leaves the loop at index `i`. -/
def isUtf8Cont (data : List Nat) : Nat → Nat → Option (Option Nat)
  | 0, i => some (some i)
  | k + 1, i =>
    match data[i]? with
    | none => none
    | some b => if b &&& 0xc0 ≠ 0x80 then some none else isUtf8Cont data k (i + 1)

/-- The outer loop of `isUtf8` from index `i`; `none` is a panic. The first argument
bounds the number of rounds (`i` grows in each). -/
def isUtf8Loop (data : List Nat) : Nat → Nat → Option Bool
  | 0, _ => some true
  | fuel + 1, i =>
    if i < data.length then
      match data[i]? with
      | none => none
      | some b =>
        if b &&& 0x80 = 0x00 then isUtf8Loop data fuel (i + 1)
        else if preNUm b > 2 then
          match isUtf8Cont data (preNUm b - 1) (i + 1) with
          | none => none
          | some none => some false
          | some (some j) => isUtf8Loop data fuel j
        else some false
    else some true

/-- Go `isUtf8` of `server.go`; `none` is the index-out-of-range panic. -/
def isUtf8 (data : List Nat) : Option Bool := isUtf8Loop data (data.length + 1) 0

/-- The loop of `isGbk` from index `i`; `none` is a panic. -/
def isGbkLoop (data : List Nat) : Nat → Nat → Option Bool
  | 0, _ => some true
  | fuel + 1, i =>
    if i < data.length then
      match data[i]? with
      | none => none
      | some b =>
        if b ≤ 0xff then isGbkLoop data fuel (i + 1)
        else if b ≥ 0x81 ∧ b ≤ 0xfe then
          match data[i + 1]? with
          | none => none
          | some b2 =>
            if b2 ≥ 0x40 ∧ b2 ≤ 0xfe ∧ b2 ≠ 0xf7 then isGbkLoop data fuel (i + 2)
            else some false
        else some false
    else some true

/-- Go `isGbk` of `server.go`. -/
def isGbk (data : List Nat) : Option Bool := isGbkLoop data (data.length + 1) 0

/-- The GB18030 transcoders of `golang.org/x/text` (outside the sources), taken as
parameters; `none` is a transcoding error. -/
structure Codec where
  decode : List Nat → Option (List Nat)
  encode : List Nat → Option (List Nat)

/-- Go `gb18030ToUtf8` of `server.go`; `none` is a panic. -/
def gb18030ToUtf8 (cd : Codec) (gb18030 : List Nat) : Option (List Nat) :=
  match isUtf8 gb18030 with
  | none => none
  | some true => some gb18030
  | some false =>
    match isGbk gb18030 with
    | none => none
    | some true =>
      match cd.decode gb18030 with
      | some utf8 => some utf8
      | none => some gb18030
    | some false => some gb18030

/-- Go `utf8ToGb18030` of `server.go`; `none` is a panic. -/
def utf8ToGb18030 (cd : Codec) (utf8 : List Nat) : Option (List Nat) :=
  match isUtf8 utf8 with
  | none => none
  | some true =>
    match cd.encode utf8 with
    | some gb18030 => some gb18030
    | none => some utf8
  | some false =>
    match isGbk utf8 with
    | none => none
    | some _ => some utf8

/-! ## Handle table (`handle.go`) -/

/-- Go `delete(m, k)` on a Go map, kept as an association list without repeated keys. -/
def mapDelete (m : List (List Nat × Nat)) (k : List Nat) : List (List Nat × Nat) :=
  m.filter (fun kv => decide (kv.1 ≠ k))

/-- Go `m[k] = v` on a Go map. -/
def mapSet (m : List (List Nat × Nat)) (k : List Nat) (v : Nat) : List (List Nat × Nat) :=
  mapDelete m k ++ [(k, v)]

/-- Go `x, ok := m[k]` on a Go map. -/
def mapGet (m : List (List Nat × Nat)) (k : List Nat) : Option Nat :=
  (m.find? (fun kv => decide (kv.1 = k))).map (fun kv => kv.2)

/-- Go `Handles` of `handle.go`. Files and directories are object references handed out
by the backend (never `nil`), kept as numbers. -/
structure Handles where
  f : List (List Nat × Nat)
  d : List (List Nat × Nat)
  c : Int
  deriving DecidableEq, Repr

/-- The zero value `var h Handles`. -/
def Handles.zero : Handles := { f := [], d := [], c := 0 }

/-- Go `Handles.Init`. -/
def Handles.Init (h : Handles) : Handles := { h with f := [], d := [] }

/-- An object on which `Close()` is called. -/
inductive Closed where
  | file (f : Nat)
  | dir (d : Nat)
  deriving DecidableEq, Repr

/-- Go `Handles.CloseAll`: the table afterwards and the objects closed, files first (a Go
`range` over a map visits the entries in an unspecified order; the list order is taken). -/
def Handles.CloseAll (h : Handles) : Handles × List Closed :=
  ({ h with c := 0 }, h.f.map (fun kv => Closed.file kv.2) ++ h.d.map (fun kv => Closed.dir kv.2))

/-- Go `Handles.CloseHandle`: the table afterwards and the objects closed. -/
def Handles.CloseHandle (h : Handles) (k : List Nat) : Handles × List Closed :=
  match k with
  | [] => (h, [])
  | k0 :: _ =>
    if k0 = 102 then
      ({ h with f := mapDelete h.f k },
        match mapGet h.f k with
        | some x => [Closed.file x]
        | none => [])
    else if k0 = 100 then
      ({ h with d := mapDelete h.d k },
        match mapGet h.d k with
        | some x => [Closed.dir x]
        | none => [])
    else (h, [])

/-- Go `Handles.Nfiles`. -/
def Handles.Nfiles (h : Handles) : Int := h.f.length

/-- Go `Handles.Ndir`. -/
def Handles.Ndir (h : Handles) : Int := h.d.length

/-- Go `h.c++` on an `int64`. -/
def incInt64 (c : Int) : Int := if c + 1 ≥ 2 ^ 63 then c + 1 - 2 ^ 64 else c + 1

/-- The character of a hexadecimal digit: `0`-`9`, `a`-`f`. -/
def hexDigit (d : Nat) : Nat := if d < 10 then 48 + d else 87 + d

/-- The hexadecimal digits of `n` in front of `acc`, most significant first; `fuel`
bounds the number of digits (16 cover 64 bits). -/
def hexDigits : Nat → Nat → List Nat → List Nat
  | 0, _, acc => acc
  | fuel + 1, n, acc =>
    if n < 16 then hexDigit n :: acc else hexDigits fuel (n / 16) (hexDigit (n % 16) :: acc)

/-- Go `strconv.FormatInt(c, 16)` as bytes, for an `int64`: a minus sign for negative
numbers, lower-case digits. -/
def FormatInt16 (c : Int) : List Nat :=
  if c < 0 then 45 :: hexDigits 16 (-c).toNat [] else hexDigits 16 c.toNat []

/-- Go `Handles.NewFile`: the table afterwards and the handle. -/
def Handles.NewFile (h : Handles) (f : Nat) : Handles × List Nat :=
  let c := incInt64 h.c
  let k := 102 :: FormatInt16 c
  ({ h with c := c, f := mapSet h.f k f }, k)

/-- Go `Handles.NewDir`: the table afterwards and the handle. -/
def Handles.NewDir (h : Handles) (f : Nat) : Handles × List Nat :=
  let c := incInt64 h.c
  let k := 100 :: FormatInt16 c
  ({ h with c := c, d := mapSet h.d k f }, k)

/-- Go `Handles.GetFile`; `none` is `nil`. -/
def Handles.GetFile (h : Handles) (n : List Nat) : Option Nat := mapGet h.f n

/-- Go `Handles.GetDir`; `none` is `nil`. -/
def Handles.GetDir (h : Handles) (n : List Nat) : Option Nat := mapGet h.d n

/-! ## The backend interface (`file_linux.go`) -/

/-- The interfaces `FileSystem`, `File` and `Dir` of `file_linux.go` over a backend
with state `σ`: every method takes the backend state and returns the new one with its
results. A `File` or `Dir` is an object reference (a number). `ReadAt` receives the
length of the buffer and returns the bytes it filled in; the other methods follow their
Go signatures, a `(T, error)` result being `Except` where the server looks at `T` only
when the error is `nil`. -/
structure FileSystem (σ : Type) where
  OpenFile : σ → List Nat → Nat → Attr → σ × Except GoError Nat
  OpenDir : σ → List Nat → σ × Except GoError Nat
  Remove : σ → List Nat → σ × Option GoError
  Rename : σ → List Nat → List Nat → Nat → σ × Option GoError
  Mkdir : σ → List Nat → Attr → σ × Option GoError
  Rmdir : σ → List Nat → σ × Option GoError
  Stat : σ → List Nat → Bool → σ × Except GoError Attr
  SetStat : σ → List Nat → Attr → σ × Option GoError
  ReadLink : σ → List Nat → σ × (List Nat × Option GoError)
  CreateLink : σ → List Nat → List Nat → Nat → σ × Option GoError
  RealPath : σ → List Nat → σ × (List Nat × Option GoError)
  FileClose : σ → Nat → σ × Option GoError
  ReadAt : σ → Nat → Nat → Int → σ × (List Nat × Option GoError)
  WriteAt : σ → Nat → List Nat → Int → σ × (Nat × Option GoError)
  FStat : σ → Nat → σ × Except GoError Attr
  FSetStat : σ → Nat → Attr → σ × Option GoError
  DirClose : σ → Nat → σ × Option GoError
  Readdir : σ → Nat → Int → σ × (List NamedAttr × Option GoError)

/-- A call made on the backend, for the log of calls kept next to the session. -/
inductive Call where
  | OpenFile (name : List Nat) (flags : Nat) (a : Attr)
  | OpenDir (name : List Nat)
  | Remove (name : List Nat)
  | Rename (old new : List Nat) (flags : Nat)
  | Mkdir (name : List Nat) (a : Attr)
  | Rmdir (name : List Nat)
  | Stat (name : List Nat) (islstat : Bool)
  | SetStat (name : List Nat) (a : Attr)
  | ReadLink (path : List Nat)
  | RealPath (path : List Nat)
  | FileClose (f : Nat)
  | ReadAt (f : Nat) (len : Nat) (off : Int)
  | WriteAt (f : Nat) (bs : List Nat) (off : Int)
  | FStat (f : Nat)
  | FSetStat (f : Nat) (a : Attr)
  | DirClose (d : Nat)
  | Readdir (d : Nat) (count : Int)
  deriving DecidableEq, Repr

/-- Go `simpleRealPath` of `emptyfs.go`; `clean` stands for `path.Clean` of the Go library. -/
def simpleRealPath (clean : List Nat → List Nat) (fp : List Nat) : List Nat :=
  if fp = [] ∨ fp = [46] then [47] else clean fp

/-- Go `EmptyFS`, `EmptyFile` and `EmptyDir` of `emptyfs.go`: a backend without state. -/
def EmptyFS (clean : List Nat → List Nat) : FileSystem Unit where
  OpenFile := fun u _ _ _ => (u, .error Failure)
  OpenDir := fun u _ => (u, .error Failure)
  Remove := fun u _ => (u, some Failure)
  Rename := fun u _ _ _ => (u, some Failure)
  Mkdir := fun u _ _ => (u, some Failure)
  Rmdir := fun u _ => (u, some Failure)
  Stat := fun u _ _ => (u, .error Failure)
  SetStat := fun u _ _ => (u, some Failure)
  ReadLink := fun u _ => (u, ([], some Failure))
  CreateLink := fun u _ _ _ => (u, some Failure)
  RealPath := fun u p => (u, (simpleRealPath clean p, none))
  FileClose := fun u _ => (u, none)
  ReadAt := fun u _ _ _ => (u, ([], some Failure))
  WriteAt := fun u _ _ _ => (u, (0, some Failure))
  FStat := fun u _ => (u, .error Failure)
  FSetStat := fun u _ _ => (u, some Failure)
  DirClose := fun u _ => (u, none)
  Readdir := fun u _ _ => (u, ([], some Failure))

/-! ## The session (`server.go`) -/

/-- What surrounds a session: the backend, the error (if any) that the `k`-th `Write`
on the channel returns, the transcoders, `readdirLongName` (it reads the clock and the
user database; taken as a parameter) and the argument `sysType`. -/
structure Env (σ : Type) where
  fs : FileSystem σ
  werr : Nat → Option GoError
  codec : Codec
  longName : NamedAttr → Int → List Nat
  sysType : Int

/-- The `ssh.Channel` behind its 64 KiB `bufio.Reader`: the bytes not yet consumed
(after them every read reports `io.EOF`), the `Write` calls so far with the error each
returned, and whether `Close` was called. -/
structure Channel where
  input : List Nat
  writes : List (List Nat × Option GoError)
  closed : Bool
  deriving DecidableEq, Repr

/-- The variables of `ServeChannel` that live across loop rounds, the backend state and
the log of backend calls. -/
structure State (σ : Type) where
  c : Channel
  h : Handles
  e : Option GoError
  plen : Int
  id : Nat
  fs : σ
  calls : List Call

/-- How a round of the loop ends: the next round starts (`continue`, or the end of the
body with `e == nil`), `ServeChannel` returns `e`, or the goroutine panics. -/
inductive Step (σ : Type) where
  | next (s : State σ)
  | ret (s : State σ) (e : Option GoError)
  | panic (s : State σ)

/-- The state in which a round ends. -/
def Step.state {σ : Type} : Step σ → State σ
  | .next s => s
  | .ret s _ => s
  | .panic s => s

/-- Go `wrc` of `server.go`: one `Write` on the channel. -/
def wrc {σ : Type} (env : Env σ) (s : State σ) (bs : List Nat) : State σ × Option GoError :=
  ({ s with c := { s.c with writes := s.c.writes ++ [(bs, env.werr s.c.writes.length)] } },
    env.werr s.c.writes.length)

/-- Go `writeResponse` of `server.go`. -/
def writeResponse {σ : Type} (env : Env σ) (s : State σ) (id code : Nat) :
    State σ × Option GoError :=
  wrc env s (statusPacket id code)

/-- Go `writeHandle` of `server.go`. -/
def writeHandle {σ : Type} (env : Env σ) (s : State σ) (id : Nat) (handle : List Nat) :
    State σ × Option GoError :=
  wrc env s (handlePacket id handle)

/-- Go `writeAttr` of `server.go`, on the result `(a, e)` of the backend. -/
def writeAttr {σ : Type} (env : Env σ) (s : State σ) (id : Nat) (r : Except GoError Attr) :
    State σ × Option GoError :=
  match r with
  | .error _ => writeResponse env s id SSH_FX_FAILURE
  | .ok a => wrc env s (attrPacket id a)

/-- Go `writeNameOnly` of `server.go`. -/
def writeNameOnly {σ : Type} (env : Env σ) (s : State σ) (id : Nat) (path : List Nat)
    (e : Option GoError) : State σ × Option GoError :=
  if e ≠ none then writeResponse env s id SSH_FX_FAILURE
  else wrc env s (nameOnlyPacket id path)

/-- Go `discard` of `server.go` on the unread input: up to `n` bytes are dropped. -/
def discard (input : List Nat) (n : Int) : List Nat := input.drop n.toNat

/-- Go `readPacketHeader` of `server.go`: the unread input afterwards, then the three
results. Short input is used up by `io.ReadFull`, which reports `io.EOF` when it read
nothing and `io.ErrUnexpectedEOF` otherwise. -/
def readPacketHeader (input : List Nat) : List Nat × Int × Nat × Option GoError :=
  match input with
  | b0 :: b1 :: b2 :: b3 :: b4 :: rest =>
    (rest, ((((b0 * 256 + b1) * 256 + b2) * 256 + b3 : Nat) : Int), b4, none)
  | [] => ([], 0, 0, some GoError.EOF)
  | _ => ([], 0, 0, some (GoError.other "unexpected EOF"))

/-- Go `brd.Peek(plen)` on the 64 KiB reader for `plen ≥ 0`: the bytes, or the error. -/
def peek (input : List Nat) (plen : Int) : Except GoError (List Nat) :=
  if plen > 64 * 1024 then .error (GoError.other "bufio: buffer full")
  else if (input.length : Int) < plen then .error GoError.EOF
  else .ok (input.take plen.toNat)

/-- The end of the loop body: `if e != nil { return e }`. -/
def finish {σ : Type} (s : State σ) : Step σ :=
  match s.e with
  | some e => .ret s (some e)
  | none => .next s

/-- The reply of the mutating requests:
`if e != nil { e = writeResponse(c, id, SSH_FX_FAILURE, e) }` and then
`e = writeResponse(c, id, SSH_FX_OK, nil)`. -/
def statusReply {σ : Type} (env : Env σ) (s : State σ) : State σ :=
  let s :=
    if s.e ≠ none then
      { (writeResponse env s s.id SSH_FX_FAILURE).1 with
        e := (writeResponse env s s.id SSH_FX_FAILURE).2 }
    else s
  { (writeResponse env s s.id SSH_FX_OK).1 with e := (writeResponse env s s.id SSH_FX_OK).2 }

/-- Go `int64(offset)` of a `uint64`. -/
def toInt64 (n : Nat) : Int :=
  if n % 2 ^ 64 ≥ 2 ^ 63 then (n % 2 ^ 64 : Nat) - 2 ^ 64 else (n % 2 ^ 64 : Nat)

/-- Go `x.Close()` on each object of the list, in order. -/
def closeObjects {σ : Type} (env : Env σ) (s : State σ) : List Closed → State σ
  | [] => s
  | Closed.file f :: rest =>
    closeObjects env
      { s with fs := (env.fs.FileClose s.fs f).1, calls := s.calls ++ [Call.FileClose f] } rest
  | Closed.dir d :: rest =>
    closeObjects env
      { s with fs := (env.fs.DirClose s.fs d).1, calls := s.calls ++ [Call.DirClose d] } rest

/-- Go `h.CloseHandle(handle)` inside the session. -/
def closeHandle {σ : Type} (env : Env σ) (s : State σ) (k : List Nat) : State σ :=
  closeObjects env { s with h := (s.h.CloseHandle k).1 } (s.h.CloseHandle k).2

/-- The bytes of a Go string literal. -/
def strBytes (str : String) : List Nat := str.toList.map Char.toNat

/-! ### The cases of the `switch op`

Every case receives the state at the `switch` (where `e` is `nil`) and
`p = binp.NewParser(bs)`. -/

/-- The `case SSH_FXP_INIT`. -/
def caseINIT {σ : Type} (env : Env σ) (s : State σ) : Step σ :=
  finish { (wrc env s initReply).1 with e := (wrc env s initReply).2 }

/-- The `case SSH_FXP_OPEN`. -/
def caseOPEN {σ : Type} (env : Env σ) (s : State σ) (p : Parser) : Step σ :=
  let rid := p.B32 s.id
  let rpath := rid.1.B32String []
  let rflags := rpath.1.B32 0
  let ra := parseAttr rflags.1 Attr.zero
  let e := ra.1.End
  let s := { s with id := rid.2, e := e }
  if e ≠ none then .ret (writeResponse env s s.id SSH_FX_BAD_MESSAGE).1 e
  else if s.h.Nfiles ≥ maxFiles then
    .next (writeResponse env s s.id SSH_FX_PERMISSION_DENIED).1
  else
    match gb18030ToUtf8 env.codec rpath.2 with
    | none => .panic s
    | some path =>
      let r := env.fs.OpenFile s.fs path rflags.2 ra.2
      let s := { s with fs := r.1, calls := s.calls ++ [Call.OpenFile path rflags.2 ra.2] }
      match r.2 with
      | .error err => .next (writeResponse env { s with e := some err } s.id SSH_FX_NO_SUCH_FILE).1
      | .ok f =>
        let nh := s.h.NewFile f
        let w := writeHandle env { s with h := nh.1 } s.id nh.2
        finish { w.1 with e := w.2 }

/-- The `case SSH_FXP_CLOSE`. -/
def caseCLOSE {σ : Type} (env : Env σ) (s : State σ) (p : Parser) : Step σ :=
  let rid := p.B32 s.id
  let rhandle := rid.1.B32String []
  let e := rhandle.1.End
  let s := { s with id := rid.2, e := e }
  if e ≠ none then .ret (writeResponse env s s.id SSH_FX_BAD_MESSAGE).1 e
  else
    let s := closeHandle env s rhandle.2
    let w := writeResponse env s s.id SSH_FX_OK
    finish { w.1 with e := w.2 }

/-- The `case SSH_FXP_READ`. The backend fills at most the `length` bytes of the buffer. -/
def caseREAD {σ : Type} (env : Env σ) (s : State σ) (p : Parser) : Step σ :=
  let rid := p.B32 s.id
  let rhandle := rid.1.B32String []
  let roffset := rhandle.1.B64 0
  let rlength := roffset.1.B32 0
  let e := rlength.1.End
  let s := { s with id := rid.2, e := e }
  if e ≠ none then .ret (writeResponse env s s.id SSH_FX_BAD_MESSAGE).1 e
  else
    match s.h.GetFile rhandle.2 with
    | none => .next (writeResponse env s s.id SSH_FX_NO_SUCH_FILE).1
    | some f =>
      let length := if rlength.2 > 64 * 1024 then 64 * 1024 else rlength.2
      let rd := env.fs.ReadAt s.fs f length (toInt64 roffset.2)
      let bs := rd.2.1.take length
      let n := bs.length
      let s := { s with fs := rd.1, calls := s.calls ++ [Call.ReadAt f length (toInt64 roffset.2)] }
      let e := if rd.2.2 = some GoError.EOF ∧ n > 0 then none else rd.2.2
      let s := { s with e := e }
      if e ≠ none then .next s
      else
        let w := wrc env s (dataHeader s.id n)
        if w.2 = none then finish { (wrc env w.1 bs).1 with e := (wrc env w.1 bs).2 }
        else finish { w.1 with e := w.2 }

/-- The `case SSH_FXP_WRITE`. The first chain is not checked and its value is dropped;
`p.NBytesPeek` is then called on the parser object itself. -/
def caseWRITE {σ : Type} (env : Env σ) (s : State σ) (p : Parser) : Step σ :=
  let rid := p.B32 s.id
  let rhandle := rid.1.B32String []
  let roffset := rhandle.1.B64 0
  let rlength := roffset.1.B32 0
  let s := { s with id := rid.2 }
  match s.h.GetFile rhandle.2 with
  | none => .next (writeResponse env s s.id SSH_FX_NO_SUCH_FILE).1
  | some f =>
    let rbs := ({ rlength.1 with ok := true } : Parser).NBytesPeek rlength.2 []
    let e := rbs.1.End
    let s := { s with e := e }
    if e ≠ none then .ret (writeResponse env s s.id SSH_FX_BAD_MESSAGE).1 e
    else
      let wr := env.fs.WriteAt s.fs f rbs.2 (toInt64 roffset.2)
      let s := { s with fs := wr.1, calls := s.calls ++ [Call.WriteAt f rbs.2 (toInt64 roffset.2)],
                        e := wr.2.2 }
      finish (statusReply env s)

/-- The `case SSH_FXP_LSTAT, SSH_FXP_STAT`. -/
def caseSTAT {σ : Type} (env : Env σ) (s : State σ) (p : Parser) (op : Nat) : Step σ :=
  let rid := p.B32 s.id
  let rpath := rid.1.B32String []
  let e := rpath.1.End
  let s := { s with id := rid.2, e := e }
  if e ≠ none then .ret (writeResponse env s s.id SSH_FX_BAD_MESSAGE).1 e
  else
    match gb18030ToUtf8 env.codec rpath.2 with
    | none => .panic s
    | some path =>
      let r := env.fs.Stat s.fs path (decide (op = SSH_FXP_LSTAT))
      let s := { s with fs := r.1,
                        calls := s.calls ++ [Call.Stat path (decide (op = SSH_FXP_LSTAT))] }
      let w := writeAttr env s s.id r.2
      finish { w.1 with e := w.2 }

/-- The `case SSH_FXP_FSTAT`. -/
def caseFSTAT {σ : Type} (env : Env σ) (s : State σ) (p : Parser) : Step σ :=
  let rid := p.B32 s.id
  let rhandle := rid.1.B32String []
  let e := rhandle.1.End
  let s := { s with id := rid.2, e := e }
  if e ≠ none then .ret (writeResponse env s s.id SSH_FX_BAD_MESSAGE).1 e
  else
    match s.h.GetFile rhandle.2 with
    | none => .next (writeResponse env s s.id SSH_FX_NO_SUCH_FILE).1
    | some f =>
      let r := env.fs.FStat s.fs f
      let s := { s with fs := r.1, calls := s.calls ++ [Call.FStat f] }
      let w := writeAttr env s s.id r.2
      finish { w.1 with e := w.2 }

/-- The `case SSH_FXP_SETSTAT`. -/
def caseSETSTAT {σ : Type} (env : Env σ) (s : State σ) (p : Parser) : Step σ :=
  let rid := p.B32 s.id
  let rpath := rid.1.B32String []
  let ra := parseAttr rpath.1 Attr.zero
  let e := ra.1.End
  let s := { s with id := rid.2, e := e }
  if e ≠ none then .ret (writeResponse env s s.id SSH_FX_BAD_MESSAGE).1 e
  else
    match gb18030ToUtf8 env.codec rpath.2 with
    | none => .panic s
    | some path =>
      let r := env.fs.SetStat s.fs path ra.2
      let s := { s with fs := r.1, calls := s.calls ++ [Call.SetStat path ra.2], e := r.2 }
      finish (statusReply env s)

/-- The `case SSH_FXP_FSETSTAT`. -/
def caseFSETSTAT {σ : Type} (env : Env σ) (s : State σ) (p : Parser) : Step σ :=
  let rid := p.B32 s.id
  let rhandle := rid.1.B32String []
  let ra := parseAttr rhandle.1 Attr.zero
  let e := ra.1.End
  let s := { s with id := rid.2, e := e }
  if e ≠ none then .ret (writeResponse env s s.id SSH_FX_BAD_MESSAGE).1 e
  else
    match s.h.GetFile rhandle.2 with
    | none => .next (writeResponse env s s.id SSH_FX_NO_SUCH_FILE).1
    | some f =>
      let r := env.fs.FSetStat s.fs f ra.2
      let s := { s with fs := r.1, calls := s.calls ++ [Call.FSetStat f ra.2], e := r.2 }
      finish (statusReply env s)

/-- The `case SSH_FXP_OPENDIR`. -/
def caseOPENDIR {σ : Type} (env : Env σ) (s : State σ) (p : Parser) : Step σ :=
  let rid := p.B32 s.id
  let rpath := rid.1.B32String []
  let e := rpath.1.End
  let s := { s with id := rid.2, e := e }
  if e ≠ none then .ret (writeResponse env s s.id SSH_FX_BAD_MESSAGE).1 e
  else
    match gb18030ToUtf8 env.codec rpath.2 with
    | none => .panic s
    | some path =>
      let r := env.fs.OpenDir s.fs path
      let s := { s with fs := r.1, calls := s.calls ++ [Call.OpenDir path] }
      match r.2 with
      | .error err => .next (writeResponse env { s with e := some err } s.id SSH_FX_NO_SUCH_FILE).1
      | .ok dh =>
        let nh := s.h.NewDir dh
        let w := writeHandle env { s with h := nh.1 } s.id nh.2
        finish { w.1 with e := w.2 }

/-- One round of the `for _, fi := range fis` loop of the READDIR case; `none` is a
panic. -/
def nameEntry {σ : Type} (env : Env σ) (o : Printer) (fi : NamedAttr) : Option Printer :=
  match utf8ToGb18030 env.codec fi.Name with
  | none => none
  | some n =>
    let o := ((o.B32String n).B32String (env.longName fi env.sysType)).B32 fi.Flags
    let o := if fi.Flags &&& ATTR_SIZE ≠ 0 then o.B64 fi.Size else o
    let o := if fi.Flags &&& ATTR_UIDGID ≠ 0 then (o.B32 fi.Uid).B32 fi.Gid else o
    let o := if fi.Flags &&& ATTR_MODE ≠ 0 then o.B32 (fileModeToSftp fi.Mode) else o
    let o := if fi.Flags &&& ATTR_TIME ≠ 0 then outTimes o fi.toAttr else o
    some o

/-- The `for _, fi := range fis` loop of the READDIR case. -/
def nameEntries {σ : Type} (env : Env σ) (o : Printer) : List NamedAttr → Option Printer
  | [] => some o
  | fi :: rest =>
    match nameEntry env o fi with
    | none => none
    | some o => nameEntries env o rest

/-- The `case SSH_FXP_READDIR`. -/
def caseREADDIR {σ : Type} (env : Env σ) (s : State σ) (p : Parser) : Step σ :=
  let rid := p.B32 s.id
  let rhandle := rid.1.B32String []
  let e := rhandle.1.End
  let s := { s with id := rid.2, e := e }
  if e ≠ none then .ret (writeResponse env s s.id SSH_FX_BAD_MESSAGE).1 e
  else
    match s.h.GetDir rhandle.2 with
    | none => .next (writeResponse env s s.id SSH_FX_NO_SUCH_FILE).1
    | some f =>
      let r := env.fs.Readdir s.fs f 1024
      let s := { s with fs := r.1, calls := s.calls ++ [Call.Readdir f 1024], e := r.2.2 }
      if s.e = some GoError.EOF then
        let s := { s with e := none }
        let s := (writeResponse env s s.id SSH_FX_EOF).1
        .next (closeHandle env s rhandle.2)
      else if s.e ≠ none then .next (writeResponse env s s.id SSH_FX_FAILURE).1
      else
        let o := ((Out.Byte SSH_FXP_NAME).B32 s.id).B32 (r.2.1.length % 2 ^ 32)
        match nameEntries env o r.2.1 with
        | none => .panic s
        | some o =>
          let w := wrc env s o.withLen
          finish { w.1 with e := w.2 }

/-- The `case SSH_FXP_REMOVE`. -/
def caseREMOVE {σ : Type} (env : Env σ) (s : State σ) (p : Parser) : Step σ :=
  let rid := p.B32 s.id
  let rpath := rid.1.B32String []
  let e := rpath.1.End
  let s := { s with id := rid.2, e := e }
  if e ≠ none then .ret (writeResponse env s s.id SSH_FX_BAD_MESSAGE).1 e
  else
    match gb18030ToUtf8 env.codec rpath.2 with
    | none => .panic s
    | some path =>
      let r := env.fs.Remove s.fs path
      let s := { s with fs := r.1, calls := s.calls ++ [Call.Remove path], e := r.2 }
      finish (statusReply env s)

/-- The `case SSH_FXP_MKDIR`. -/
def caseMKDIR {σ : Type} (env : Env σ) (s : State σ) (p : Parser) : Step σ :=
  let rid := p.B32 s.id
  let rpath := rid.1.B32String []
  let ra := parseAttr rpath.1 Attr.zero
  let e := ra.1.End
  let s := { s with id := rid.2, e := e }
  if e ≠ none then .ret (writeResponse env s s.id SSH_FX_BAD_MESSAGE).1 e
  else
    match gb18030ToUtf8 env.codec rpath.2 with
    | none => .panic s
    | some path =>
      let r := env.fs.Mkdir s.fs path ra.2
      let s := { s with fs := r.1, calls := s.calls ++ [Call.Mkdir path ra.2], e := r.2 }
      finish (statusReply env s)

/-- The `case SSH_FXP_RMDIR`. -/
def caseRMDIR {σ : Type} (env : Env σ) (s : State σ) (p : Parser) : Step σ :=
  let rid := p.B32 s.id
  let rpath := rid.1.B32String []
  let e := rpath.1.End
  let s := { s with id := rid.2, e := e }
  if e ≠ none then .ret (writeResponse env s s.id SSH_FX_BAD_MESSAGE).1 e
  else
    match gb18030ToUtf8 env.codec rpath.2 with
    | none => .panic s
    | some path =>
      let r := env.fs.Rmdir s.fs path
      let s := { s with fs := r.1, calls := s.calls ++ [Call.Rmdir path], e := r.2 }
      finish (statusReply env s)

/-- The `case SSH_FXP_REALPATH`. -/
def caseREALPATH {σ : Type} (env : Env σ) (s : State σ) (p : Parser) : Step σ :=
  let rid := p.B32 s.id
  let rpath := rid.1.B32String []
  let e := rpath.1.End
  let s := { s with id := rid.2, e := e }
  if e ≠ none then .ret (writeResponse env s s.id SSH_FX_BAD_MESSAGE).1 e
  else
    match gb18030ToUtf8 env.codec rpath.2 with
    | none => .panic s
    | some path =>
      let r := env.fs.RealPath s.fs path
      let s := { s with fs := r.1, calls := s.calls ++ [Call.RealPath path], e := r.2.2 }
      match utf8ToGb18030 env.codec r.2.1 with
      | none => .panic s
      | some newpath =>
        let w := writeNameOnly env s s.id newpath s.e
        finish { w.1 with e := w.2 }

/-- The `case SSH_FXP_RENAME`. The result of `End()` is dropped (`_ =`). -/
def caseRENAME {σ : Type} (env : Env σ) (s : State σ) (p : Parser) : Step σ :=
  let rid := p.B32 s.id
  let rold := rid.1.B32String []
  let rnew := rold.1.B32String []
  let rflags := rnew.1.B32 0
  let s := { s with id := rid.2 }
  match gb18030ToUtf8 env.codec rold.2 with
  | none => .panic s
  | some oldName =>
    match gb18030ToUtf8 env.codec rnew.2 with
    | none => .panic s
    | some newName =>
      let r := env.fs.Rename s.fs oldName newName rflags.2
      let s := { s with fs := r.1, calls := s.calls ++ [Call.Rename oldName newName rflags.2],
                        e := r.2 }
      finish (statusReply env s)

/-- The `case SSH_FXP_READLINK`. `rpath, e := fs.ReadLink(path)` declares a new `e` inside
the case; the results of `ReadLink` and of `writeNameOnly` go to that inner variable, and
the `e` of the loop keeps the `nil` of the parse. -/
def caseREADLINK {σ : Type} (env : Env σ) (s : State σ) (p : Parser) : Step σ :=
  let rid := p.B32 s.id
  let rpath := rid.1.B32String []
  let e := rpath.1.End
  let s := { s with id := rid.2, e := e }
  if e ≠ none then .ret (writeResponse env s s.id SSH_FX_BAD_MESSAGE).1 e
  else
    match gb18030ToUtf8 env.codec rpath.2 with
    | none => .panic s
    | some path =>
      let r := env.fs.ReadLink s.fs path
      let s := { s with fs := r.1, calls := s.calls ++ [Call.ReadLink path] }
      match utf8ToGb18030 env.codec r.2.1 with
      | none => .panic s
      | some rp =>
        let w := writeNameOnly env s s.id rp r.2.2
        finish w.1

/-- The `case SSH_FXP_SYMLINK`. -/
def caseSYMLINK {σ : Type} (env : Env σ) (s : State σ) (p : Parser) : Step σ :=
  let rid := p.B32 s.id
  let s := { s with id := rid.2 }
  let w := writeResponse env s s.id SSH_FX_OP_UNSUPPORTED
  finish { w.1 with e := w.2 }

/-- The `case SSH_FXP_EXTENDED`. -/
def caseEXTENDED {σ : Type} (env : Env σ) (s : State σ) (p : Parser) : Step σ :=
  let rid := p.B32 s.id
  let rname := rid.1.B32String []
  let s := { s with id := rid.2 }
  if rname.2 = strBytes "vendor-id" then
    let w := writeResponse env s s.id SSH_FX_OK
    finish { w.1 with e := w.2 }
  else
    let w := writeResponse env s s.id SSH_FX_OP_UNSUPPORTED
    finish { w.1 with e := w.2 }

/-- The `default` case: the reply, then `return e` with the `nil` left by `Peek`. -/
def caseDefault {σ : Type} (env : Env σ) (s : State σ) : Step σ :=
  .ret (writeResponse env s s.id SSH_FX_BAD_MESSAGE).1 s.e

/-- The `switch op` of `ServeChannel` on the peeked payload `bs`, followed by the
`if e != nil { return e }` that ends the loop body. -/
def dispatch {σ : Type} (env : Env σ) (s : State σ) (op : Nat) (bs : List Nat) : Step σ :=
  let p := NewParser bs
  if op = SSH_FXP_INIT then caseINIT env s
  else if op = SSH_FXP_OPEN then caseOPEN env s p
  else if op = SSH_FXP_CLOSE then caseCLOSE env s p
  else if op = SSH_FXP_READ then caseREAD env s p
  else if op = SSH_FXP_WRITE then caseWRITE env s p
  else if op = SSH_FXP_LSTAT ∨ op = SSH_FXP_STAT then caseSTAT env s p op
  else if op = SSH_FXP_FSTAT then caseFSTAT env s p
  else if op = SSH_FXP_SETSTAT then caseSETSTAT env s p
  else if op = SSH_FXP_FSETSTAT then caseFSETSTAT env s p
  else if op = SSH_FXP_OPENDIR then caseOPENDIR env s p
  else if op = SSH_FXP_READDIR then caseREADDIR env s p
  else if op = SSH_FXP_REMOVE then caseREMOVE env s p
  else if op = SSH_FXP_MKDIR then caseMKDIR env s p
  else if op = SSH_FXP_RMDIR then caseRMDIR env s p
  else if op = SSH_FXP_REALPATH then caseREALPATH env s p
  else if op = SSH_FXP_RENAME then caseRENAME env s p
  else if op = SSH_FXP_READLINK then caseREADLINK env s p
  else if op = SSH_FXP_SYMLINK then caseSYMLINK env s p
  else if op = SSH_FXP_EXTENDED then caseEXTENDED env s p
  else caseDefault env s

/-- The head of the loop: `if e == io.EOF { e = writeResponse(c, id, SSH_FX_EOF, nil);
if e != nil { return e } }`. -/
def loopHead {σ : Type} (env : Env σ) (s : State σ) : Step σ :=
  if s.e = some GoError.EOF then
    let w := writeResponse env s s.id SSH_FX_EOF
    match w.2 with
    | some err => .ret { w.1 with e := some err } (some err)
    | none => .next { w.1 with e := none }
  else .next s

/-- The loop body after its head: `discard`, `readPacketHeader`, the length guard,
`Peek` and the `switch`. -/
def loopBody {σ : Type} (env : Env σ) (s : State σ) : Step σ :=
  let hd := readPacketHeader (discard s.c.input s.plen)
  let s := { s with c := { s.c with input := hd.1 }, plen := hd.2.1, e := hd.2.2.2 }
  match hd.2.2.2 with
  | some err => .ret s (some err)
  | none =>
    let s := { s with plen := s.plen - 1 }
    if s.plen < 2 then .ret s (some errTooShort)
    else
      match peek s.c.input s.plen with
      | .error err => .ret { s with e := some err } (some err)
      | .ok bs => dispatch env s hd.2.2.1 bs

/-- One round of the `for` loop of `ServeChannel`. -/
def iter {σ : Type} (env : Env σ) (s : State σ) : Step σ :=
  match loopHead env s with
  | .next s => loopBody env s
  | r => r

/-- The state before the loop: `h.Init()`, a fresh reader, `e == nil`, `plen == 0`,
`id == 0`. -/
def initState {σ : Type} (input : List Nat) (fs : σ) : State σ :=
  { c := { input := input, writes := [], closed := false }, h := Handles.zero.Init,
    e := none, plen := 0, id := 0, fs := fs, calls := [] }

/-- The `for` loop, for at most `fuel` rounds; `none` when the rounds run out. -/
def loop {σ : Type} (env : Env σ) : Nat → State σ → Option (Step σ)
  | 0, _ => none
  | fuel + 1, s =>
    match iter env s with
    | .next s => loop env fuel s
    | r => some r

/-- The deferred calls `h.CloseAll()` and `c.Close()`. -/
def deferred {σ : Type} (env : Env σ) (s : State σ) : State σ :=
  let s := closeObjects env { s with h := s.h.CloseAll.1 } s.h.CloseAll.2
  { s with c := { s.c with closed := true } }

/-- Go `ServeChannel` on a channel that delivers `input` and then `io.EOF`, with a backend
in state `fs`: how the loop ends (a return or a panic), in the state after the deferred
calls; `none` when `fuel` rounds do not suffice. -/
def ServeChannel {σ : Type} (env : Env σ) (fuel : Nat) (input : List Nat) (fs : σ) :
    Option (Step σ) :=
  match loop env fuel (initState input fs) with
  | none => none
  | some (.next s) => some (.next s)
  | some (.ret s e) => some (.ret (deferred env s) e)
  | some (.panic s) => some (.panic (deferred env s))

/-! ## Vocabulary of the statements -/

/-- Whether a round ended in a panic. -/
def Step.isPanic {σ : Type} : Step σ → Bool
  | .panic _ => true
  | _ => false

/-- The error with which a round returned, if it returned. -/
def Step.returned {σ : Type} : Step σ → Option (Option GoError)
  | .ret _ e => some e
  | _ => none

/-- The `Write` calls made on the way from state `s` to state `t`. -/
def roundWrites {σ : Type} (s t : State σ) : List (List Nat × Option GoError) :=
  t.c.writes.drop s.c.writes.length

/-- The packet types whose case parses a request id. -/
def parsedOps : List Nat :=
  [SSH_FXP_OPEN, SSH_FXP_CLOSE, SSH_FXP_READ, SSH_FXP_WRITE, SSH_FXP_LSTAT, SSH_FXP_STAT,
    SSH_FXP_FSTAT, SSH_FXP_SETSTAT, SSH_FXP_FSETSTAT, SSH_FXP_OPENDIR, SSH_FXP_READDIR,
    SSH_FXP_REMOVE, SSH_FXP_MKDIR, SSH_FXP_RMDIR, SSH_FXP_REALPATH, SSH_FXP_RENAME,
    SSH_FXP_READLINK, SSH_FXP_SYMLINK, SSH_FXP_EXTENDED]

/-- The request id of a response packet: its bytes 5 to 8. -/
def idField (w : List Nat) : List Nat := (w.drop 5).take 4

/-- The packet is a STATUS, HANDLE, DATA, ATTRS or NAME response with request id `I`. -/
def CarriesId (I : Nat) (w : List Nat) : Prop :=
  idField w = be32 I ∧
    (w[4]? = some SSH_FXP_STATUS ∨ w[4]? = some SSH_FXP_HANDLE ∨ w[4]? = some SSH_FXP_DATA ∨
      w[4]? = some SSH_FXP_ATTRS ∨ w[4]? = some SSH_FXP_NAME)

/-- The writes of one request are responses with id `I`, a DATA response being its
header followed by the write of its payload. -/
def RepliesCarry (I : Nat) (ws : List (List Nat × Option GoError)) : Prop :=
  (∀ w ∈ ws, CarriesId I w.1) ∨
    (∃ hdr body, ws = [hdr, body] ∧ hdr.1 = dataHeader I body.1.length)

/-- The packet type of the request that a round reads from state `s`. -/
def requestOp {σ : Type} (s : State σ) : Nat :=
  (readPacketHeader (discard s.c.input s.plen)).2.2.1

/-- A 21-byte STATUS packet with the status code `code`. -/
def StatusWith (code : Nat) (w : List Nat) : Prop :=
  w.length = 21 ∧ w[4]? = some SSH_FXP_STATUS ∧ w[12]? = some code

/-- The writes `ws` of the body of a round that serves a request of type `op` are one
reply, written at one of the places where the code drops the outcome of the write:
STATUS PERMISSION_DENIED (OPEN at the handle cap) and STATUS NO_SUCH_FILE (a refused
OPEN or OPENDIR, an unknown handle), sent with `_ =` before `continue`; STATUS EOF and
STATUS FAILURE of a READDIR request, likewise; the reply of a READLINK request that
parsed, whose outcome goes to the `e` declared inside the case; and the STATUS
BAD_MESSAGE of the `default` case, after which `return e` returns `nil`. -/
def DroppedReply (op : Nat) (ws : List (List Nat × Option GoError)) : Prop :=
  ∃ w e, ws = [(w, e)] ∧
    (StatusWith SSH_FX_PERMISSION_DENIED w ∨ StatusWith SSH_FX_NO_SUCH_FILE w ∨
      (op = SSH_FXP_READDIR ∧ (StatusWith SSH_FX_EOF w ∨ StatusWith SSH_FX_FAILURE w)) ∨
      (op = SSH_FXP_READLINK ∧ ¬ StatusWith SSH_FX_BAD_MESSAGE w) ∨
      (op ≠ SSH_FXP_INIT ∧ op ∉ parsedOps ∧ StatusWith SSH_FX_BAD_MESSAGE w))

/-- How the body of a round that ended in `r` relates to its last write `(w, some err)`,
which failed: either the reply is a dropped one and the round does not end the session
with an error (the loop continues, or `ServeChannel` returns `nil`), or it is not and
`ServeChannel` returns a non-nil error, which is the error of the write unless the reply
is STATUS BAD_MESSAGE. -/
def FailedWriteOutcome {σ : Type} (op : Nat) (ws : List (List Nat × Option GoError))
    (w : List Nat) (err : GoError) (r : Step σ) : Prop :=
  (DroppedReply op ws ∧ ((∃ t, r = .next t) ∨ ∃ t, r = .ret t none)) ∨
    (¬ DroppedReply op ws ∧ ∃ t e, r = .ret t (some e) ∧
      (¬ StatusWith SSH_FX_BAD_MESSAGE w → e = err))

/-- The round that starts in state `s` passes the head of the loop and the writes of its
body are one dropped reply (`DroppedReply`) to the request it reads. -/
def DroppedRound {σ : Type} (env : Env σ) (s : State σ) : Prop :=
  ∃ s1, loopHead env s = .next s1 ∧
    DroppedReply (requestOp s1) (roundWrites s1 (loopBody env s1).state)

/-- The stub backend with an identity `path.Clean`, transcoders that fail and an empty
long name; `werr` gives the outcome of the writes. -/
def emptyEnv (werr : Nat → Option GoError) : Env Unit :=
  { fs := EmptyFS id, werr := werr, codec := { decode := fun _ => none, encode := fun _ => none },
    longName := fun _ _ => [], sysType := 1 }

/-- The strings of a list, each behind its `uint32` length. -/
def extBytes : List (List Nat) → List Nat
  | [] => []
  | x :: rest => be32 x.length ++ x ++ extBytes rest

/-- The flags word followed by the fields that the flags announce, in wire order. -/
def attrFields (a : Attr) : List Nat :=
  be32 a.Flags
    ++ (if a.Flags &&& SSH_FILEXFER_ATTR_SIZE ≠ 0 then be64 a.Size else [])
    ++ (if a.Flags &&& SSH_FILEXFER_ATTR_UIDGID ≠ 0 then be32 a.Uid ++ be32 a.Gid else [])
    ++ (if a.Flags &&& SSH_FILEXFER_ATTR_PERMISSIONS ≠ 0 then be32 (fileModeToSftp a.Mode) else [])
    ++ (if a.Flags &&& SSH_FILEXFER_ATTR_ACMODTIME ≠ 0 then
          be32 (unix32 a.ATime) ++ be32 (unix32 a.MTime) else [])
    ++ (if a.Flags &&& SSH_FILEXFER_ATTR_EXTENDED ≠ 0 then
          be32 ((a.Extended.length / 2) % 2 ^ 32) ++ extBytes a.Extended else [])

/-- A handle table with 256 open files, under the handles `f1` to `f100`, and no
directory. -/
def fullTable : Handles :=
  { f := (List.range 256).map (fun (i : Nat) => (102 :: FormatInt16 (Int.ofNat (i + 1)), i)),
    d := [], c := 256 }

/-- The payload of an OPEN request: id 9, path `A`, flags 1 (read), no attributes. -/
def openPayload : List Nat := [0, 0, 0, 9, 0, 0, 0, 1, 65, 0, 0, 0, 1, 0, 0, 0, 0]

/-- An attribute with all five flags: size 5, uid 1, gid 2, a regular file of mode
`0o644`, access time 3, modification time 4 and one extended pair. -/
def sampleAttr : Attr :=
  { Attr.zero with
    Flags := 0x8000000f, Size := 5, Uid := 1, Gid := 2, Mode := 0o644, ATime := 3, MTime := 4,
    Extended := [[107], [118, 49]] }

/-- The error of a failed `Write` in the examples. -/
def errWrite : GoError := .other "write error"

/-- A channel on which only the first `Write` fails. -/
def firstWriteFails (k : Nat) : Option GoError := if k = 0 then some errWrite else none

/-- An OPEN request (id 9, path `A`, flags 1, no attributes) followed by an INIT
packet. -/
def openThenInit : List Nat :=
  [0, 0, 0, 18, 3, 0, 0, 0, 9, 0, 0, 0, 1, 65, 0, 0, 0, 1, 0, 0, 0, 0] ++
    [0, 0, 0, 5, 1, 0, 0, 0, 3]

/-- A REMOVE request (id 7, path `a`) followed by an INIT packet. -/
def removeThenInit : List Nat :=
  [0, 0, 0, 10, 13, 0, 0, 0, 7, 0, 0, 0, 1, 97] ++ [0, 0, 0, 5, 1, 0, 0, 0, 3]

/-- A session state at the `switch` in which 256 files are open. -/
def fullState : State Unit := { initState [] () with h := fullTable }

/-- The attribute `a0` with the flags of `a` and with every field that these flags
announce taken from `a`. -/
def overlay (a0 a : Attr) : Attr :=
  { a0 with
    Flags := a.Flags
    Size := if a.Flags &&& SSH_FILEXFER_ATTR_SIZE ≠ 0 then a.Size else a0.Size
    Uid := if a.Flags &&& SSH_FILEXFER_ATTR_UIDGID ≠ 0 then a.Uid else a0.Uid
    Gid := if a.Flags &&& SSH_FILEXFER_ATTR_UIDGID ≠ 0 then a.Gid else a0.Gid
    Mode := if a.Flags &&& SSH_FILEXFER_ATTR_PERMISSIONS ≠ 0 then a.Mode else a0.Mode
    ATime := if a.Flags &&& SSH_FILEXFER_ATTR_ACMODTIME ≠ 0 then a.ATime else a0.ATime
    MTime := if a.Flags &&& SSH_FILEXFER_ATTR_ACMODTIME ≠ 0 then a.MTime else a0.MTime
    Extended := if a.Flags &&& SSH_FILEXFER_ATTR_EXTENDED ≠ 0 then a.Extended else a0.Extended }

/-- An attribute whose flagged fields fit the wire: known flags only, integers within
their Go types, a mode of the closed set, times within 32-bit seconds, and an even number
of extended strings, at most 255 pairs, each shorter than `2^32` bytes. -/
def WireAttr (a : Attr) : Prop :=
  a.Flags &&& (SSH_FILEXFER_ATTR_SIZE ||| SSH_FILEXFER_ATTR_UIDGID |||
      SSH_FILEXFER_ATTR_PERMISSIONS ||| SSH_FILEXFER_ATTR_ACMODTIME |||
      SSH_FILEXFER_ATTR_EXTENDED) = a.Flags ∧
  (a.Flags &&& SSH_FILEXFER_ATTR_SIZE ≠ 0 → a.Size < 2 ^ 64) ∧
  (a.Flags &&& SSH_FILEXFER_ATTR_UIDGID ≠ 0 → a.Uid < 2 ^ 32 ∧ a.Gid < 2 ^ 32) ∧
  (a.Flags &&& SSH_FILEXFER_ATTR_PERMISSIONS ≠ 0 →
    ∃ t p su sg st, t ∈ typeClasses ∧ p &&& 0o777 = p ∧ a.Mode = closedMode t p su sg st) ∧
  (a.Flags &&& SSH_FILEXFER_ATTR_ACMODTIME ≠ 0 →
    0 ≤ a.ATime ∧ a.ATime < 2 ^ 32 ∧ 0 ≤ a.MTime ∧ a.MTime < 2 ^ 32) ∧
  (a.Flags &&& SSH_FILEXFER_ATTR_EXTENDED ≠ 0 →
    a.Extended.length % 2 = 0 ∧ a.Extended.length / 2 ≤ 0xFF ∧
      ∀ x ∈ a.Extended, x.length < 2 ^ 32)

/-- An attribute as `FillFrom` leaves it, here for an empty regular file of mode `0o644`
owned by uid 0 and last modified at time 0: the four flags are set and `ATime` is never
assigned, so it is the zero time. -/
def filledAttr : Attr :=
  { Attr.zero with
    Flags := ATTR_SIZE ||| ATTR_MODE ||| ATTR_TIME ||| ATTR_UIDGID, Mode := 0o644,
    ModeString := strBytes "-rw-r--r--", MTime := 0 }

/-! ## Sessions on the handle table -/

/-- A call on the handle table. -/
inductive HOp where
  | NewFile (f : Nat)
  | NewDir (d : Nat)
  | CloseHandle (k : List Nat)
  deriving DecidableEq, Repr

/-- The record of a session on a handle table: the table, every handle returned by
`NewFile` or `NewDir` with the value of the counter it was made from (oldest first), every
object registered, every object on which `Close()` was called, and the numbers of
`CloseHandle` calls whose argument was at that moment an open file handle (`GetFile` not
`nil`) or an open directory handle (`GetDir` not `nil`). -/
structure Trace where
  h : Handles
  issued : List (List Nat × Int)
  registered : List Closed
  closed : List Closed
  fileCloses : Nat
  dirCloses : Nat
  deriving DecidableEq, Repr

/-- The session after `var h Handles; h.Init()`. -/
def Trace.init : Trace :=
  { h := Handles.zero.Init, issued := [], registered := [], closed := [], fileCloses := 0,
    dirCloses := 0 }

/-- One call on the table of a session. -/
def Trace.step (t : Trace) : HOp → Trace
  | .NewFile f =>
    { t with
      h := (t.h.NewFile f).1
      issued := t.issued ++ [((t.h.NewFile f).2, (t.h.NewFile f).1.c)]
      registered := t.registered ++ [Closed.file f] }
  | .NewDir d =>
    { t with
      h := (t.h.NewDir d).1
      issued := t.issued ++ [((t.h.NewDir d).2, (t.h.NewDir d).1.c)]
      registered := t.registered ++ [Closed.dir d] }
  | .CloseHandle k =>
    { t with
      h := (t.h.CloseHandle k).1
      closed := t.closed ++ (t.h.CloseHandle k).2
      fileCloses := t.fileCloses + (if (t.h.GetFile k).isSome then 1 else 0)
      dirCloses := t.dirCloses + (if (t.h.GetDir k).isSome then 1 else 0) }

/-- The session made of the calls `ops` after `Init`. -/
def Trace.run (ops : List HOp) : Trace := ops.foldl Trace.step Trace.init

/-- The session `t` after the further calls `ops`. -/
def Trace.after (t : Trace) (ops : List HOp) : Trace := ops.foldl Trace.step t

/-- Whether a call issues a handle. -/
def HOp.isNew : HOp → Bool
  | .NewFile _ => true
  | .NewDir _ => true
  | .CloseHandle _ => false

/-- Whether a call is `NewFile`. -/
def HOp.isNewFile : HOp → Bool
  | .NewFile _ => true
  | _ => false

/-- Whether a call is `NewDir`. -/
def HOp.isNewDir : HOp → Bool
  | .NewDir _ => true
  | _ => false

/-- The number of `NewFile` and `NewDir` calls among `ops`. -/
def issues (ops : List HOp) : Nat := ops.countP HOp.isNew

/-- Whether a closed object is a file. -/
def Closed.isFile : Closed → Bool
  | .file _ => true
  | .dir _ => false

/-- Whether a closed object is a directory. -/
def Closed.isDir : Closed → Bool
  | .file _ => false
  | .dir _ => true

/-- The keys of a Go map. -/
def mapKeys (m : List (List Nat × Nat)) : List (List Nat) := m.map Prod.fst

/-- Whether a byte is one of the characters `0`-`9`, `a`-`f`. -/
def isHexChar (ch : Nat) : Bool := (48 ≤ ch && ch ≤ 57) || (97 ≤ ch && ch ≤ 102)

/-- The lower-case hexadecimal rendering of an integer as bytes, by the digits of
`Nat.toDigits`: a minus sign in front of the digits of a negative number. -/
def hexRendering (v : Int) : List Nat :=
  if v < 0 then 45 :: (Nat.toDigits 16 (-v).toNat).map Char.toNat
  else (Nat.toDigits 16 v.toNat).map Char.toNat

/-- The value of a hexadecimal digit character `0`-`9`, `a`-`f`. -/
def unhex (ch : Nat) : Nat := if ch < 58 then ch - 48 else ch - 87

/-- The number whose hexadecimal digits, most significant first, are the bytes `s`. -/
def hexValue (s : List Nat) : Nat := s.foldl (fun v ch => 16 * v + unhex ch) 0

/-- The value of the `int64` counter after `n` increments from 0: `n` below `2^63`, then
`n - 2^64` up to `2^64`, and so on around. -/
def counterAfter (n : Nat) : Int := ((n : Int) + 2 ^ 63) % 2 ^ 64 - 2 ^ 63

/-- What holds of a session in which `n` handles were issued: the counter is the one after
`n` increments, every key is the prefix followed by one of the first `n` counter values,
no key is repeated, the handles were made from the first `n` counter values in turn, the
objects closed so far together with the objects still in the table are the objects
registered, and the open files (directories) are the registered ones less the closes of
open handles. -/
structure Trace.Good (t : Trace) (n : Nat) : Prop where
  c_eq : t.h.c = counterAfter n
  fkeys : ∀ kv ∈ t.h.f, ∃ j : Nat, 1 ≤ j ∧ j ≤ n ∧ kv.1 = 102 :: FormatInt16 (counterAfter j)
  dkeys : ∀ kv ∈ t.h.d, ∃ j : Nat, 1 ≤ j ∧ j ≤ n ∧ kv.1 = 100 :: FormatInt16 (counterAfter j)
  fnodup : (mapKeys t.h.f).Nodup
  dnodup : (mapKeys t.h.d).Nodup
  issued_len : t.issued.length = n
  issued_ctr : t.issued.map Prod.snd = (List.range n).map (fun i => counterAfter (i + 1))
  issued_key : ∀ p ∈ t.issued, p.1 = 102 :: FormatInt16 p.2 ∨ p.1 = 100 :: FormatInt16 p.2
  closes : (t.closed ++ (t.h.CloseAll).2).Perm t.registered
  nfiles : t.h.f.length + t.fileCloses = t.registered.countP Closed.isFile
  ndirs : t.h.d.length + t.dirCloses = t.registered.countP Closed.isDir

/-- The calls of `n` rounds of `NewDir` followed by `CloseHandle` of the handle just
issued, on a table whose counter is `c`. -/
def churnOps : Nat → Int → List HOp
  | 0, _ => []
  | n + 1, c =>
    [HOp.NewDir 0, HOp.CloseHandle (100 :: FormatInt16 (incInt64 c))] ++ churnOps n (incInt64 c)

/-- The calls `NewFile(7)` and then `2^64 - 1` rounds of `NewDir` and `CloseHandle`, after
which the counter has gone through all its `2^64` values and is 0 again. -/
def wrapOps : List HOp := HOp.NewFile 7 :: churnOps (2 ^ 64 - 1) 1

/-- The calls `NewFile(7)` and then `2^63 - 2` rounds of `NewDir` and `CloseHandle`, after
which the counter has its largest value, `2^63 - 1`. -/
def maxOps : List HOp := HOp.NewFile 7 :: churnOps (2 ^ 63 - 2) 1

/-! ## Requests and backends of the examples -/

/-- The payload of a READ request: id, handle, offset, length. -/
def readPayload (id : Nat) (handle : List Nat) (offset length : Nat) : List Nat :=
  be32 id ++ (be32 handle.length ++ (handle ++ (be64 offset ++ be32 length)))

/-- The payload of a READDIR request: id, handle. -/
def readdirPayload (id : Nat) (handle : List Nat) : List Nat :=
  be32 id ++ (be32 handle.length ++ (handle ++ []))

/-- A backend for the examples: `OpenFile` returns the file 7 and `OpenDir` the
directory 9, `ReadAt` returns the two bytes of `hi` with `io.EOF` at offset 0 and no byte
with `io.EOF` elsewhere, `Readdir` returns `entries`; the rest is `EmptyFS`. -/
def exampleFS (entries : List NamedAttr × Option GoError) : FileSystem Unit :=
  { EmptyFS id with
    OpenFile := fun u _ _ _ => (u, .ok 7)
    OpenDir := fun u _ => (u, .ok 9)
    ReadAt := fun u _ _ off => (u, (if off = 0 then [104, 105] else [], some GoError.EOF))
    Readdir := fun u _ _ => (u, entries) }

/-- The backend `exampleFS` on a channel whose writes succeed, with transcoders that
fail and an empty long name. -/
def exampleEnv (entries : List NamedAttr × Option GoError) : Env Unit :=
  { fs := exampleFS entries, werr := fun _ => none,
    codec := { decode := fun _ => none, encode := fun _ => none },
    longName := fun _ _ => [], sysType := 1 }

/-- A session state at the `switch` in which the file 7 is open under `f1` and the
directory 9 under `d2`. -/
def openState : State Unit :=
  { initState [] () with h := ((Handles.zero.Init.NewFile 7).1.NewDir 9).1 }

/-- A directory entry `a` whose flags announce extended attributes, with the one pair
`k`, `v`. -/
def extendedEntry : NamedAttr :=
  { Attr.zero with Flags := SSH_FILEXFER_ATTR_EXTENDED, Extended := [[107], [118]], Name := [97] }

/-- What holds of every handle table of a session: as in a Go map no key is repeated, and
the keys of the files start with `f`, those of the directories with `d`. -/
def Handles.WF (h : Handles) : Prop :=
  (mapKeys h.f).Nodup ∧ (mapKeys h.d).Nodup ∧
    (∀ k ∈ mapKeys h.f, k.head? = some 102) ∧ (∀ k ∈ mapKeys h.d, k.head? = some 100)

/-! ## `RealPath` of the other backends (`localfs.go`, `sftpfs.go`) -/

/-- Go `LocalFs.RealPath` of `localfs.go`; `clean` stands for `path.Clean` of the Go library. -/
def LocalFs.RealPath (clean : List Nat → List Nat) (pathX : List Nat) :
    List Nat × Option GoError :=
  (if pathX = [] ∨ pathX = [46] then [47] else clean pathX, none)

/-- Go `sftpFs.RealPath` of `sftpfs.go`; `clean` stands for `path.Clean` of the Go library. -/
def sftpFs.RealPath (clean : List Nat → List Nat) (pathX : List Nat) :
    List Nat × Option GoError :=
  (if pathX = [] ∨ pathX = [46] then [47] else clean pathX, none)

/-! ## The mode string (`file_linux.go`) -/

/-- Go `runLsTypeWord` of `file_linux.go` on `dirent.Mode()`: the ten characters of
`fmt.Sprintf("%c%c%c%c%c%c%c%c%c%c", ...)`, all ASCII. -/
def runLsTypeWord (mode : Nat) : List Nat :=
  let tc :=
    if mode &&& ModeDir ≠ 0 then 100
    else if mode &&& ModeDevice ≠ 0 then (if mode &&& ModeCharDevice ≠ 0 then 99 else 98)
    else if mode &&& ModeSymlink ≠ 0 then 108
    else if mode &&& ModeSocket ≠ 0 then 115
    else if mode &&& ModeNamedPipe ≠ 0 then 112
    else 45
  let orc := if mode &&& 0o400 ≠ 0 then 114 else 45
  let owc := if mode &&& 0o200 ≠ 0 then 119 else 45
  let ox := decide (mode &&& 0o100 ≠ 0)
  let setuid := decide (mode &&& ModeSetuid ≠ 0)
  let oxc := if ox ∧ setuid then 115 else if setuid then 83 else if ox then 120 else 45
  let grc := if mode &&& 0o40 ≠ 0 then 114 else 45
  let gwc := if mode &&& 0o20 ≠ 0 then 119 else 45
  let gx := decide (mode &&& 0o10 ≠ 0)
  let setgid := decide (mode &&& ModeSetgid ≠ 0)
  let gxc := if gx ∧ setgid then 115 else if setgid then 83 else if gx then 120 else 45
  let arc := if mode &&& 0o4 ≠ 0 then 114 else 45
  let awc := if mode &&& 0o2 ≠ 0 then 119 else 45
  let ax := decide (mode &&& 0o1 ≠ 0)
  let sticky := decide (mode &&& ModeSticky ≠ 0)
  let axc := if ax ∧ sticky then 116 else if sticky then 84 else if ax then 120 else 45
  [tc, orc, owc, oxc, grc, gwc, gxc, arc, awc, axc]

/-- The type character of a type class of the closed set: `d` directory, `l` symlink,
`b` block device, `c` character device, `s` socket, `p` fifo, `-` otherwise. -/
def typeChar (t : Nat) : Nat :=
  if t = ModeDir then 100
  else if t = ModeSymlink then 108
  else if t = ModeDevice then 98
  else if t = (ModeDevice ||| ModeCharDevice) then 99
  else if t = ModeSocket then 115
  else if t = ModeNamedPipe then 112
  else 45

/-- The character `ch` when the permission bit `bit` is set in `p`, `-` otherwise. -/
def permChar (p bit ch : Nat) : Nat := if p &&& bit ≠ 0 then ch else 45

/-- The character of an execute position: `lower` for execute with the special bit,
`upper` for the special bit alone, `x` for execute alone, `-` for neither. -/
def execChar (p bit : Nat) (special : Bool) (lower upper : Nat) : Nat :=
  if p &&& bit ≠ 0 then (if special then lower else 120) else (if special then upper else 45)

/-- The ten characters of the mode string as the POSIX convention has them: the type
character and three triples `r`, `w`, execute. -/
def lsWord (t p : Nat) (su sg st : Bool) : List Nat :=
  [typeChar t,
    permChar p 0o400 114, permChar p 0o200 119, execChar p 0o100 su 115 83,
    permChar p 0o40 114, permChar p 0o20 119, execChar p 0o10 sg 115 83,
    permChar p 0o4 114, permChar p 0o2 119, execChar p 0o1 st 116 84]

/-! ## The long name (`readdir_linux.go`) -/

/-- Go conversion `string(x)` of an integer `x`: the UTF-8 encoding of the code point `x`,
and of U+FFFD when `x` is not a valid code point. -/
def runeString (r : Nat) : List Nat :=
  if r < 0x80 then [r]
  else if r < 0x800 then [0xC0 ||| (r >>> 6), 0x80 ||| (r &&& 0x3F)]
  else if (0xD800 ≤ r ∧ r ≤ 0xDFFF) ∨ r > 0x10FFFF then [0xEF, 0xBF, 0xBD]
  else if r < 0x10000 then
    [0xE0 ||| (r >>> 12), 0x80 ||| ((r >>> 6) &&& 0x3F), 0x80 ||| (r &&& 0x3F)]
  else
    [0xF0 ||| (r >>> 18), 0x80 ||| ((r >>> 12) &&& 0x3F), 0x80 ||| ((r >>> 6) &&& 0x3F),
      0x80 ||| (r &&& 0x3F)]

/-- Go `fmt.Sprintf("%d", n)` for an unsigned integer: the decimal digits. -/
def sprintD (n : Nat) : List Nat := (Nat.toDigits 10 n).map Char.toNat

/-- The process-wide maps `users` and `groups` of `readdir_linux.go`; `none` is a key
that is absent. -/
structure NameCache where
  users : Nat → Option (List Nat)
  groups : Nat → Option (List Nat)

/-- What `readdirLongName` takes from outside the sources: `shellout` (the standard
output and the error of a command line), `readdirTimeFormat` (it reads the clock) and the
width padding of `fmt` (a negative width pads on the right). -/
structure Host where
  shellout : List Nat → List Nat × Option GoError
  timeFormat : Int → List Nat
  pad : Int → List Nat → List Nat

/-- The first part of Go `readdirLongName` of `readdir_linux.go`: the variables `user` and
`group` before the final `Sprintf`, and the maps afterwards. -/
def longNameFields (host : Host) (cache : NameCache) (fi : NamedAttr) (sysType : Int) :
    List Nat × List Nat × NameCache :=
  if sysType = 2 then (sprintD fi.Uid, sprintD fi.Gid, cache)
  else
    let u :=
      match cache.users fi.Uid with
      | some u => (u, cache.users)
      | none =>
        let user := runeString fi.Uid
        let so := host.shellout (strBytes "/usr/bin/getent passwd " ++ sprintD fi.Uid ++
          strBytes " 2>/dev/null|awk -F : '{print $1}'")
        let user := if so.2 = none then (if so.1 ≠ [] then so.1 else user) else user
        (user, Function.update cache.users fi.Uid (some user))
    let g :=
      match cache.groups fi.Gid with
      | some g => (g, cache.groups)
      | none =>
        let group := runeString fi.Gid
        let so := host.shellout (strBytes "/usr/bin/getent group " ++ sprintD fi.Gid ++
          strBytes " 2>/dev/null|awk -F : '{print $1}'")
        let group := if so.2 = none then (if so.1 ≠ [] then so.1 else group) else group
        (group, Function.update cache.groups fi.Gid (some group))
    (u.1 ++ [40] ++ sprintD fi.Uid ++ [41], g.1 ++ [40] ++ sprintD fi.Gid ++ [41],
      { users := u.2, groups := g.2 })

/-- Go `readdirLongName` of `readdir_linux.go`: the long name and the maps afterwards. -/
def readdirLongName (host : Host) (cache : NameCache) (fi : NamedAttr) (sysType : Int) :
    List Nat × NameCache :=
  let r := longNameFields host cache fi sysType
  (fi.ModeString ++ [32] ++ host.pad 4 (sprintD 1) ++ [32] ++ host.pad (-8) r.1 ++ [32] ++
      host.pad (-8) r.2.1 ++ [32] ++ host.pad 8 (sprintD fi.Size) ++ [32] ++
      host.pad 12 (host.timeFormat fi.MTime) ++ [32] ++ fi.Name,
    r.2.2)

/-- A host on which every command prints `out` and ends with `err`, without padding and
with an empty time. -/
def exampleHost (out : List Nat) (err : Option GoError) : Host :=
  { shellout := fun _ => (out, err), timeFormat := fun _ => [], pad := fun _ s => s }

/-- The maps `users` and `groups` as `init` leaves them: empty. -/
def emptyCache : NameCache := { users := fun _ => none, groups := fun _ => none }

/-- A directory entry `a` owned by the uid 1000 and the gid 100. -/
def ownedEntry : NamedAttr :=
  { Attr.zero with Uid := 1000, Gid := 100, Name := [97] }

/-! ## Vocabulary of the statements on requests and replies -/

/-- The payload of a WRITE request: id, handle, offset, length, data. -/
def writePayload (id : Nat) (handle : List Nat) (offset : Nat) (data : List Nat) : List Nat :=
  be32 id ++ (be32 handle.length ++ (handle ++ (be64 offset ++ (be32 data.length ++ data))))

/-- The payload of an FSTAT request: id, handle. -/
def fstatPayload (id : Nat) (handle : List Nat) : List Nat :=
  be32 id ++ (be32 handle.length ++ (handle ++ []))

/-- The payload of an FSETSTAT request: id, handle, attributes. -/
def fsetstatPayload (id : Nat) (handle : List Nat) (a : Attr) : List Nat :=
  be32 id ++ (be32 handle.length ++ (handle ++ (attrFields a ++ [])))

/-- The round `r`, started in state `s`, wrote exactly one packet, STATUS NO_SUCH_FILE
with the id `I` (the 21 bytes made of the length 17, the type byte STATUS, 101, the id,
the code NO_SUCH_FILE, 2, as a `uint32` and two empty strings), called nothing on the
backend, left the handle table, the backend state and the unread input as they were, and
continues with `e == nil`. -/
def NoSuchFileReply {σ : Type} (env : Env σ) (s : State σ) (I : Nat) (r : Step σ) : Prop :=
  ∃ t, r = .next t ∧
    t.c.writes = s.c.writes ++
      [(be32 17 ++ (SSH_FXP_STATUS :: (be32 I ++
          (be32 SSH_FX_NO_SUCH_FILE ++ (be32 0 ++ be32 0)))), env.werr s.c.writes.length)] ∧
    SSH_FXP_STATUS = 101 ∧ SSH_FX_NO_SUCH_FILE = 2 ∧
    t.c.input = s.c.input ∧ t.calls = s.calls ∧ t.fs = s.fs ∧ t.h = s.h ∧ t.id = I ∧
    t.e = none

/-- A packet of type `ty` whose first four bytes are the big-endian number of the bytes
after them, that number being below `2^32`; `readPacketHeader` then returns that number
and `ty` without an error. -/
def Framed (pkt : List Nat) (ty : Nat) : Prop :=
  4 ≤ pkt.length ∧ pkt.length - 4 < 2 ^ 32 ∧ pkt.take 4 = be32 (pkt.length - 4) ∧
    (readPacketHeader pkt).2.1 = ((pkt.length - 4 : Nat) : Int) ∧
    (readPacketHeader pkt).2.2.1 = ty ∧ (readPacketHeader pkt).2.2.2 = none

/-! ## The local backend (`localfs.go`) and the open flags -/

/-- Whether the bytes `sub` stand at the start of `s`. -/
def startsWith : List Nat → List Nat → Bool
  | _, [] => true
  | [], _ :: _ => false
  | a :: s, b :: sub => decide (a = b) && startsWith s sub

/-- Go `strings.Contains(s, substr)` of the Go library: `substr` stands somewhere in
`s`. -/
def stringsContains : List Nat → List Nat → Bool
  | [], substr => startsWith [] substr
  | a :: s, substr => startsWith (a :: s) substr || stringsContains s substr

/-- Go `LocalFs.rfsMangle` of `localfs.go` with `fs.root = root`: the two results, or
`none` for the index-out-of-range panic of `path[0]`. In `len(path) > 0 || path[0] == '/'`
the index is evaluated exactly when `len(path) > 0` is false. -/
def LocalFs.rfsMangle (root path : List Nat) : Option (List Nat × Option GoError) :=
  if stringsContains path [46, 46] then
    some (strBytes "<Invalid Path>", some (GoError.other "Invalid Path"))
  else
    match (if path.length > 0 then some true
           else path[0]?.map (fun b => decide (b = 47))) with
    | none => none
    | some c =>
      let path := if c then (if path.length > 1 then path.drop 1 else []) else path
      match (if path.length ≤ 0 then some []
             else if path.length = 1 then
               some (if path = [47] ∨ path = [46] then [] else path)
             else path[0]?.map (fun b => if b = 47 then path.drop 1 else path)) with
      | none => none
      | some path => some (root ++ path, none)

/-- Go `rfsMangle` of `server_test.go`, the path mangling of the backend of the test
suite, whose root is `/tmp/test-sftpd/`; `none` for an index-out-of-range panic. -/
def rfsMangle (path : List Nat) : Option (List Nat × Option GoError) :=
  if stringsContains path [46, 46] then
    some (strBytes "<invalid>", some (GoError.other "Invalid path"))
  else
    match (if path.length > 0 then path[0]?.map (fun b => decide (b = 47))
           else some false) with
    | none => none
    | some c => some (strBytes "/tmp/test-sftpd/" ++ (if c then path.drop 1 else path), none)

/-- Modelled from the spec: the open flags `SSH_FXF_*` of the package, declared in a file
that is not among the sources; the numbers are those of draft-ietf-secsh-filexfer-02,
with which the spec is bit-exact. -/
def SSH_FXF_READ : Nat := 0x00000001
/-- Modelled from the spec: open flag, see `SSH_FXF_READ`. -/
def SSH_FXF_WRITE : Nat := 0x00000002
/-- Modelled from the spec: open flag, see `SSH_FXF_READ`. -/
def SSH_FXF_APPEND : Nat := 0x00000004
/-- Modelled from the spec: open flag, see `SSH_FXF_READ`. -/
def SSH_FXF_CREAT : Nat := 0x00000008
/-- Modelled from the spec: open flag, see `SSH_FXF_READ`. -/
def SSH_FXF_TRUNC : Nat := 0x00000010
/-- Modelled from the spec: open flag, see `SSH_FXF_READ`. -/
def SSH_FXF_EXCL : Nat := 0x00000020

/-- Go `os.O_RDONLY` of the Go library (`syscall.O_RDONLY`, on Linux and Windows). -/
def O_RDONLY : Nat := 0x0
/-- Go `os.O_WRONLY` of the Go library. -/
def O_WRONLY : Nat := 0x1
/-- Go `os.O_RDWR` of the Go library. -/
def O_RDWR : Nat := 0x2
/-- Go `os.O_APPEND` of the Go library. -/
def O_APPEND : Nat := 0x400
/-- Go `os.O_CREATE` of the Go library. -/
def O_CREATE : Nat := 0x40
/-- Go `os.O_EXCL` of the Go library. -/
def O_EXCL : Nat := 0x80
/-- Go `os.O_TRUNC` of the Go library. -/
def O_TRUNC : Nat := 0x200

/-- The variable `flag` of Go `LocalFs.OpenFile` (`localfs.go`) when `os.OpenFile` is
called: it starts at 0 and goes through the six `if` statements in order. -/
def LocalFs.OpenFile.flag (mode : Nat) : Nat :=
  let flag := 0
  let flag := if mode &&& SSH_FXF_READ ≠ 0 then flag ||| O_RDONLY else flag
  let flag := if mode &&& SSH_FXF_WRITE ≠ 0 then flag ||| O_WRONLY else flag
  let flag := if mode &&& SSH_FXF_APPEND ≠ 0 then flag ||| O_APPEND else flag
  let flag := if mode &&& SSH_FXF_CREAT ≠ 0 then flag ||| O_CREATE else flag
  let flag := if mode &&& SSH_FXF_TRUNC ≠ 0 then flag ||| O_TRUNC else flag
  let flag := if mode &&& SSH_FXF_EXCL ≠ 0 then flag ||| O_EXCL else flag
  flag

/-- Go `LocalFs.OpenFile` of `localfs.go`; `osOpenFile` stands for `os.OpenFile` of the Go
library (path, flag, permissions) and a file is the number that stands for it. `none` is
the panic of `rfsMangle`. -/
def LocalFs.OpenFile (osOpenFile : List Nat → Nat → Nat → Except GoError Nat)
    (root path : List Nat) (mode : Nat) (_a : Attr) : Option (Except GoError Nat) :=
  match LocalFs.rfsMangle root path with
  | none => none
  | some (_, some e) => some (.error e)
  | some (p, none) => some (osOpenFile p (LocalFs.OpenFile.flag mode) 0o644)

/-- Go `LocalFs.OpenDir` of `localfs.go`; `osOpen` stands for `os.Open` of the Go
library. `none` is the panic of `rfsMangle`. -/
def LocalFs.OpenDir (osOpen : List Nat → Except GoError Nat) (root path : List Nat) :
    Option (Except GoError Nat) :=
  match LocalFs.rfsMangle root path with
  | none => none
  | some (_, some e) => some (.error e)
  | some (p, none) => some (osOpen p)

/-- Go `LocalFs.Stat` of `localfs.go`; `osStat` stands for what follows the call of
`rfsMangle`: `os.Lstat` or `os.Stat` of the Go library and, on success, `FillFrom`.
`none` is the panic of `rfsMangle`. -/
def LocalFs.Stat (osStat : List Nat → Bool → Except GoError Attr) (root path : List Nat)
    (isLstat : Bool) : Option (Except GoError Attr) :=
  match LocalFs.rfsMangle root path with
  | none => none
  | some (_, some e) => some (.error e)
  | some (p, none) => some (osStat p isLstat)

/-- The variable `flag` of Go `sftpFs.OpenFile` (`sftpfs.go`) when `client.OpenFile` is
called. -/
def sftpFs.OpenFile.flag (mode : Nat) : Nat :=
  let flag := 0
  let flag := if mode &&& SSH_FXF_READ ≠ 0 then flag ||| O_RDONLY else flag
  let flag := if mode &&& SSH_FXF_WRITE ≠ 0 then flag ||| O_WRONLY else flag
  let flag := if mode &&& SSH_FXF_APPEND ≠ 0 then flag ||| O_APPEND else flag
  let flag := if mode &&& SSH_FXF_CREAT ≠ 0 then flag ||| O_CREATE else flag
  let flag := if mode &&& SSH_FXF_TRUNC ≠ 0 then flag ||| O_TRUNC else flag
  let flag := if mode &&& SSH_FXF_EXCL ≠ 0 then flag ||| O_EXCL else flag
  flag

/-- Go `sftpFs.OpenFile` of `sftpfs.go`; `clientOpenFile` stands for `client.OpenFile` of
the sftp client library (path, flag). -/
def sftpFs.OpenFile (clientOpenFile : List Nat → Nat → Except GoError Nat)
    (path : List Nat) (mode : Nat) (_a : Attr) : Except GoError Nat :=
  clientOpenFile path (sftpFs.OpenFile.flag mode)

/-- A backend whose `OpenFile` succeeds with the file 7 and whose `ReadAt` fails with an
error that is not `io.EOF`. -/
def readErrorFS : FileSystem Unit :=
  { EmptyFS id with OpenFile := fun u _ _ _ => (u, .ok 7) }

/-- A session environment over `readErrorFS` in which every write succeeds. -/
def readErrorEnv : Env Unit :=
  { fs := readErrorFS, werr := fun _ => none,
    codec := { decode := fun _ => none, encode := fun _ => none },
    longName := fun _ _ => [], sysType := 1 }

/-- An OPEN request (id 9, path `A`, flags 3, no attributes) followed by a READ request
(id 10, handle `f1`, offset 0, length 16). -/
def openThenRead : List Nat :=
  [0, 0, 0, 18, 3, 0, 0, 0, 9, 0, 0, 0, 1, 65, 0, 0, 0, 3, 0, 0, 0, 0] ++
    [0, 0, 0, 23, 5, 0, 0, 0, 10, 0, 0, 0, 2, 102, 49, 0, 0, 0, 0, 0, 0, 0, 0, 0, 0, 0, 16]

/-- The tail of `rfsMangle` of `localfs.go` in closed form: what is appended to the root
for a path `c :: rest`, whose first byte is dropped whatever it is. -/
def mangledTail (rest : List Nat) : List Nat :=
  match rest with
  | [] => []
  | [b] => if b = 47 ∨ b = 46 then [] else [b]
  | b :: r => if b = 47 then r else b :: r

/-- An OPEN request (id 9, path `A`, flags 3, no attributes) followed by an FSTAT request
(id 10, handle `f1`). -/
def openThenFstat : List Nat :=
  [0, 0, 0, 18, 3, 0, 0, 0, 9, 0, 0, 0, 1, 65, 0, 0, 0, 3, 0, 0, 0, 0] ++
    [0, 0, 0, 11, 8, 0, 0, 0, 10, 0, 0, 0, 2, 102, 49]

end Sftpd

namespace Sftpd

/-! ## Mode mappings: the round trip -/

theorem highMask_and {M : Nat} (hM : HighMask M) (x : Nat) {p : Nat} (hp : p < 512) :
    (x ||| p) &&& M = x &&& M := by
  rw [Nat.and_distrib_right, hM p hp, Nat.or_zero]

theorem hm_ModeDevice : HighMask ModeDevice := by unfold HighMask; decide!
theorem hm_ModeCharDevice : HighMask ModeCharDevice := by unfold HighMask; decide!
theorem hm_ModeDir : HighMask ModeDir := by unfold HighMask; decide!
theorem hm_ModeSymlink : HighMask ModeSymlink := by unfold HighMask; decide!
theorem hm_ModeNamedPipe : HighMask ModeNamedPipe := by unfold HighMask; decide!
theorem hm_ModeSetgid : HighMask ModeSetgid := by unfold HighMask; decide!
theorem hm_ModeSetuid : HighMask ModeSetuid := by unfold HighMask; decide!
theorem hm_ModeSticky : HighMask ModeSticky := by unfold HighMask; decide!
theorem hm_ModeSocket : HighMask ModeSocket := by unfold HighMask; decide!
theorem hm_ModeType : HighMask ModeType := by unfold HighMask; decide!
theorem hm_S_IFMT : HighMask S_IFMT := by unfold HighMask; decide!
theorem hm_S_ISGID : HighMask S_ISGID := by unfold HighMask; decide!
theorem hm_S_ISUID : HighMask S_ISUID := by unfold HighMask; decide!
theorem hm_S_ISVTX : HighMask S_ISVTX := by unfold HighMask; decide!

theorem perm_and_self : ∀ p < 512, p &&& 0o777 = p := by decide!

/-- Permission bits pass through `fileModeToSftp` next to a mode without any. -/
theorem fileModeToSftp_or_perm (hi p : Nat) (hhi : hi &&& ModePerm = 0) (hp : p < 512) :
    fileModeToSftp (hi ||| p) = fileModeToSftp hi ||| p := by
  have h1 : (hi ||| p) &&& ModePerm = p := by
    rw [Nat.and_distrib_right, hhi, Nat.zero_or]; exact perm_and_self p hp
  have h2 : p % 2 ^ 32 = p := Nat.mod_eq_of_lt (by omega)
  simp only [fileModeToSftp, highMask_and hm_ModeDevice hi hp, highMask_and hm_ModeCharDevice hi hp,
    highMask_and hm_ModeDir hi hp, highMask_and hm_ModeSymlink hi hp,
    highMask_and hm_ModeNamedPipe hi hp, highMask_and hm_ModeSetgid hi hp,
    highMask_and hm_ModeSetuid hi hp, highMask_and hm_ModeSticky hi hp,
    highMask_and hm_ModeSocket hi hp, highMask_and hm_ModeType hi hp, h1, hhi, h2,
    Nat.zero_mod, Nat.or_zero]

theorem or_ite_zero (c : Prop) [Decidable c] (x a : Nat) :
    (if c then x ||| a else x) = x ||| (if c then a else 0) := by
  split <;> simp only [Nat.or_zero]

theorem chain_or (fm a1 a2 a3 a4 a5 a6 : Nat) (q1 q2 q3 q4 q5 q6 q7 : Prop)
    [Decidable q1] [Decidable q2] [Decidable q3] [Decidable q4] [Decidable q5] [Decidable q6]
    [Decidable q7] :
    (if q1 then fm ||| a1 else if q2 then fm ||| a2 else if q3 then fm ||| a3
      else if q4 then fm ||| a4 else if q5 then fm ||| a5 else if q6 then fm
      else if q7 then fm ||| a6 else fm)
    = fm ||| (if q1 then a1 else if q2 then a2 else if q3 then a3 else if q4 then a4
      else if q5 then a5 else if q6 then 0 else if q7 then a6 else 0) := by
  split_ifs <;> simp only [Nat.or_zero]

/-- Permission bits pass through `sftpToFileMode` next to a word without any. -/
theorem sftpToFileMode_or_perm (c p : Nat) (hc : c &&& 0o777 = 0) (hp : p < 512) :
    sftpToFileMode (c ||| p) = sftpToFileMode c ||| p := by
  have h1 : (c ||| p) &&& 0o777 = p := by
    rw [Nat.and_distrib_right, hc, Nat.zero_or]; exact perm_and_self p hp
  have e1 := highMask_and hm_S_IFMT c hp
  have e2 := highMask_and hm_S_ISGID c hp
  have e3 := highMask_and hm_S_ISUID c hp
  have e4 := highMask_and hm_S_ISVTX c hp
  unfold sftpToFileMode
  simp only [e1, e2, e3, e4, h1, hc, chain_or]
  simp only [or_ite_zero, Nat.zero_or]
  ac_rfl

end Sftpd

namespace Sftpd

theorem closed_hi_facts :
    ∀ t ∈ typeClasses, ∀ su sg st : Bool,
      (t ||| specialBits su sg st) &&& ModePerm = 0 ∧
      fileModeToSftp (t ||| specialBits su sg st) &&& 0o777 = 0 ∧
      sftpToFileMode (fileModeToSftp (t ||| specialBits su sg st)) = t ||| specialBits su sg st ∧
      fileModeToSftp (t ||| specialBits su sg st) < 2 ^ 32 := by
  decide!

/-- On the closed set the wire word fits 32 bits and maps back to the mode. -/
theorem closedMode_roundtrip (t p : Nat) (su sg st : Bool)
    (ht : t ∈ typeClasses) (hp : p &&& 0o777 = p) :
    fileModeToSftp (closedMode t p su sg st) < 2 ^ 32 ∧
      sftpToFileMode (fileModeToSftp (closedMode t p su sg st)) = closedMode t p su sg st := by
  have hp512 : p < 512 := by
    have := Nat.and_lt_two_pow p (show 0o777 < 2 ^ 9 by decide)
    omega
  obtain ⟨h1, h2, h3, h4⟩ := closed_hi_facts t ht su sg st
  have hre : closedMode t p su sg st = (t ||| specialBits su sg st) ||| p := by
    unfold closedMode; ac_rfl
  rw [hre, fileModeToSftp_or_perm _ p h1 hp512, sftpToFileMode_or_perm _ p h2 hp512, h3]
  exact ⟨Nat.or_lt_two_pow h4 (by omega), rfl⟩

/-- C1. On the closed set of modes (one type class among regular, directory, symlink,
character device, block device, fifo and socket; any permission bits within `0o777`; any
subset of setuid, setgid, sticky) `sftpToFileMode` undoes `fileModeToSftp`. -/
theorem sftpToFileMode_fileModeToSftp (t p : Nat) (su sg st : Bool)
    (ht : t ∈ typeClasses) (hp : p &&& 0o777 = p) :
    sftpToFileMode (fileModeToSftp (closedMode t p su sg st)) = closedMode t p su sg st :=
  (closedMode_roundtrip t p su sg st ht hp).2

/-- A directory with mode `0o755` and the sticky bit survives the round trip. -/
theorem sftpToFileMode_fileModeToSftp_witness :
    ModeDir ∈ typeClasses ∧ 0o755 &&& 0o777 = 0o755 ∧
      sftpToFileMode (fileModeToSftp (closedMode ModeDir 0o755 false false true))
        = closedMode ModeDir 0o755 false false true :=
  ⟨by decide, by decide,
    sftpToFileMode_fileModeToSftp ModeDir 0o755 false false true (by decide) (by decide)⟩

end Sftpd

namespace Sftpd

/-! ## The session: shared lemmas -/

variable {σ : Type}

@[simp] theorem state_next (s : State σ) : (Step.next s).state = s := rfl
@[simp] theorem state_ret (s : State σ) (e : Option GoError) : (Step.ret s e).state = s := rfl
@[simp] theorem state_panic (s : State σ) : (Step.panic s).state = s := rfl
@[simp] theorem finish_state (s : State σ) : (finish s).state = s := by
  unfold finish; split <;> rfl

@[simp] theorem wrc_input (env : Env σ) (s : State σ) (bs : List Nat) :
    (wrc env s bs).1.c.input = s.c.input := rfl
@[simp] theorem writeResponse_input (env : Env σ) (s : State σ) (id code : Nat) :
    (writeResponse env s id code).1.c.input = s.c.input := rfl
@[simp] theorem writeHandle_input (env : Env σ) (s : State σ) (id : Nat) (h : List Nat) :
    (writeHandle env s id h).1.c.input = s.c.input := rfl
@[simp] theorem writeAttr_input (env : Env σ) (s : State σ) (id : Nat) (r : Except GoError Attr) :
    (writeAttr env s id r).1.c.input = s.c.input := by
  cases r <;> rfl
@[simp] theorem writeNameOnly_input (env : Env σ) (s : State σ) (id : Nat) (p : List Nat)
    (e : Option GoError) : (writeNameOnly env s id p e).1.c.input = s.c.input := by
  unfold writeNameOnly; split <;> rfl
@[simp] theorem statusReply_input (env : Env σ) (s : State σ) :
    (statusReply env s).c.input = s.c.input := by
  unfold statusReply; simp only []; split <;> rfl
@[simp] theorem closeObjects_c (env : Env σ) (s : State σ) (l : List Closed) :
    (closeObjects env s l).c = s.c := by
  induction l generalizing s with
  | nil => rfl
  | cons x rest ih => cases x <;> simp [closeObjects, ih]
@[simp] theorem closeHandle_c (env : Env σ) (s : State σ) (k : List Nat) :
    (closeHandle env s k).c = s.c := by
  simp [closeHandle]

/-- A property of every case of the `switch` is a property of `dispatch`. -/
theorem dispatch_cases {σ : Type} (Q : Step σ → Prop) (env : Env σ) (s : State σ) (op : Nat)
    (bs : List Nat)
    (hINIT : op = SSH_FXP_INIT → Q (caseINIT env s))
    (hOPEN : op = SSH_FXP_OPEN → Q (caseOPEN env s (NewParser bs)))
    (hCLOSE : op = SSH_FXP_CLOSE → Q (caseCLOSE env s (NewParser bs)))
    (hREAD : op = SSH_FXP_READ → Q (caseREAD env s (NewParser bs)))
    (hWRITE : op = SSH_FXP_WRITE → Q (caseWRITE env s (NewParser bs)))
    (hSTAT : op = SSH_FXP_LSTAT ∨ op = SSH_FXP_STAT → Q (caseSTAT env s (NewParser bs) op))
    (hFSTAT : op = SSH_FXP_FSTAT → Q (caseFSTAT env s (NewParser bs)))
    (hSETSTAT : op = SSH_FXP_SETSTAT → Q (caseSETSTAT env s (NewParser bs)))
    (hFSETSTAT : op = SSH_FXP_FSETSTAT → Q (caseFSETSTAT env s (NewParser bs)))
    (hOPENDIR : op = SSH_FXP_OPENDIR → Q (caseOPENDIR env s (NewParser bs)))
    (hREADDIR : op = SSH_FXP_READDIR → Q (caseREADDIR env s (NewParser bs)))
    (hREMOVE : op = SSH_FXP_REMOVE → Q (caseREMOVE env s (NewParser bs)))
    (hMKDIR : op = SSH_FXP_MKDIR → Q (caseMKDIR env s (NewParser bs)))
    (hRMDIR : op = SSH_FXP_RMDIR → Q (caseRMDIR env s (NewParser bs)))
    (hREALPATH : op = SSH_FXP_REALPATH → Q (caseREALPATH env s (NewParser bs)))
    (hRENAME : op = SSH_FXP_RENAME → Q (caseRENAME env s (NewParser bs)))
    (hREADLINK : op = SSH_FXP_READLINK → Q (caseREADLINK env s (NewParser bs)))
    (hSYMLINK : op = SSH_FXP_SYMLINK → Q (caseSYMLINK env s (NewParser bs)))
    (hEXTENDED : op = SSH_FXP_EXTENDED → Q (caseEXTENDED env s (NewParser bs)))
    (hDefault : op ≠ SSH_FXP_INIT → op ∉ parsedOps → Q (caseDefault env s)) :
    Q (dispatch env s op bs) := by
  unfold dispatch
  simp only []
  by_cases h1 : op = SSH_FXP_INIT
  · rw [if_pos h1]; exact hINIT h1
  rw [if_neg h1]
  by_cases h2 : op = SSH_FXP_OPEN
  · rw [if_pos h2]; exact hOPEN h2
  rw [if_neg h2]
  by_cases h3 : op = SSH_FXP_CLOSE
  · rw [if_pos h3]; exact hCLOSE h3
  rw [if_neg h3]
  by_cases h4 : op = SSH_FXP_READ
  · rw [if_pos h4]; exact hREAD h4
  rw [if_neg h4]
  by_cases h5 : op = SSH_FXP_WRITE
  · rw [if_pos h5]; exact hWRITE h5
  rw [if_neg h5]
  by_cases h6 : op = SSH_FXP_LSTAT ∨ op = SSH_FXP_STAT
  · rw [if_pos h6]; exact hSTAT h6
  rw [if_neg h6]
  by_cases h7 : op = SSH_FXP_FSTAT
  · rw [if_pos h7]; exact hFSTAT h7
  rw [if_neg h7]
  by_cases h8 : op = SSH_FXP_SETSTAT
  · rw [if_pos h8]; exact hSETSTAT h8
  rw [if_neg h8]
  by_cases h9 : op = SSH_FXP_FSETSTAT
  · rw [if_pos h9]; exact hFSETSTAT h9
  rw [if_neg h9]
  by_cases h10 : op = SSH_FXP_OPENDIR
  · rw [if_pos h10]; exact hOPENDIR h10
  rw [if_neg h10]
  by_cases h11 : op = SSH_FXP_READDIR
  · rw [if_pos h11]; exact hREADDIR h11
  rw [if_neg h11]
  by_cases h12 : op = SSH_FXP_REMOVE
  · rw [if_pos h12]; exact hREMOVE h12
  rw [if_neg h12]
  by_cases h13 : op = SSH_FXP_MKDIR
  · rw [if_pos h13]; exact hMKDIR h13
  rw [if_neg h13]
  by_cases h14 : op = SSH_FXP_RMDIR
  · rw [if_pos h14]; exact hRMDIR h14
  rw [if_neg h14]
  by_cases h15 : op = SSH_FXP_REALPATH
  · rw [if_pos h15]; exact hREALPATH h15
  rw [if_neg h15]
  by_cases h16 : op = SSH_FXP_RENAME
  · rw [if_pos h16]; exact hRENAME h16
  rw [if_neg h16]
  by_cases h17 : op = SSH_FXP_READLINK
  · rw [if_pos h17]; exact hREADLINK h17
  rw [if_neg h17]
  by_cases h18 : op = SSH_FXP_SYMLINK
  · rw [if_pos h18]; exact hSYMLINK h18
  rw [if_neg h18]
  by_cases h19 : op = SSH_FXP_EXTENDED
  · rw [if_pos h19]; exact hEXTENDED h19
  rw [if_neg h19]
  apply hDefault h1
  simp only [parsedOps, List.mem_cons, List.mem_singleton, List.not_mem_nil, not_or] at h6 ⊢
  exact ⟨h2, h3, h4, h5, h6.1, h6.2, h7, h8, h9, h10, h11, h12, h13, h14, h15, h16, h17, h18, h19, not_false⟩

/-- No case of the `switch` reads from the channel. -/
theorem dispatch_input (env : Env σ) (s : State σ) (op : Nat) (bs : List Nat) :
    (dispatch env s op bs).state.c.input = s.c.input := by
  refine dispatch_cases (fun st => st.state.c.input = s.c.input) env s op bs
    ?_ ?_ ?_ ?_ ?_ ?_ ?_ ?_ ?_ ?_ ?_ ?_ ?_ ?_ ?_ ?_ ?_ ?_ ?_ ?_ <;> intro _
  · unfold caseINIT; simp
  · unfold caseOPEN; simp only []; repeat' split
    all_goals simp
  · unfold caseCLOSE; simp only []; repeat' split
    all_goals simp
  · unfold caseREAD; simp only []; repeat' split
    all_goals simp
  · unfold caseWRITE; simp only []; repeat' split
    all_goals simp
  · unfold caseSTAT; simp only []; repeat' split
    all_goals simp
  · unfold caseFSTAT; simp only []; repeat' split
    all_goals simp
  · unfold caseSETSTAT; simp only []; repeat' split
    all_goals simp
  · unfold caseFSETSTAT; simp only []; repeat' split
    all_goals simp
  · unfold caseOPENDIR; simp only []; repeat' split
    all_goals simp
  · unfold caseREADDIR; simp only []; repeat' split
    all_goals simp
  · unfold caseREMOVE; simp only []; repeat' split
    all_goals simp
  · unfold caseMKDIR; simp only []; repeat' split
    all_goals simp
  · unfold caseRMDIR; simp only []; repeat' split
    all_goals simp
  · unfold caseREALPATH; simp only []; repeat' split
    all_goals simp
  · unfold caseRENAME; simp only []; repeat' split
    all_goals simp
  · unfold caseREADLINK; simp only []; repeat' split
    all_goals simp
  · unfold caseSYMLINK; simp
  · unfold caseEXTENDED; simp only []; repeat' split
    all_goals simp
  · intro _; unfold caseDefault; simp

end Sftpd

namespace Sftpd
variable {σ : Type}

/-! ## Termination -/

theorem loopHead_input (env : Env σ) (s : State σ) :
    (loopHead env s).state.c.input = s.c.input := by
  unfold loopHead
  split
  · simp only []; split <;> rfl
  · rfl

theorem readPacketHeader_length (input : List Nat) :
    (readPacketHeader input).2.2.2 = none →
      (readPacketHeader input).1.length + 5 = input.length := by
  unfold readPacketHeader
  split
  · intro _; simp
  · intro h; simp at h
  · intro h; simp at h

/-- A round of the loop body returns, or leaves five bytes less to read. -/
theorem loopBody_consumes (env : Env σ) (s : State σ) :
    (loopBody env s).returned ≠ none ∨
      (loopBody env s).state.c.input.length + 5 ≤ s.c.input.length := by
  unfold loopBody
  simp only []
  split
  · left; simp [Step.returned]
  · rename_i hnone
    split
    · left; simp [Step.returned]
    · split
      · left; simp [Step.returned]
      · right
        rw [dispatch_input]
        have h1 := readPacketHeader_length _ hnone
        have h2 : (discard s.c.input s.plen).length ≤ s.c.input.length := by
          simp [discard]
        simp only []
        omega

/-- A round of the loop returns, or leaves five bytes less to read. -/
theorem iter_consumes (env : Env σ) (s : State σ) :
    (iter env s).returned ≠ none ∨ (iter env s).state.c.input.length + 5 ≤ s.c.input.length := by
  unfold iter
  have hin := loopHead_input env s
  split
  · rename_i s1 h1
    rw [h1] at hin
    simp only [state_next] at hin
    rw [← hin]
    exact loopBody_consumes env s1
  · rename_i r hr
    cases hs : loopHead env s with
    | next s1 => exact absurd hs (hr s1)
    | ret s1 e => left; simp [Step.returned]
    | panic s1 =>
      exfalso
      unfold loopHead at hs
      split at hs
      · simp only [] at hs; split at hs <;> cases hs
      · cases hs

theorem loop_terminates (env : Env σ) (fuel : Nat) (s : State σ)
    (h : s.c.input.length < 5 * fuel) :
    ∃ r, loop env fuel s = some r ∧ (r.returned ≠ none ∨ r.isPanic = true) := by
  induction fuel generalizing s with
  | zero => omega
  | succ n ih =>
    unfold loop
    have hc := iter_consumes env s
    cases hi : iter env s with
    | next s1 =>
      rw [hi] at hc
      simp only [Step.returned, ne_eq, not_true_eq_false, state_next, false_or] at hc
      exact ih s1 (by omega)
    | ret s1 e => exact ⟨_, rfl, Or.inl (by simp [Step.returned])⟩
    | panic s1 => exact ⟨_, rfl, Or.inr rfl⟩

/-- C4. `ServeChannel` terminates on every finite input, whatever the backend answers
and whichever writes fail: every round of the loop returns or leaves at least five bytes
(the packet header) less to read, so more rounds than a fifth of the input length always
reach a return (or a panic). -/
theorem ServeChannel_terminates (env : Env σ) :
    (∀ s : State σ, (iter env s).returned ≠ none ∨
        (iter env s).state.c.input.length + 5 ≤ s.c.input.length) ∧
    (∀ (fuel : Nat) (input : List Nat) (fs : σ), input.length < 5 * fuel →
      ∃ r, ServeChannel env fuel input fs = some r ∧ (r.returned ≠ none ∨ r.isPanic = true)) := by
  refine ⟨iter_consumes env, ?_⟩
  intro fuel input fs h
  obtain ⟨r, hr, hprop⟩ := loop_terminates env fuel (initState input fs) h
  unfold ServeChannel
  rw [hr]
  cases r with
  | next s1 => simp [Step.returned, Step.isPanic] at hprop
  | ret s1 e => exact ⟨_, rfl, Or.inl (by simp [Step.returned])⟩
  | panic s1 => exact ⟨_, rfl, Or.inr rfl⟩

/-- Two rounds suffice for the nine bytes of an INIT packet. -/
theorem ServeChannel_terminates_witness :
    [0, 0, 0, 5, 1, 0, 0, 0, 3].length < 5 * 2 ∧
      ∃ r, ServeChannel (emptyEnv (fun _ => none)) 2 [0, 0, 0, 5, 1, 0, 0, 0, 3] () = some r ∧
        (r.returned ≠ none ∨ r.isPanic = true) :=
  ⟨by decide,
    (ServeChannel_terminates (emptyEnv (fun _ => none))).2 2 [0, 0, 0, 5, 1, 0, 0, 0, 3] ()
      (by decide)⟩

end Sftpd

namespace Sftpd

variable {σ : Type}

/-! ## The session on concrete inputs -/

/-- C3. The claim fails on the code: an OPEN request (id 9, flags 1, no attributes)
whose one-byte path is `0xE4`, the lead byte of a three-byte UTF-8 character, makes
`isUtf8` index past the end of the path, and the session with the stub backend panics
before any reply is written. -/
theorem ServeChannel_panics_on_truncated_path :
    (ServeChannel (emptyEnv (fun _ => none)) 1
        [0, 0, 0, 18, 3, 0, 0, 0, 9, 0, 0, 0, 1, 0xE4, 0, 0, 0, 1, 0, 0, 0, 0] ()).map
      (fun r => (r.isPanic, r.state.c.writes)) = some (true, []) := by
  decide

/-- C5. The claim fails on the code: for the REMOVE request with id 7 and path `a`, which
the stub backend refuses, the session writes two STATUS replies, FAILURE and then OK. -/
theorem ServeChannel_remove_replies_twice :
    (ServeChannel (emptyEnv (fun _ => none)) 2
        [0, 0, 0, 10, 13, 0, 0, 0, 7, 0, 0, 0, 1, 97] ()).map
      (fun r => (r.state.c.writes.map Prod.fst, r.state.calls))
    = some ([statusPacket 7 SSH_FX_FAILURE, statusPacket 7 SSH_FX_OK], [Call.Remove [97]]) := by
  decide

/-- C6. The claim fails on the code, at RENAME and at WRITE. A RENAME packet whose
payload is the two bytes `00 00` does not parse, yet `Rename` is called on the backend
(with two empty names), the replies are FAILURE and OK rather than BAD_MESSAGE, and the
session goes on to read the next header (where the input ends). A WRITE packet with the
same payload, whose handle is looked up before the parse is checked, gets NO_SUCH_FILE
rather than BAD_MESSAGE, and the session goes on as well. -/
theorem ServeChannel_rename_ignores_parse_error :
    (ServeChannel (emptyEnv (fun _ => none)) 2 [0, 0, 0, 3, 18, 0, 0] ()).map
        (fun r => (r.returned, r.state.c.writes.map Prod.fst, r.state.calls))
      = some (some (some GoError.EOF),
          [statusPacket 0 SSH_FX_FAILURE, statusPacket 0 SSH_FX_OK], [Call.Rename [] [] 0]) ∧
    (ServeChannel (emptyEnv (fun _ => none)) 2 [0, 0, 0, 3, 6, 0, 0] ()).map
        (fun r => (r.returned, r.state.c.writes.map Prod.fst, r.state.calls))
      = some (some (some GoError.EOF), [statusPacket 0 SSH_FX_NO_SUCH_FILE], []) := by
  decide

end Sftpd

namespace Sftpd

variable {σ : Type}

/-! ## Short packets -/

/-- What the loop head leaves alone. -/
theorem loopHead_frame (env : Env σ) (s s1 : State σ) (h : loopHead env s = .next s1) :
    s1.c.input = s.c.input ∧ s1.plen = s.plen ∧ s1.calls = s.calls ∧ s1.h = s.h ∧
      s1.fs = s.fs ∧ s1.id = s.id := by
  unfold loopHead at h
  split at h
  · simp only [] at h
    split at h
    · cases h
    · cases h; exact ⟨rfl, rfl, rfl, rfl, rfl, rfl⟩
  · cases h; exact ⟨rfl, rfl, rfl, rfl, rfl, rfl⟩

/-- C8, counterexample. On the input `00 00 00 02 03 00` the session ends with the error
of the length guard and has written nothing: no BAD_MESSAGE reply is sent. -/
theorem short_packet_gets_no_reply :
    (ServeChannel (emptyEnv (fun _ => none)) 1 [0, 0, 0, 2, 3, 0] ()).map
      (fun r => (r.returned, r.state.c.writes)) = some (some (some errTooShort), []) := by
  decide

/-- C8, amended. When the header read in a round declares a length that, less one for
the type byte, is below 2, the round writes nothing after the loop head, calls nothing on
the backend, leaves the handle table alone, and `ServeChannel` returns the error
`SFTP PACKET TOO SHORT`. -/
theorem short_packet_aborts (env : Env σ) (s s1 : State σ) (b0 b1 b2 b3 op : Nat)
    (rest : List Nat) (hhead : loopHead env s = .next s1)
    (hin : discard s.c.input s.plen = b0 :: b1 :: b2 :: b3 :: op :: rest)
    (hlen : ((((b0 * 256 + b1) * 256 + b2) * 256 + b3 : Nat) : Int) - 1 < 2) :
    ∃ t, iter env s = .ret t (some errTooShort) ∧ t.c.writes = s1.c.writes ∧
      t.calls = s.calls ∧ t.h = s.h ∧ t.fs = s.fs := by
  obtain ⟨h1, h2, h3, h4, h5, _⟩ := loopHead_frame env s s1 hhead
  unfold iter
  rw [hhead]
  simp only []
  unfold loopBody
  rw [h1, h2, hin]
  simp only [readPacketHeader]
  rw [if_pos hlen]
  exact ⟨_, rfl, rfl, h3, h4, h5⟩

/-- The packet `00 00 00 02 03 00` at the start of a session. -/
theorem short_packet_aborts_witness :
    loopHead (emptyEnv (fun _ => none)) (initState [0, 0, 0, 2, 3, 0] ())
        = .next (initState [0, 0, 0, 2, 3, 0] ()) ∧
      discard (initState [0, 0, 0, 2, 3, 0] ()).c.input (initState [0, 0, 0, 2, 3, 0] ()).plen
        = 0 :: 0 :: 0 :: 2 :: 3 :: [0] ∧
      ((((0 * 256 + 0) * 256 + 0) * 256 + 2 : Nat) : Int) - 1 < 2 ∧
      ∃ t, iter (emptyEnv (fun _ => none)) (initState [0, 0, 0, 2, 3, 0] ())
          = .ret t (some errTooShort) ∧
        t.c.writes = (initState [0, 0, 0, 2, 3, 0] ()).c.writes ∧
        t.calls = (initState [0, 0, 0, 2, 3, 0] ()).calls ∧
        t.h = (initState [0, 0, 0, 2, 3, 0] ()).h ∧ t.fs = (initState [0, 0, 0, 2, 3, 0] ()).fs :=
  ⟨rfl, rfl, by decide,
    short_packet_aborts (emptyEnv (fun _ => none)) (initState [0, 0, 0, 2, 3, 0] ())
      (initState [0, 0, 0, 2, 3, 0] ()) 0 0 0 2 3 [0] rfl rfl (by decide)⟩

end Sftpd

namespace Sftpd

variable {σ : Type}

/-! ## The handle cap -/

theorem dispatch_OPEN (env : Env σ) (s : State σ) (bs : List Nat) :
    dispatch env s SSH_FXP_OPEN bs = caseOPEN env s (NewParser bs) := rfl

/-- C9. A well-formed OPEN request that arrives while the table holds 256 or more file
handles gets exactly one reply, STATUS PERMISSION_DENIED with its id: the round writes
one packet, the 21 bytes made of the length 17, the type byte STATUS, the parsed id, the
code PERMISSION_DENIED as a `uint32` and two empty strings. The backend is not called,
the handle table and the backend state stay as they were, and the session continues with
`e == nil`. Only the file handles count: below 256 of them, however many directory
handles there are, the request reaches `OpenFile` once its path is recoded. -/
theorem open_at_cap_is_denied (env : Env σ) (s : State σ) (bs : List Nat)
    (hparse : (parseAttr ((((NewParser bs).B32 s.id).1.B32String []).1.B32 0).1
      Attr.zero).1.End = none) :
    (s.h.Nfiles ≥ maxFiles →
      ∃ t, dispatch env s SSH_FXP_OPEN bs = .next t ∧
        t.c.writes = s.c.writes ++
          [(be32 17 ++ (SSH_FXP_STATUS :: (be32 ((NewParser bs).B32 s.id).2 ++
              (be32 SSH_FX_PERMISSION_DENIED ++ (be32 0 ++ be32 0)))),
            env.werr s.c.writes.length)] ∧
        SSH_FXP_STATUS = 101 ∧ SSH_FX_PERMISSION_DENIED = 3 ∧
        t.calls = s.calls ∧ t.fs = s.fs ∧ t.h = s.h ∧ t.e = none) ∧
    (s.h.Nfiles < maxFiles →
      ∀ path, gb18030ToUtf8 env.codec (((NewParser bs).B32 s.id).1.B32String []).2 = some path →
        (dispatch env s SSH_FXP_OPEN bs).state.calls = s.calls ++
          [Call.OpenFile path ((((NewParser bs).B32 s.id).1.B32String []).1.B32 0).2
            (parseAttr ((((NewParser bs).B32 s.id).1.B32String []).1.B32 0).1 Attr.zero).2]) := by
  constructor
  · intro hcap
    rw [dispatch_OPEN]
    unfold caseOPEN
    simp only [hparse, ne_eq, not_true_eq_false, if_false, hcap, if_true]
    have hb : statusPacket ((NewParser bs).B32 s.id).2 SSH_FX_PERMISSION_DENIED
        = be32 17 ++ (SSH_FXP_STATUS :: (be32 ((NewParser bs).B32 s.id).2 ++
            (be32 SSH_FX_PERMISSION_DENIED ++ (be32 0 ++ be32 0)))) := by
      simp [statusPacket, be32, SSH_FX_PERMISSION_DENIED]
    rw [← hb]
    exact ⟨_, rfl, rfl, rfl, rfl, rfl, rfl, rfl, rfl⟩
  · intro hcap path hpath
    have hn : ¬ (s.h.Nfiles ≥ maxFiles) := by omega
    rw [dispatch_OPEN]
    unfold caseOPEN
    simp only [hparse, ne_eq, not_true_eq_false, if_false, hn, hpath]
    split
    · rfl
    · simp [writeHandle, wrc]

/-- The 257th OPEN of a session: 256 file handles are open and the request parses. -/
theorem open_at_cap_is_denied_witness :
    (parseAttr ((((NewParser openPayload).B32 fullState.id).1.B32String []).1.B32 0).1
        Attr.zero).1.End = none ∧
      fullState.h.Nfiles ≥ maxFiles ∧
      ∃ t, dispatch (emptyEnv (fun _ => none)) fullState SSH_FXP_OPEN openPayload = .next t ∧
        t.c.writes = fullState.c.writes ++
          [(be32 17 ++ (SSH_FXP_STATUS :: (be32 ((NewParser openPayload).B32 fullState.id).2 ++
              (be32 SSH_FX_PERMISSION_DENIED ++ (be32 0 ++ be32 0)))),
            (emptyEnv (fun _ => none)).werr fullState.c.writes.length)] ∧
        SSH_FXP_STATUS = 101 ∧ SSH_FX_PERMISSION_DENIED = 3 ∧
        t.calls = fullState.calls ∧ t.fs = fullState.fs ∧ t.h = fullState.h ∧ t.e = none :=
  ⟨by decide, by decide!,
    (open_at_cap_is_denied (emptyEnv (fun _ => none)) fullState openPayload (by decide)).1
      (by decide!)⟩

end Sftpd

namespace Sftpd

variable {σ : Type}

/-! ## Request ids in responses -/

theorem carriesId_status (I code : Nat) : CarriesId I (statusPacket I code) :=
  ⟨rfl, Or.inl rfl⟩

theorem carriesId_handle (I : Nat) (h : List Nat) : CarriesId I (handlePacket I h) :=
  ⟨rfl, Or.inr (Or.inl rfl)⟩

theorem carriesId_dataHeader (I n : Nat) : CarriesId I (dataHeader I n) :=
  ⟨rfl, Or.inr (Or.inr (Or.inl rfl))⟩

theorem carriesId_nameOnly (I : Nat) (p : List Nat) : CarriesId I (nameOnlyPacket I p) :=
  ⟨rfl, Or.inr (Or.inr (Or.inr (Or.inr rfl)))⟩

/-- A packet closed by `withLen` whose body starts with a type byte and an id. -/
theorem carriesId_withLen (I ty : Nat) (o : Printer) (tail : List Nat)
    (ho : o.w = ty :: (be32 I ++ tail))
    (hty : ty = SSH_FXP_ATTRS ∨ ty = SSH_FXP_NAME) : CarriesId I o.withLen := by
  unfold Printer.withLen
  rw [ho]
  refine ⟨rfl, ?_⟩
  rcases hty with h | h
  · right; right; right; left; rw [h]; rfl
  · right; right; right; right; rw [h]; rfl

end Sftpd

namespace Sftpd

variable {σ : Type}

theorem foldl_B32String (ss : List (List Nat)) (o : Printer) :
    ss.foldl (fun o s => Printer.B32String o s) o = { w := o.w ++ extBytes ss } := by
  induction ss generalizing o with
  | nil => simp [extBytes]
  | cons x rest ih =>
    rw [List.foldl_cons, ih]
    simp only [Printer.B32String, extBytes, List.append_assoc]

/-- The packet of `writeAttr`: length, type, id, then the flags and the flagged fields. -/
theorem attrPacket_eq (id : Nat) (a : Attr) :
    attrPacket id a
      = Printer.withLen { w := SSH_FXP_ATTRS :: (be32 id ++ attrFields a) } := by
  unfold attrPacket attrFields
  by_cases h1 : a.Flags &&& SSH_FILEXFER_ATTR_SIZE = 0 <;>
    by_cases h2 : a.Flags &&& SSH_FILEXFER_ATTR_UIDGID = 0 <;>
    by_cases h3 : a.Flags &&& SSH_FILEXFER_ATTR_PERMISSIONS = 0 <;>
    by_cases h4 : a.Flags &&& SSH_FILEXFER_ATTR_ACMODTIME = 0 <;>
    by_cases h5 : a.Flags &&& SSH_FILEXFER_ATTR_EXTENDED = 0 <;>
    simp [h1, h2, h3, h4, h5, foldl_B32String, Out, Printer.Byte, Printer.B32, Printer.B64,
      outTimes, SSH_FXP_ATTRS]

end Sftpd

namespace Sftpd

variable {σ : Type}

theorem nameEntry_ext (env : Env σ) (o o1 : Printer) (fi : NamedAttr)
    (h : nameEntry env o fi = some o1) : ∃ t, o1.w = o.w ++ t := by
  unfold nameEntry at h
  split at h
  · cases h
  · simp only [Option.some.injEq] at h
    subst h
    by_cases h1 : fi.Flags &&& ATTR_SIZE = 0 <;> by_cases h2 : fi.Flags &&& ATTR_UIDGID = 0 <;>
      by_cases h3 : fi.Flags &&& ATTR_MODE = 0 <;> by_cases h4 : fi.Flags &&& ATTR_TIME = 0 <;>
      simp [h1, h2, h3, h4, Printer.B32String, Printer.B32, Printer.B64, outTimes]

theorem nameEntries_ext (env : Env σ) (fis : List NamedAttr) (o o1 : Printer)
    (h : nameEntries env o fis = some o1) : ∃ t, o1.w = o.w ++ t := by
  induction fis generalizing o with
  | nil =>
    simp only [nameEntries, Option.some.injEq] at h
    exact ⟨[], by simp [h]⟩
  | cons fi rest ih =>
    unfold nameEntries at h
    split at h
    · cases h
    · rename_i o2 h2
      obtain ⟨t1, ht1⟩ := nameEntry_ext env o o2 fi h2
      obtain ⟨t2, ht2⟩ := ih o2 h
      exact ⟨t1 ++ t2, by rw [ht2, ht1, List.append_assoc]⟩

theorem B32_cons (b0 b1 b2 b3 : Nat) (rest : List Nat) (d : Nat) :
    (NewParser (b0 :: b1 :: b2 :: b3 :: rest)).B32 d
      = ({ rest := rest, ok := true }, ((b0 * 256 + b1) * 256 + b2) * 256 + b3) := rfl

theorem repliesCarry_nil (I : Nat) : RepliesCarry I [] := Or.inl (by simp)

theorem repliesCarry_one (I : Nat) (w : List Nat) (e : Option GoError) (h : CarriesId I w) :
    RepliesCarry I [(w, e)] := Or.inl (by simpa using h)

theorem repliesCarry_two (I : Nat) (w1 w2 : List Nat) (e1 e2 : Option GoError)
    (h1 : CarriesId I w1) (h2 : CarriesId I w2) : RepliesCarry I [(w1, e1), (w2, e2)] :=
  Or.inl (by simp [h1, h2])

theorem repliesCarry_data (I : Nat) (bs : List Nat) (e1 e2 : Option GoError) :
    RepliesCarry I [(dataHeader I bs.length, e1), (bs, e2)] :=
  Or.inr ⟨_, _, rfl, rfl⟩

theorem roundWrites_self (s : State σ) : roundWrites s s = [] := by
  simp [roundWrites]

@[simp] theorem closeObjects_id (env : Env σ) (s : State σ) (l : List Closed) :
    (closeObjects env s l).id = s.id := by
  induction l generalizing s with
  | nil => rfl
  | cons x rest ih => cases x <;> simp [closeObjects, ih]

@[simp] theorem closeHandle_id (env : Env σ) (s : State σ) (k : List Nat) :
    (closeHandle env s k).id = s.id := by
  simp [closeHandle]

theorem carriesId_names (env : Env σ) (I cnt : Nat) (fis : List NamedAttr) (o1 : Printer)
    (h : nameEntries env (((Out.Byte SSH_FXP_NAME).B32 I).B32 cnt) fis = some o1) :
    CarriesId I o1.withLen := by
  obtain ⟨tl, htl⟩ := nameEntries_ext env _ _ _ h
  exact carriesId_withLen I SSH_FXP_NAME o1 (be32 cnt ++ tl)
    (by rw [htl]; simp [Out, Printer.Byte, Printer.B32, SSH_FXP_NAME]) (Or.inr rfl)

theorem carriesId_attr (I : Nat) (a : Attr) : CarriesId I (attrPacket I a) := by
  rw [attrPacket_eq]
  exact carriesId_withLen I SSH_FXP_ATTRS _ (attrFields a) rfl (Or.inl rfl)

theorem writeAttr_writes (env : Env σ) (s : State σ) (id : Nat) (r : Except GoError Attr) :
    ∃ w, CarriesId id w ∧
      (writeAttr env s id r).1.c.writes = s.c.writes ++ [(w, env.werr s.c.writes.length)] ∧
      (writeAttr env s id r).1.id = s.id := by
  cases r with
  | error e => exact ⟨_, carriesId_status id SSH_FX_FAILURE, rfl, rfl⟩
  | ok a => exact ⟨_, carriesId_attr id a, rfl, rfl⟩

theorem writeNameOnly_writes (env : Env σ) (s : State σ) (id : Nat) (p : List Nat)
    (e : Option GoError) :
    ∃ w, CarriesId id w ∧
      (writeNameOnly env s id p e).1.c.writes = s.c.writes ++ [(w, env.werr s.c.writes.length)] ∧
      (writeNameOnly env s id p e).1.id = s.id := by
  unfold writeNameOnly
  split
  · exact ⟨_, carriesId_status id SSH_FX_FAILURE, rfl, rfl⟩
  · exact ⟨_, carriesId_nameOnly id p, rfl, rfl⟩

theorem statusReply_writes (env : Env σ) (s : State σ) :
    (statusReply env s).id = s.id ∧ RepliesCarry s.id (roundWrites s (statusReply env s)) := by
  unfold statusReply
  simp only []
  split
  · refine ⟨rfl, ?_⟩
    simp [roundWrites, writeResponse, wrc, repliesCarry_two, carriesId_status]
  · refine ⟨rfl, ?_⟩
    simp [roundWrites, writeResponse, wrc, repliesCarry_one, carriesId_status]

/-- The writes of `t` since `s` when `t` goes on from a state `m` without writes of
its own since `s`. -/
theorem roundWrites_via (s m t : State σ) (h : m.c.writes = s.c.writes) :
    roundWrites s t = roundWrites m t := by
  simp [roundWrites, h]


theorem dispatch_ids (env : Env σ) (s : State σ) (op b0 b1 b2 b3 : Nat)
    (rest : List Nat) (hop : op ∈ parsedOps) :
    (dispatch env s op (b0 :: b1 :: b2 :: b3 :: rest)).state.id
        = ((b0 * 256 + b1) * 256 + b2) * 256 + b3 ∧
      RepliesCarry (((b0 * 256 + b1) * 256 + b2) * 256 + b3)
        (roundWrites s (dispatch env s op (b0 :: b1 :: b2 :: b3 :: rest)).state) := by
  refine dispatch_cases (fun st => st.state.id = ((b0 * 256 + b1) * 256 + b2) * 256 + b3 ∧
      RepliesCarry (((b0 * 256 + b1) * 256 + b2) * 256 + b3) (roundWrites s st.state))
    env s op _ ?_ ?_ ?_ ?_ ?_ ?_ ?_ ?_ ?_ ?_ ?_ ?_ ?_ ?_ ?_ ?_ ?_ ?_ ?_ ?_
  · intro h; subst h; simp [parsedOps, SSH_FXP_INIT, SSH_FXP_OPEN, SSH_FXP_CLOSE, SSH_FXP_READ, SSH_FXP_WRITE, SSH_FXP_LSTAT, SSH_FXP_STAT, SSH_FXP_FSTAT, SSH_FXP_SETSTAT, SSH_FXP_FSETSTAT, SSH_FXP_OPENDIR, SSH_FXP_READDIR, SSH_FXP_REMOVE, SSH_FXP_MKDIR, SSH_FXP_RMDIR, SSH_FXP_REALPATH, SSH_FXP_RENAME, SSH_FXP_READLINK, SSH_FXP_SYMLINK, SSH_FXP_EXTENDED] at hop
  · intro _
    unfold caseOPEN
    simp only [B32_cons, statusReply, writeAttr, writeNameOnly]
    repeat' split
    all_goals
      simp [roundWrites, writeResponse, writeHandle, wrc, repliesCarry_nil, repliesCarry_one,
        repliesCarry_two, carriesId_status, carriesId_handle, carriesId_attr,
        carriesId_nameOnly]
  · intro _
    unfold caseCLOSE
    simp only [B32_cons, statusReply, writeAttr, writeNameOnly]
    repeat' split
    all_goals
      simp [roundWrites, writeResponse, writeHandle, wrc, repliesCarry_nil, repliesCarry_one,
        repliesCarry_two, carriesId_status, carriesId_handle, carriesId_attr,
        carriesId_nameOnly]
  · intro _
    unfold caseREAD
    simp only [B32_cons]
    repeat' split
    all_goals
      simp [roundWrites, writeResponse, wrc, repliesCarry_nil, repliesCarry_one,
        repliesCarry_data, carriesId_status, carriesId_dataHeader, -List.length_take]
  · intro _
    unfold caseWRITE
    simp only [B32_cons, statusReply, writeAttr, writeNameOnly]
    repeat' split
    all_goals
      simp [roundWrites, writeResponse, writeHandle, wrc, repliesCarry_nil, repliesCarry_one,
        repliesCarry_two, carriesId_status, carriesId_handle, carriesId_attr,
        carriesId_nameOnly]
  · intro _
    unfold caseSTAT
    simp only [B32_cons, statusReply, writeAttr, writeNameOnly]
    repeat' split
    all_goals
      simp [roundWrites, writeResponse, writeHandle, wrc, repliesCarry_nil, repliesCarry_one,
        repliesCarry_two, carriesId_status, carriesId_handle, carriesId_attr,
        carriesId_nameOnly]
  · intro _
    unfold caseFSTAT
    simp only [B32_cons, statusReply, writeAttr, writeNameOnly]
    repeat' split
    all_goals
      simp [roundWrites, writeResponse, writeHandle, wrc, repliesCarry_nil, repliesCarry_one,
        repliesCarry_two, carriesId_status, carriesId_handle, carriesId_attr,
        carriesId_nameOnly]
  · intro _
    unfold caseSETSTAT
    simp only [B32_cons, statusReply, writeAttr, writeNameOnly]
    repeat' split
    all_goals
      simp [roundWrites, writeResponse, writeHandle, wrc, repliesCarry_nil, repliesCarry_one,
        repliesCarry_two, carriesId_status, carriesId_handle, carriesId_attr,
        carriesId_nameOnly]
  · intro _
    unfold caseFSETSTAT
    simp only [B32_cons, statusReply, writeAttr, writeNameOnly]
    repeat' split
    all_goals
      simp [roundWrites, writeResponse, writeHandle, wrc, repliesCarry_nil, repliesCarry_one,
        repliesCarry_two, carriesId_status, carriesId_handle, carriesId_attr,
        carriesId_nameOnly]
  · intro _
    unfold caseOPENDIR
    simp only [B32_cons, statusReply, writeAttr, writeNameOnly]
    repeat' split
    all_goals
      simp [roundWrites, writeResponse, writeHandle, wrc, repliesCarry_nil, repliesCarry_one,
        repliesCarry_two, carriesId_status, carriesId_handle, carriesId_attr,
        carriesId_nameOnly]
  · intro _
    unfold caseREADDIR
    simp only [B32_cons]
    repeat' split
    all_goals
      simp [roundWrites, writeResponse, wrc, repliesCarry_nil, repliesCarry_one,
        carriesId_status]
    rename_i o1 ho1
    exact repliesCarry_one _ _ _ (carriesId_names env _ _ _ _ ho1)
  · intro _
    unfold caseREMOVE
    simp only [B32_cons, statusReply, writeAttr, writeNameOnly]
    repeat' split
    all_goals
      simp [roundWrites, writeResponse, writeHandle, wrc, repliesCarry_nil, repliesCarry_one,
        repliesCarry_two, carriesId_status, carriesId_handle, carriesId_attr,
        carriesId_nameOnly]
  · intro _
    unfold caseMKDIR
    simp only [B32_cons, statusReply, writeAttr, writeNameOnly]
    repeat' split
    all_goals
      simp [roundWrites, writeResponse, writeHandle, wrc, repliesCarry_nil, repliesCarry_one,
        repliesCarry_two, carriesId_status, carriesId_handle, carriesId_attr,
        carriesId_nameOnly]
  · intro _
    unfold caseRMDIR
    simp only [B32_cons, statusReply, writeAttr, writeNameOnly]
    repeat' split
    all_goals
      simp [roundWrites, writeResponse, writeHandle, wrc, repliesCarry_nil, repliesCarry_one,
        repliesCarry_two, carriesId_status, carriesId_handle, carriesId_attr,
        carriesId_nameOnly]
  · intro _
    unfold caseREALPATH
    simp only [B32_cons, statusReply, writeAttr, writeNameOnly]
    repeat' split
    all_goals
      simp [roundWrites, writeResponse, writeHandle, wrc, repliesCarry_nil, repliesCarry_one,
        repliesCarry_two, carriesId_status, carriesId_handle, carriesId_attr,
        carriesId_nameOnly]
  · intro _
    unfold caseRENAME
    simp only [B32_cons, statusReply, writeAttr, writeNameOnly]
    repeat' split
    all_goals
      simp [roundWrites, writeResponse, writeHandle, wrc, repliesCarry_nil, repliesCarry_one,
        repliesCarry_two, carriesId_status, carriesId_handle, carriesId_attr,
        carriesId_nameOnly]
  · intro _
    unfold caseREADLINK
    simp only [B32_cons, statusReply, writeAttr, writeNameOnly]
    repeat' split
    all_goals
      simp [roundWrites, writeResponse, writeHandle, wrc, repliesCarry_nil, repliesCarry_one,
        repliesCarry_two, carriesId_status, carriesId_handle, carriesId_attr,
        carriesId_nameOnly]
  · intro _
    unfold caseSYMLINK
    simp only [B32_cons]
    all_goals
      simp [roundWrites, writeResponse, writeHandle, wrc, repliesCarry_nil, repliesCarry_one,
        repliesCarry_two, carriesId_status, carriesId_handle, carriesId_attr,
        carriesId_nameOnly]
  · intro _
    unfold caseEXTENDED
    simp only [B32_cons, statusReply, writeAttr, writeNameOnly]
    repeat' split
    all_goals
      simp [roundWrites, writeResponse, writeHandle, wrc, repliesCarry_nil, repliesCarry_one,
        repliesCarry_two, carriesId_status, carriesId_handle, carriesId_attr,
        carriesId_nameOnly]
  · intro _ h; exact absurd hop h

/-- C10. For every request of the dispatch table whose payload starts with a request
id `I` (so in particular whenever the payload parses), every response written in its
round is a STATUS, HANDLE, DATA, ATTRS or NAME packet whose bytes 5 to 8 are `I` in big
endian, a DATA header being followed by the write of its payload; the session variable
`id` is `I` afterwards, and the EOF reply that the next loop head may send for the request
carries the `id` of the state it starts from. -/
theorem responses_carry_request_id (env : Env σ) (s : State σ) (op b0 b1 b2 b3 : Nat)
    (rest : List Nat) (hop : op ∈ parsedOps) :
    (dispatch env s op (b0 :: b1 :: b2 :: b3 :: rest)).state.id
        = ((b0 * 256 + b1) * 256 + b2) * 256 + b3 ∧
      RepliesCarry (((b0 * 256 + b1) * 256 + b2) * 256 + b3)
        (roundWrites s (dispatch env s op (b0 :: b1 :: b2 :: b3 :: rest)).state) ∧
      ∀ t : State σ, (loopHead env t).state.id = t.id ∧
        ∀ w ∈ roundWrites t (loopHead env t).state, CarriesId t.id w.1 := by
  refine ⟨(dispatch_ids env s op b0 b1 b2 b3 rest hop).1,
    (dispatch_ids env s op b0 b1 b2 b3 rest hop).2, ?_⟩
  intro t
  unfold loopHead
  split
  · simp only []
    split <;> simp [roundWrites, writeResponse, wrc, carriesId_status]
  · simp [roundWrites]

/-- An EXTENDED request with id 7 and an empty name at the start of a session. -/
theorem responses_carry_request_id_witness :
    SSH_FXP_EXTENDED ∈ parsedOps ∧
      ((dispatch (emptyEnv (fun _ => none)) (initState [] ()) SSH_FXP_EXTENDED
          (0 :: 0 :: 0 :: 7 :: [0, 0, 0, 0])).state.id
          = ((0 * 256 + 0) * 256 + 0) * 256 + 7 ∧
        RepliesCarry (((0 * 256 + 0) * 256 + 0) * 256 + 7)
          (roundWrites (initState [] ())
            (dispatch (emptyEnv (fun _ => none)) (initState [] ()) SSH_FXP_EXTENDED
              (0 :: 0 :: 0 :: 7 :: [0, 0, 0, 0])).state) ∧
        ∀ t : State Unit, (loopHead (emptyEnv (fun _ => none)) t).state.id = t.id ∧
          ∀ w ∈ roundWrites t (loopHead (emptyEnv (fun _ => none)) t).state,
            CarriesId t.id w.1) :=
  ⟨by decide,
    responses_carry_request_id (emptyEnv (fun _ => none)) (initState [] ()) SSH_FXP_EXTENDED
      0 0 0 7 [0, 0, 0, 0] (by decide)⟩

end Sftpd

namespace Sftpd

variable {σ : Type}

/-! ## Failed writes -/

@[simp] theorem statusWith_statusPacket (c id code : Nat) :
    StatusWith c (statusPacket id code) ↔ code % 256 = c := by
  simp [StatusWith, statusPacket, be32]

theorem type_of_framed (n ty : Nat) (rest : List Nat) : (be32 n ++ ty :: rest)[4]? = some ty := by
  simp [be32]

theorem not_statusWith (c : Nat) (w : List Nat) (ty : Nat) (h : w[4]? = some ty)
    (hty : ty ≠ SSH_FXP_STATUS) : ¬ StatusWith c w := by
  intro hs
  rw [hs.2.1] at h
  exact hty (Option.some.inj h).symm

@[simp] theorem not_statusWith_init (c : Nat) : ¬ StatusWith c initReply :=
  not_statusWith c _ SSH_FXP_VERSION rfl (by decide)

@[simp] theorem not_statusWith_handle (c I : Nat) (h : List Nat) :
    ¬ StatusWith c (handlePacket I h) :=
  not_statusWith c _ SSH_FXP_HANDLE rfl (by decide)

@[simp] theorem not_statusWith_dataHeader (c I n : Nat) : ¬ StatusWith c (dataHeader I n) :=
  not_statusWith c _ SSH_FXP_DATA rfl (by decide)

@[simp] theorem not_statusWith_nameOnly (c I : Nat) (p : List Nat) :
    ¬ StatusWith c (nameOnlyPacket I p) :=
  not_statusWith c _ SSH_FXP_NAME rfl (by decide)

@[simp] theorem not_statusWith_attr (c I : Nat) (a : Attr) : ¬ StatusWith c (attrPacket I a) := by
  rw [attrPacket_eq]
  exact not_statusWith c _ SSH_FXP_ATTRS (type_of_framed _ _ _) (by decide)

theorem not_statusWith_names (env : Env σ) (c I n : Nat) (fis : List NamedAttr) (o : Printer)
    (h : nameEntries env (((Out.Byte SSH_FXP_NAME).B32 I).B32 n) fis = some o) :
    ¬ StatusWith c o.withLen := by
  obtain ⟨t, ht⟩ := nameEntries_ext env fis _ o h
  unfold Printer.withLen
  rw [ht]
  exact not_statusWith c _ SSH_FXP_NAME (by simp [be32, Out, Printer.Byte, Printer.B32, SSH_FXP_NAME])
    (by decide)

@[simp] theorem droppedReply_nil (op : Nat) : ¬ DroppedReply op [] := by
  rintro ⟨w, e, h, _⟩
  cases h

@[simp] theorem droppedReply_two (op : Nat) (a b : List Nat × Option GoError) :
    ¬ DroppedReply op [a, b] := by
  rintro ⟨w, e, h, _⟩
  cases h

theorem droppedReply_one (op : Nat) (w : List Nat) (e : Option GoError) :
    DroppedReply op [(w, e)] ↔
      (StatusWith SSH_FX_PERMISSION_DENIED w ∨ StatusWith SSH_FX_NO_SUCH_FILE w ∨
        (op = SSH_FXP_READDIR ∧ (StatusWith SSH_FX_EOF w ∨ StatusWith SSH_FX_FAILURE w)) ∨
        (op = SSH_FXP_READLINK ∧ ¬ StatusWith SSH_FX_BAD_MESSAGE w) ∨
        (op ≠ SSH_FXP_INIT ∧ op ∉ parsedOps ∧ StatusWith SSH_FX_BAD_MESSAGE w)) := by
  constructor
  · rintro ⟨w1, e1, h, hs⟩
    cases h
    exact hs
  · intro hs
    exact ⟨w, e, rfl, hs⟩

set_option linter.unreachableTactic false in
set_option linter.unusedTactic false in
/-- In every case of the `switch`, entered with `e == nil`: the outcome of the round
whose last write failed. -/
theorem dispatch_outcome (env : Env σ) (s : State σ) (op : Nat) (bs w : List Nat)
    (err : GoError) (he : s.e = none) :
    (roundWrites s (dispatch env s op bs).state).getLast? = some (w, some err) →
      FailedWriteOutcome op (roundWrites s (dispatch env s op bs).state) w err
        (dispatch env s op bs) := by
  refine dispatch_cases (fun st => (roundWrites s st.state).getLast? = some (w, some err) →
      FailedWriteOutcome op (roundWrites s st.state) w err st)
    env s op bs ?_ ?_ ?_ ?_ ?_ ?_ ?_ ?_ ?_ ?_ ?_ ?_ ?_ ?_ ?_ ?_ ?_ ?_ ?_ ?_
  · intro hop
    subst hop
    unfold caseINIT
    try simp only [statusReply, writeAttr, writeNameOnly]
    repeat' split
    all_goals
      intro hl
      simp [roundWrites, writeResponse, writeHandle, wrc] at hl
    all_goals
      obtain ⟨rfl, hw⟩ := hl
    all_goals
      simp [FailedWriteOutcome, droppedReply_one, roundWrites, finish, writeResponse,
        writeHandle, wrc, hw, SSH_FX_PERMISSION_DENIED, SSH_FX_NO_SUCH_FILE, SSH_FX_BAD_MESSAGE, SSH_FX_EOF,
        SSH_FX_FAILURE, SSH_FX_OK, SSH_FX_OP_UNSUPPORTED, parsedOps, SSH_FXP_INIT, SSH_FXP_OPEN,
        SSH_FXP_CLOSE, SSH_FXP_READ, SSH_FXP_WRITE, SSH_FXP_LSTAT, SSH_FXP_STAT, SSH_FXP_FSTAT,
        SSH_FXP_SETSTAT, SSH_FXP_FSETSTAT, SSH_FXP_OPENDIR, SSH_FXP_READDIR, SSH_FXP_REMOVE,
        SSH_FXP_MKDIR, SSH_FXP_RMDIR, SSH_FXP_REALPATH, SSH_FXP_RENAME, SSH_FXP_READLINK,
        SSH_FXP_SYMLINK, SSH_FXP_EXTENDED]
    all_goals
      first
        | exact Option.ne_none_iff_exists'.1 ‹_›
        | exact ⟨_, _, ⟨rfl, rfl⟩, fun _ => rfl⟩
        | skip
  · intro hop
    subst hop
    unfold caseOPEN
    try simp only [statusReply, writeAttr, writeNameOnly]
    repeat' split
    all_goals
      intro hl
      simp [roundWrites, writeResponse, writeHandle, wrc] at hl
    all_goals
      obtain ⟨rfl, hw⟩ := hl
    all_goals
      simp [FailedWriteOutcome, droppedReply_one, roundWrites, finish, writeResponse,
        writeHandle, wrc, hw, SSH_FX_PERMISSION_DENIED, SSH_FX_NO_SUCH_FILE, SSH_FX_BAD_MESSAGE, SSH_FX_EOF,
        SSH_FX_FAILURE, SSH_FX_OK, SSH_FX_OP_UNSUPPORTED, parsedOps, SSH_FXP_INIT, SSH_FXP_OPEN,
        SSH_FXP_CLOSE, SSH_FXP_READ, SSH_FXP_WRITE, SSH_FXP_LSTAT, SSH_FXP_STAT, SSH_FXP_FSTAT,
        SSH_FXP_SETSTAT, SSH_FXP_FSETSTAT, SSH_FXP_OPENDIR, SSH_FXP_READDIR, SSH_FXP_REMOVE,
        SSH_FXP_MKDIR, SSH_FXP_RMDIR, SSH_FXP_REALPATH, SSH_FXP_RENAME, SSH_FXP_READLINK,
        SSH_FXP_SYMLINK, SSH_FXP_EXTENDED]
    all_goals
      first
        | exact Option.ne_none_iff_exists'.1 ‹_›
        | exact ⟨_, _, ⟨rfl, rfl⟩, fun _ => rfl⟩
        | skip
  · intro hop
    subst hop
    unfold caseCLOSE
    try simp only [statusReply, writeAttr, writeNameOnly]
    repeat' split
    all_goals
      intro hl
      simp [roundWrites, writeResponse, writeHandle, wrc] at hl
    all_goals
      obtain ⟨rfl, hw⟩ := hl
    all_goals
      simp [FailedWriteOutcome, droppedReply_one, roundWrites, finish, writeResponse,
        writeHandle, wrc, hw, SSH_FX_PERMISSION_DENIED, SSH_FX_NO_SUCH_FILE, SSH_FX_BAD_MESSAGE, SSH_FX_EOF,
        SSH_FX_FAILURE, SSH_FX_OK, SSH_FX_OP_UNSUPPORTED, parsedOps, SSH_FXP_INIT, SSH_FXP_OPEN,
        SSH_FXP_CLOSE, SSH_FXP_READ, SSH_FXP_WRITE, SSH_FXP_LSTAT, SSH_FXP_STAT, SSH_FXP_FSTAT,
        SSH_FXP_SETSTAT, SSH_FXP_FSETSTAT, SSH_FXP_OPENDIR, SSH_FXP_READDIR, SSH_FXP_REMOVE,
        SSH_FXP_MKDIR, SSH_FXP_RMDIR, SSH_FXP_REALPATH, SSH_FXP_RENAME, SSH_FXP_READLINK,
        SSH_FXP_SYMLINK, SSH_FXP_EXTENDED]
    all_goals
      first
        | exact Option.ne_none_iff_exists'.1 ‹_›
        | exact ⟨_, _, ⟨rfl, rfl⟩, fun _ => rfl⟩
        | skip
  · intro hop
    subst hop
    unfold caseREAD
    try simp only [statusReply, writeAttr, writeNameOnly]
    repeat' split
    all_goals
      intro hl
      simp [roundWrites, writeResponse, writeHandle, wrc] at hl
    all_goals
      obtain ⟨rfl, hw⟩ := hl
    all_goals
      simp [FailedWriteOutcome, droppedReply_one, roundWrites, finish, writeResponse,
        writeHandle, wrc, hw, SSH_FX_PERMISSION_DENIED, SSH_FX_NO_SUCH_FILE, SSH_FX_BAD_MESSAGE, SSH_FX_EOF,
        SSH_FX_FAILURE, SSH_FX_OK, SSH_FX_OP_UNSUPPORTED, parsedOps, SSH_FXP_INIT, SSH_FXP_OPEN,
        SSH_FXP_CLOSE, SSH_FXP_READ, SSH_FXP_WRITE, SSH_FXP_LSTAT, SSH_FXP_STAT, SSH_FXP_FSTAT,
        SSH_FXP_SETSTAT, SSH_FXP_FSETSTAT, SSH_FXP_OPENDIR, SSH_FXP_READDIR, SSH_FXP_REMOVE,
        SSH_FXP_MKDIR, SSH_FXP_RMDIR, SSH_FXP_REALPATH, SSH_FXP_RENAME, SSH_FXP_READLINK,
        SSH_FXP_SYMLINK, SSH_FXP_EXTENDED]
    all_goals
      first
        | exact Option.ne_none_iff_exists'.1 ‹_›
        | exact ⟨_, _, ⟨rfl, rfl⟩, fun _ => rfl⟩
        | skip
  · intro hop
    subst hop
    unfold caseWRITE
    try simp only [statusReply, writeAttr, writeNameOnly]
    repeat' split
    all_goals
      intro hl
      simp [roundWrites, writeResponse, writeHandle, wrc] at hl
    all_goals
      obtain ⟨rfl, hw⟩ := hl
    all_goals
      simp [FailedWriteOutcome, droppedReply_one, roundWrites, finish, writeResponse,
        writeHandle, wrc, hw, SSH_FX_PERMISSION_DENIED, SSH_FX_NO_SUCH_FILE, SSH_FX_BAD_MESSAGE, SSH_FX_EOF,
        SSH_FX_FAILURE, SSH_FX_OK, SSH_FX_OP_UNSUPPORTED, parsedOps, SSH_FXP_INIT, SSH_FXP_OPEN,
        SSH_FXP_CLOSE, SSH_FXP_READ, SSH_FXP_WRITE, SSH_FXP_LSTAT, SSH_FXP_STAT, SSH_FXP_FSTAT,
        SSH_FXP_SETSTAT, SSH_FXP_FSETSTAT, SSH_FXP_OPENDIR, SSH_FXP_READDIR, SSH_FXP_REMOVE,
        SSH_FXP_MKDIR, SSH_FXP_RMDIR, SSH_FXP_REALPATH, SSH_FXP_RENAME, SSH_FXP_READLINK,
        SSH_FXP_SYMLINK, SSH_FXP_EXTENDED]
    all_goals
      first
        | exact Option.ne_none_iff_exists'.1 ‹_›
        | exact ⟨_, _, ⟨rfl, rfl⟩, fun _ => rfl⟩
        | skip
  · intro hop
    rcases hop with hop | hop <;> subst hop
    · unfold caseSTAT
      try simp only [statusReply, writeAttr, writeNameOnly]
      repeat' split
      all_goals
        intro hl
        simp [roundWrites, writeResponse, writeHandle, wrc] at hl
      all_goals
        obtain ⟨rfl, hw⟩ := hl
      all_goals
        simp [FailedWriteOutcome, droppedReply_one, roundWrites, finish, writeResponse,
          writeHandle, wrc, hw, SSH_FX_PERMISSION_DENIED, SSH_FX_NO_SUCH_FILE, SSH_FX_BAD_MESSAGE, SSH_FX_EOF,
          SSH_FX_FAILURE, SSH_FX_OK, SSH_FX_OP_UNSUPPORTED, parsedOps, SSH_FXP_INIT, SSH_FXP_OPEN,
          SSH_FXP_CLOSE, SSH_FXP_READ, SSH_FXP_WRITE, SSH_FXP_LSTAT, SSH_FXP_STAT, SSH_FXP_FSTAT,
          SSH_FXP_SETSTAT, SSH_FXP_FSETSTAT, SSH_FXP_OPENDIR, SSH_FXP_READDIR, SSH_FXP_REMOVE,
          SSH_FXP_MKDIR, SSH_FXP_RMDIR, SSH_FXP_REALPATH, SSH_FXP_RENAME, SSH_FXP_READLINK,
          SSH_FXP_SYMLINK, SSH_FXP_EXTENDED]
      all_goals
        first
          | exact Option.ne_none_iff_exists'.1 ‹_›
          | exact ⟨_, _, ⟨rfl, rfl⟩, fun _ => rfl⟩
          | skip
    · unfold caseSTAT
      try simp only [statusReply, writeAttr, writeNameOnly]
      repeat' split
      all_goals
        intro hl
        simp [roundWrites, writeResponse, writeHandle, wrc] at hl
      all_goals
        obtain ⟨rfl, hw⟩ := hl
      all_goals
        simp [FailedWriteOutcome, droppedReply_one, roundWrites, finish, writeResponse,
          writeHandle, wrc, hw, SSH_FX_PERMISSION_DENIED, SSH_FX_NO_SUCH_FILE, SSH_FX_BAD_MESSAGE, SSH_FX_EOF,
          SSH_FX_FAILURE, SSH_FX_OK, SSH_FX_OP_UNSUPPORTED, parsedOps, SSH_FXP_INIT, SSH_FXP_OPEN,
          SSH_FXP_CLOSE, SSH_FXP_READ, SSH_FXP_WRITE, SSH_FXP_LSTAT, SSH_FXP_STAT, SSH_FXP_FSTAT,
          SSH_FXP_SETSTAT, SSH_FXP_FSETSTAT, SSH_FXP_OPENDIR, SSH_FXP_READDIR, SSH_FXP_REMOVE,
          SSH_FXP_MKDIR, SSH_FXP_RMDIR, SSH_FXP_REALPATH, SSH_FXP_RENAME, SSH_FXP_READLINK,
          SSH_FXP_SYMLINK, SSH_FXP_EXTENDED]
      all_goals
        first
          | exact Option.ne_none_iff_exists'.1 ‹_›
          | exact ⟨_, _, ⟨rfl, rfl⟩, fun _ => rfl⟩
          | skip
  · intro hop
    subst hop
    unfold caseFSTAT
    try simp only [statusReply, writeAttr, writeNameOnly]
    repeat' split
    all_goals
      intro hl
      simp [roundWrites, writeResponse, writeHandle, wrc] at hl
    all_goals
      obtain ⟨rfl, hw⟩ := hl
    all_goals
      simp [FailedWriteOutcome, droppedReply_one, roundWrites, finish, writeResponse,
        writeHandle, wrc, hw, SSH_FX_PERMISSION_DENIED, SSH_FX_NO_SUCH_FILE, SSH_FX_BAD_MESSAGE, SSH_FX_EOF,
        SSH_FX_FAILURE, SSH_FX_OK, SSH_FX_OP_UNSUPPORTED, parsedOps, SSH_FXP_INIT, SSH_FXP_OPEN,
        SSH_FXP_CLOSE, SSH_FXP_READ, SSH_FXP_WRITE, SSH_FXP_LSTAT, SSH_FXP_STAT, SSH_FXP_FSTAT,
        SSH_FXP_SETSTAT, SSH_FXP_FSETSTAT, SSH_FXP_OPENDIR, SSH_FXP_READDIR, SSH_FXP_REMOVE,
        SSH_FXP_MKDIR, SSH_FXP_RMDIR, SSH_FXP_REALPATH, SSH_FXP_RENAME, SSH_FXP_READLINK,
        SSH_FXP_SYMLINK, SSH_FXP_EXTENDED]
    all_goals
      first
        | exact Option.ne_none_iff_exists'.1 ‹_›
        | exact ⟨_, _, ⟨rfl, rfl⟩, fun _ => rfl⟩
        | skip
  · intro hop
    subst hop
    unfold caseSETSTAT
    try simp only [statusReply, writeAttr, writeNameOnly]
    repeat' split
    all_goals
      intro hl
      simp [roundWrites, writeResponse, writeHandle, wrc] at hl
    all_goals
      obtain ⟨rfl, hw⟩ := hl
    all_goals
      simp [FailedWriteOutcome, droppedReply_one, roundWrites, finish, writeResponse,
        writeHandle, wrc, hw, SSH_FX_PERMISSION_DENIED, SSH_FX_NO_SUCH_FILE, SSH_FX_BAD_MESSAGE, SSH_FX_EOF,
        SSH_FX_FAILURE, SSH_FX_OK, SSH_FX_OP_UNSUPPORTED, parsedOps, SSH_FXP_INIT, SSH_FXP_OPEN,
        SSH_FXP_CLOSE, SSH_FXP_READ, SSH_FXP_WRITE, SSH_FXP_LSTAT, SSH_FXP_STAT, SSH_FXP_FSTAT,
        SSH_FXP_SETSTAT, SSH_FXP_FSETSTAT, SSH_FXP_OPENDIR, SSH_FXP_READDIR, SSH_FXP_REMOVE,
        SSH_FXP_MKDIR, SSH_FXP_RMDIR, SSH_FXP_REALPATH, SSH_FXP_RENAME, SSH_FXP_READLINK,
        SSH_FXP_SYMLINK, SSH_FXP_EXTENDED]
    all_goals
      first
        | exact Option.ne_none_iff_exists'.1 ‹_›
        | exact ⟨_, _, ⟨rfl, rfl⟩, fun _ => rfl⟩
        | skip
  · intro hop
    subst hop
    unfold caseFSETSTAT
    try simp only [statusReply, writeAttr, writeNameOnly]
    repeat' split
    all_goals
      intro hl
      simp [roundWrites, writeResponse, writeHandle, wrc] at hl
    all_goals
      obtain ⟨rfl, hw⟩ := hl
    all_goals
      simp [FailedWriteOutcome, droppedReply_one, roundWrites, finish, writeResponse,
        writeHandle, wrc, hw, SSH_FX_PERMISSION_DENIED, SSH_FX_NO_SUCH_FILE, SSH_FX_BAD_MESSAGE, SSH_FX_EOF,
        SSH_FX_FAILURE, SSH_FX_OK, SSH_FX_OP_UNSUPPORTED, parsedOps, SSH_FXP_INIT, SSH_FXP_OPEN,
        SSH_FXP_CLOSE, SSH_FXP_READ, SSH_FXP_WRITE, SSH_FXP_LSTAT, SSH_FXP_STAT, SSH_FXP_FSTAT,
        SSH_FXP_SETSTAT, SSH_FXP_FSETSTAT, SSH_FXP_OPENDIR, SSH_FXP_READDIR, SSH_FXP_REMOVE,
        SSH_FXP_MKDIR, SSH_FXP_RMDIR, SSH_FXP_REALPATH, SSH_FXP_RENAME, SSH_FXP_READLINK,
        SSH_FXP_SYMLINK, SSH_FXP_EXTENDED]
    all_goals
      first
        | exact Option.ne_none_iff_exists'.1 ‹_›
        | exact ⟨_, _, ⟨rfl, rfl⟩, fun _ => rfl⟩
        | skip
  · intro hop
    subst hop
    unfold caseOPENDIR
    try simp only [statusReply, writeAttr, writeNameOnly]
    repeat' split
    all_goals
      intro hl
      simp [roundWrites, writeResponse, writeHandle, wrc] at hl
    all_goals
      obtain ⟨rfl, hw⟩ := hl
    all_goals
      simp [FailedWriteOutcome, droppedReply_one, roundWrites, finish, writeResponse,
        writeHandle, wrc, hw, SSH_FX_PERMISSION_DENIED, SSH_FX_NO_SUCH_FILE, SSH_FX_BAD_MESSAGE, SSH_FX_EOF,
        SSH_FX_FAILURE, SSH_FX_OK, SSH_FX_OP_UNSUPPORTED, parsedOps, SSH_FXP_INIT, SSH_FXP_OPEN,
        SSH_FXP_CLOSE, SSH_FXP_READ, SSH_FXP_WRITE, SSH_FXP_LSTAT, SSH_FXP_STAT, SSH_FXP_FSTAT,
        SSH_FXP_SETSTAT, SSH_FXP_FSETSTAT, SSH_FXP_OPENDIR, SSH_FXP_READDIR, SSH_FXP_REMOVE,
        SSH_FXP_MKDIR, SSH_FXP_RMDIR, SSH_FXP_REALPATH, SSH_FXP_RENAME, SSH_FXP_READLINK,
        SSH_FXP_SYMLINK, SSH_FXP_EXTENDED]
    all_goals
      first
        | exact Option.ne_none_iff_exists'.1 ‹_›
        | exact ⟨_, _, ⟨rfl, rfl⟩, fun _ => rfl⟩
        | skip
  · intro hop
    subst hop
    unfold caseREADDIR
    try simp only [statusReply, writeAttr, writeNameOnly]
    repeat' split
    all_goals
      intro hl
      simp [roundWrites, writeResponse, writeHandle, wrc] at hl
    all_goals
      obtain ⟨rfl, hw⟩ := hl
    all_goals
      try have hn := fun c => not_statusWith_names env c _ _ _ _ ‹nameEntries _ _ _ = some _›
    all_goals
      simp [FailedWriteOutcome, droppedReply_one, roundWrites, finish, writeResponse,
        writeHandle, wrc, hw, *, SSH_FX_PERMISSION_DENIED, SSH_FX_NO_SUCH_FILE, SSH_FX_BAD_MESSAGE, SSH_FX_EOF,
        SSH_FX_FAILURE, SSH_FX_OK, SSH_FX_OP_UNSUPPORTED, parsedOps, SSH_FXP_INIT, SSH_FXP_OPEN,
        SSH_FXP_CLOSE, SSH_FXP_READ, SSH_FXP_WRITE, SSH_FXP_LSTAT, SSH_FXP_STAT, SSH_FXP_FSTAT,
        SSH_FXP_SETSTAT, SSH_FXP_FSETSTAT, SSH_FXP_OPENDIR, SSH_FXP_READDIR, SSH_FXP_REMOVE,
        SSH_FXP_MKDIR, SSH_FXP_RMDIR, SSH_FXP_REALPATH, SSH_FXP_RENAME, SSH_FXP_READLINK,
        SSH_FXP_SYMLINK, SSH_FXP_EXTENDED]
    all_goals
      first
        | exact Option.ne_none_iff_exists'.1 ‹_›
        | exact ⟨_, _, ⟨rfl, rfl⟩, fun _ => rfl⟩
        | skip
  · intro hop
    subst hop
    unfold caseREMOVE
    try simp only [statusReply, writeAttr, writeNameOnly]
    repeat' split
    all_goals
      intro hl
      simp [roundWrites, writeResponse, writeHandle, wrc] at hl
    all_goals
      obtain ⟨rfl, hw⟩ := hl
    all_goals
      simp [FailedWriteOutcome, droppedReply_one, roundWrites, finish, writeResponse,
        writeHandle, wrc, hw, SSH_FX_PERMISSION_DENIED, SSH_FX_NO_SUCH_FILE, SSH_FX_BAD_MESSAGE, SSH_FX_EOF,
        SSH_FX_FAILURE, SSH_FX_OK, SSH_FX_OP_UNSUPPORTED, parsedOps, SSH_FXP_INIT, SSH_FXP_OPEN,
        SSH_FXP_CLOSE, SSH_FXP_READ, SSH_FXP_WRITE, SSH_FXP_LSTAT, SSH_FXP_STAT, SSH_FXP_FSTAT,
        SSH_FXP_SETSTAT, SSH_FXP_FSETSTAT, SSH_FXP_OPENDIR, SSH_FXP_READDIR, SSH_FXP_REMOVE,
        SSH_FXP_MKDIR, SSH_FXP_RMDIR, SSH_FXP_REALPATH, SSH_FXP_RENAME, SSH_FXP_READLINK,
        SSH_FXP_SYMLINK, SSH_FXP_EXTENDED]
    all_goals
      first
        | exact Option.ne_none_iff_exists'.1 ‹_›
        | exact ⟨_, _, ⟨rfl, rfl⟩, fun _ => rfl⟩
        | skip
  · intro hop
    subst hop
    unfold caseMKDIR
    try simp only [statusReply, writeAttr, writeNameOnly]
    repeat' split
    all_goals
      intro hl
      simp [roundWrites, writeResponse, writeHandle, wrc] at hl
    all_goals
      obtain ⟨rfl, hw⟩ := hl
    all_goals
      simp [FailedWriteOutcome, droppedReply_one, roundWrites, finish, writeResponse,
        writeHandle, wrc, hw, SSH_FX_PERMISSION_DENIED, SSH_FX_NO_SUCH_FILE, SSH_FX_BAD_MESSAGE, SSH_FX_EOF,
        SSH_FX_FAILURE, SSH_FX_OK, SSH_FX_OP_UNSUPPORTED, parsedOps, SSH_FXP_INIT, SSH_FXP_OPEN,
        SSH_FXP_CLOSE, SSH_FXP_READ, SSH_FXP_WRITE, SSH_FXP_LSTAT, SSH_FXP_STAT, SSH_FXP_FSTAT,
        SSH_FXP_SETSTAT, SSH_FXP_FSETSTAT, SSH_FXP_OPENDIR, SSH_FXP_READDIR, SSH_FXP_REMOVE,
        SSH_FXP_MKDIR, SSH_FXP_RMDIR, SSH_FXP_REALPATH, SSH_FXP_RENAME, SSH_FXP_READLINK,
        SSH_FXP_SYMLINK, SSH_FXP_EXTENDED]
    all_goals
      first
        | exact Option.ne_none_iff_exists'.1 ‹_›
        | exact ⟨_, _, ⟨rfl, rfl⟩, fun _ => rfl⟩
        | skip
  · intro hop
    subst hop
    unfold caseRMDIR
    try simp only [statusReply, writeAttr, writeNameOnly]
    repeat' split
    all_goals
      intro hl
      simp [roundWrites, writeResponse, writeHandle, wrc] at hl
    all_goals
      obtain ⟨rfl, hw⟩ := hl
    all_goals
      simp [FailedWriteOutcome, droppedReply_one, roundWrites, finish, writeResponse,
        writeHandle, wrc, hw, SSH_FX_PERMISSION_DENIED, SSH_FX_NO_SUCH_FILE, SSH_FX_BAD_MESSAGE, SSH_FX_EOF,
        SSH_FX_FAILURE, SSH_FX_OK, SSH_FX_OP_UNSUPPORTED, parsedOps, SSH_FXP_INIT, SSH_FXP_OPEN,
        SSH_FXP_CLOSE, SSH_FXP_READ, SSH_FXP_WRITE, SSH_FXP_LSTAT, SSH_FXP_STAT, SSH_FXP_FSTAT,
        SSH_FXP_SETSTAT, SSH_FXP_FSETSTAT, SSH_FXP_OPENDIR, SSH_FXP_READDIR, SSH_FXP_REMOVE,
        SSH_FXP_MKDIR, SSH_FXP_RMDIR, SSH_FXP_REALPATH, SSH_FXP_RENAME, SSH_FXP_READLINK,
        SSH_FXP_SYMLINK, SSH_FXP_EXTENDED]
    all_goals
      first
        | exact Option.ne_none_iff_exists'.1 ‹_›
        | exact ⟨_, _, ⟨rfl, rfl⟩, fun _ => rfl⟩
        | skip
  · intro hop
    subst hop
    unfold caseREALPATH
    try simp only [statusReply, writeAttr, writeNameOnly]
    repeat' split
    all_goals
      intro hl
      simp [roundWrites, writeResponse, writeHandle, wrc] at hl
    all_goals
      obtain ⟨rfl, hw⟩ := hl
    all_goals
      simp [FailedWriteOutcome, droppedReply_one, roundWrites, finish, writeResponse,
        writeHandle, wrc, hw, SSH_FX_PERMISSION_DENIED, SSH_FX_NO_SUCH_FILE, SSH_FX_BAD_MESSAGE, SSH_FX_EOF,
        SSH_FX_FAILURE, SSH_FX_OK, SSH_FX_OP_UNSUPPORTED, parsedOps, SSH_FXP_INIT, SSH_FXP_OPEN,
        SSH_FXP_CLOSE, SSH_FXP_READ, SSH_FXP_WRITE, SSH_FXP_LSTAT, SSH_FXP_STAT, SSH_FXP_FSTAT,
        SSH_FXP_SETSTAT, SSH_FXP_FSETSTAT, SSH_FXP_OPENDIR, SSH_FXP_READDIR, SSH_FXP_REMOVE,
        SSH_FXP_MKDIR, SSH_FXP_RMDIR, SSH_FXP_REALPATH, SSH_FXP_RENAME, SSH_FXP_READLINK,
        SSH_FXP_SYMLINK, SSH_FXP_EXTENDED]
    all_goals
      first
        | exact Option.ne_none_iff_exists'.1 ‹_›
        | exact ⟨_, _, ⟨rfl, rfl⟩, fun _ => rfl⟩
        | skip
  · intro hop
    subst hop
    unfold caseRENAME
    try simp only [statusReply, writeAttr, writeNameOnly]
    repeat' split
    all_goals
      intro hl
      simp [roundWrites, writeResponse, writeHandle, wrc] at hl
    all_goals
      obtain ⟨rfl, hw⟩ := hl
    all_goals
      simp [FailedWriteOutcome, droppedReply_one, roundWrites, finish, writeResponse,
        writeHandle, wrc, hw, SSH_FX_PERMISSION_DENIED, SSH_FX_NO_SUCH_FILE, SSH_FX_BAD_MESSAGE, SSH_FX_EOF,
        SSH_FX_FAILURE, SSH_FX_OK, SSH_FX_OP_UNSUPPORTED, parsedOps, SSH_FXP_INIT, SSH_FXP_OPEN,
        SSH_FXP_CLOSE, SSH_FXP_READ, SSH_FXP_WRITE, SSH_FXP_LSTAT, SSH_FXP_STAT, SSH_FXP_FSTAT,
        SSH_FXP_SETSTAT, SSH_FXP_FSETSTAT, SSH_FXP_OPENDIR, SSH_FXP_READDIR, SSH_FXP_REMOVE,
        SSH_FXP_MKDIR, SSH_FXP_RMDIR, SSH_FXP_REALPATH, SSH_FXP_RENAME, SSH_FXP_READLINK,
        SSH_FXP_SYMLINK, SSH_FXP_EXTENDED]
    all_goals
      first
        | exact Option.ne_none_iff_exists'.1 ‹_›
        | exact ⟨_, _, ⟨rfl, rfl⟩, fun _ => rfl⟩
        | skip
  · intro hop
    subst hop
    unfold caseREADLINK
    try simp only [statusReply, writeAttr, writeNameOnly]
    repeat' split
    all_goals
      intro hl
      simp [roundWrites, writeResponse, writeHandle, wrc] at hl
    all_goals
      obtain ⟨rfl, hw⟩ := hl
    all_goals
      try have hE := not_not.1 ‹¬ Parser.End _ ≠ none›
    all_goals
      simp [FailedWriteOutcome, droppedReply_one, roundWrites, finish, writeResponse,
        writeHandle, wrc, hw, *, SSH_FX_PERMISSION_DENIED, SSH_FX_NO_SUCH_FILE, SSH_FX_BAD_MESSAGE, SSH_FX_EOF,
        SSH_FX_FAILURE, SSH_FX_OK, SSH_FX_OP_UNSUPPORTED, parsedOps, SSH_FXP_INIT, SSH_FXP_OPEN,
        SSH_FXP_CLOSE, SSH_FXP_READ, SSH_FXP_WRITE, SSH_FXP_LSTAT, SSH_FXP_STAT, SSH_FXP_FSTAT,
        SSH_FXP_SETSTAT, SSH_FXP_FSETSTAT, SSH_FXP_OPENDIR, SSH_FXP_READDIR, SSH_FXP_REMOVE,
        SSH_FXP_MKDIR, SSH_FXP_RMDIR, SSH_FXP_REALPATH, SSH_FXP_RENAME, SSH_FXP_READLINK,
        SSH_FXP_SYMLINK, SSH_FXP_EXTENDED]
    all_goals
      first
        | exact Option.ne_none_iff_exists'.1 ‹_›
        | exact ⟨_, _, ⟨rfl, rfl⟩, fun _ => rfl⟩
        | skip
  · intro hop
    subst hop
    unfold caseSYMLINK
    try simp only [statusReply, writeAttr, writeNameOnly]
    repeat' split
    all_goals
      intro hl
      simp [roundWrites, writeResponse, writeHandle, wrc] at hl
    all_goals
      obtain ⟨rfl, hw⟩ := hl
    all_goals
      simp [FailedWriteOutcome, droppedReply_one, roundWrites, finish, writeResponse,
        writeHandle, wrc, hw, SSH_FX_PERMISSION_DENIED, SSH_FX_NO_SUCH_FILE, SSH_FX_BAD_MESSAGE, SSH_FX_EOF,
        SSH_FX_FAILURE, SSH_FX_OK, SSH_FX_OP_UNSUPPORTED, parsedOps, SSH_FXP_INIT, SSH_FXP_OPEN,
        SSH_FXP_CLOSE, SSH_FXP_READ, SSH_FXP_WRITE, SSH_FXP_LSTAT, SSH_FXP_STAT, SSH_FXP_FSTAT,
        SSH_FXP_SETSTAT, SSH_FXP_FSETSTAT, SSH_FXP_OPENDIR, SSH_FXP_READDIR, SSH_FXP_REMOVE,
        SSH_FXP_MKDIR, SSH_FXP_RMDIR, SSH_FXP_REALPATH, SSH_FXP_RENAME, SSH_FXP_READLINK,
        SSH_FXP_SYMLINK, SSH_FXP_EXTENDED]
    all_goals
      first
        | exact Option.ne_none_iff_exists'.1 ‹_›
        | exact ⟨_, _, ⟨rfl, rfl⟩, fun _ => rfl⟩
        | skip
  · intro hop
    subst hop
    unfold caseEXTENDED
    try simp only [statusReply, writeAttr, writeNameOnly]
    repeat' split
    all_goals
      intro hl
      simp [roundWrites, writeResponse, writeHandle, wrc] at hl
    all_goals
      obtain ⟨rfl, hw⟩ := hl
    all_goals
      simp [FailedWriteOutcome, droppedReply_one, roundWrites, finish, writeResponse,
        writeHandle, wrc, hw, SSH_FX_PERMISSION_DENIED, SSH_FX_NO_SUCH_FILE, SSH_FX_BAD_MESSAGE, SSH_FX_EOF,
        SSH_FX_FAILURE, SSH_FX_OK, SSH_FX_OP_UNSUPPORTED, parsedOps, SSH_FXP_INIT, SSH_FXP_OPEN,
        SSH_FXP_CLOSE, SSH_FXP_READ, SSH_FXP_WRITE, SSH_FXP_LSTAT, SSH_FXP_STAT, SSH_FXP_FSTAT,
        SSH_FXP_SETSTAT, SSH_FXP_FSETSTAT, SSH_FXP_OPENDIR, SSH_FXP_READDIR, SSH_FXP_REMOVE,
        SSH_FXP_MKDIR, SSH_FXP_RMDIR, SSH_FXP_REALPATH, SSH_FXP_RENAME, SSH_FXP_READLINK,
        SSH_FXP_SYMLINK, SSH_FXP_EXTENDED]
    all_goals
      first
        | exact Option.ne_none_iff_exists'.1 ‹_›
        | exact ⟨_, _, ⟨rfl, rfl⟩, fun _ => rfl⟩
        | skip
  · intro h1 h2
    unfold caseDefault
    try simp only [statusReply, writeAttr, writeNameOnly]
    repeat' split
    all_goals
      intro hl
      simp [roundWrites, writeResponse, writeHandle, wrc] at hl
    all_goals
      obtain ⟨rfl, hw⟩ := hl
    all_goals
      simp [FailedWriteOutcome, droppedReply_one, roundWrites, finish, writeResponse,
        writeHandle, wrc, hw, he, h1, h2, SSH_FX_PERMISSION_DENIED, SSH_FX_NO_SUCH_FILE, SSH_FX_BAD_MESSAGE, SSH_FX_EOF,
        SSH_FX_FAILURE, SSH_FX_OK, SSH_FX_OP_UNSUPPORTED]
    all_goals
      first
        | exact Option.ne_none_iff_exists'.1 ‹_›
        | exact ⟨_, _, ⟨rfl, rfl⟩, fun _ => rfl⟩
        | skip

/-- The `switch` only adds to the writes. -/
theorem dispatch_extends (env : Env σ) (s : State σ) (op : Nat) (bs : List Nat) :
    ∃ ws, (dispatch env s op bs).state.c.writes = s.c.writes ++ ws := by
  refine dispatch_cases (fun st => ∃ ws, st.state.c.writes = s.c.writes ++ ws)
    env s op bs ?_ ?_ ?_ ?_ ?_ ?_ ?_ ?_ ?_ ?_ ?_ ?_ ?_ ?_ ?_ ?_ ?_ ?_ ?_ ?_
  · intro _
    unfold caseINIT
    simp [writeResponse, wrc]
  · intro _
    unfold caseOPEN
    simp only [statusReply, writeAttr, writeNameOnly]
    repeat' split
    all_goals simp [writeResponse, writeHandle, wrc]
  · intro _
    unfold caseCLOSE
    simp only [statusReply, writeAttr, writeNameOnly]
    repeat' split
    all_goals simp [writeResponse, writeHandle, wrc]
  · intro _
    unfold caseREAD
    simp only [statusReply, writeAttr, writeNameOnly]
    repeat' split
    all_goals simp [writeResponse, writeHandle, wrc]
  · intro _
    unfold caseWRITE
    simp only [statusReply, writeAttr, writeNameOnly]
    repeat' split
    all_goals simp [writeResponse, writeHandle, wrc]
  · intro _
    unfold caseSTAT
    simp only [statusReply, writeAttr, writeNameOnly]
    repeat' split
    all_goals simp [writeResponse, writeHandle, wrc]
  · intro _
    unfold caseFSTAT
    simp only [statusReply, writeAttr, writeNameOnly]
    repeat' split
    all_goals simp [writeResponse, writeHandle, wrc]
  · intro _
    unfold caseSETSTAT
    simp only [statusReply, writeAttr, writeNameOnly]
    repeat' split
    all_goals simp [writeResponse, writeHandle, wrc]
  · intro _
    unfold caseFSETSTAT
    simp only [statusReply, writeAttr, writeNameOnly]
    repeat' split
    all_goals simp [writeResponse, writeHandle, wrc]
  · intro _
    unfold caseOPENDIR
    simp only [statusReply, writeAttr, writeNameOnly]
    repeat' split
    all_goals simp [writeResponse, writeHandle, wrc]
  · intro _
    unfold caseREADDIR
    simp only [statusReply, writeAttr, writeNameOnly]
    repeat' split
    all_goals simp [writeResponse, writeHandle, wrc]
  · intro _
    unfold caseREMOVE
    simp only [statusReply, writeAttr, writeNameOnly]
    repeat' split
    all_goals simp [writeResponse, writeHandle, wrc]
  · intro _
    unfold caseMKDIR
    simp only [statusReply, writeAttr, writeNameOnly]
    repeat' split
    all_goals simp [writeResponse, writeHandle, wrc]
  · intro _
    unfold caseRMDIR
    simp only [statusReply, writeAttr, writeNameOnly]
    repeat' split
    all_goals simp [writeResponse, writeHandle, wrc]
  · intro _
    unfold caseREALPATH
    simp only [statusReply, writeAttr, writeNameOnly]
    repeat' split
    all_goals simp [writeResponse, writeHandle, wrc]
  · intro _
    unfold caseRENAME
    simp only [statusReply, writeAttr, writeNameOnly]
    repeat' split
    all_goals simp [writeResponse, writeHandle, wrc]
  · intro _
    unfold caseREADLINK
    simp only [statusReply, writeAttr, writeNameOnly]
    repeat' split
    all_goals simp [writeResponse, writeHandle, wrc]
  · intro _
    unfold caseSYMLINK
    simp [writeResponse, wrc]
  · intro _
    unfold caseEXTENDED
    simp only [statusReply, writeAttr, writeNameOnly]
    repeat' split
    all_goals simp [writeResponse, writeHandle, wrc]
  · intro _ _
    unfold caseDefault
    simp [writeResponse, wrc]

/-- The body of a round only adds to the writes. -/
theorem loopBody_extends (env : Env σ) (s : State σ) :
    ∃ ws, (loopBody env s).state.c.writes = s.c.writes ++ ws := by
  unfold loopBody
  simp only []
  split
  · exact ⟨[], by simp⟩
  · split
    · exact ⟨[], by simp⟩
    · split
      · exact ⟨[], by simp⟩
      · exact dispatch_extends env _ _ _

theorem dispatch_outcome_at (env : Env σ) (s s0 : State σ) (op : Nat) (bs w : List Nat)
    (err : GoError) (h0 : s.c.writes = s0.c.writes) (he : s.e = none) :
    (roundWrites s0 (dispatch env s op bs).state).getLast? = some (w, some err) →
      FailedWriteOutcome op (roundWrites s0 (dispatch env s op bs).state) w err
        (dispatch env s op bs) := by
  have e : roundWrites s0 (dispatch env s op bs).state
      = roundWrites s (dispatch env s op bs).state := by
    simp [roundWrites, h0]
  rw [e]
  exact dispatch_outcome env s op bs w err he

/-- The body of a round: the outcome when its last write failed. -/
theorem loopBody_outcome (env : Env σ) (s : State σ) (w : List Nat) (err : GoError) :
    (roundWrites s (loopBody env s).state).getLast? = some (w, some err) →
      FailedWriteOutcome (requestOp s) (roundWrites s (loopBody env s).state) w err
        (loopBody env s) := by
  unfold loopBody requestOp
  simp only []
  split
  · intro hl; simp [roundWrites] at hl
  · rename_i hnone
    split
    · intro hl; simp [roundWrites] at hl
    · split
      · intro hl; simp [roundWrites] at hl
      · intro hl
        refine dispatch_outcome_at env _ s _ _ w err ?_ ?_ hl
        · rfl
        · exact hnone

theorem outcome_iff (op : Nat) (ws : List (List Nat × Option GoError)) (w : List Nat)
    (err : GoError) (r : Step σ) (h : FailedWriteOutcome op ws w err r) :
    ((∃ t e, r = .ret t (some e)) ↔ ¬ DroppedReply op ws) ∧
    (¬ DroppedReply op ws → ¬ StatusWith SSH_FX_BAD_MESSAGE w → ∃ t, r = .ret t (some err)) ∧
    (DroppedReply op ws → (∃ t, r = .next t) ∨ ∃ t, r = .ret t none) := by
  rcases h with ⟨hd, hr⟩ | ⟨hd, t, e, hr, he⟩
  · refine ⟨⟨?_, fun h => absurd hd h⟩, fun h => absurd hd h, fun _ => hr⟩
    rintro ⟨t, e, h⟩
    rcases hr with ⟨t1, h1⟩ | ⟨t1, h1⟩
    · rw [h1] at h; cases h
    · rw [h1] at h; cases h
  · refine ⟨⟨fun _ => hd, fun _ => ⟨t, e, hr⟩⟩, ?_, fun h => absurd h hd⟩
    intro _ hb
    exact ⟨t, by rw [hr, he hb]⟩

/-- The loop head writes nothing, or the EOF reply, which then succeeded. -/
theorem loopHead_next_writes (env : Env σ) (s s1 : State σ) (h : loopHead env s = .next s1) :
    s1.c.writes = s.c.writes ∨
      s1.c.writes = s.c.writes ++ [(statusPacket s.id SSH_FX_EOF, none)] := by
  unfold loopHead at h
  split at h
  · simp only [] at h
    split at h
    · cases h
    · rename_i hnone
      cases h
      right
      simp only [writeResponse, wrc] at hnone ⊢
      rw [hnone]
  · cases h; left; rfl

/-- C7, counterexample. With the stub backend and a channel whose first write fails, the
NO_SUCH_FILE reply to an OPEN request is not delivered, yet the session goes on: it
serves the INIT packet that follows (its reply is the second write) and returns `io.EOF`
at the end of the input, not the error of the failed write. Likewise the FAILURE reply
to a REMOVE request is not delivered, the OK reply that follows it is, and the session
goes on to the INIT packet. -/
theorem failed_status_write_is_ignored :
    (ServeChannel (emptyEnv firstWriteFails) 3 openThenInit ()).map
      (fun r => (r.returned, r.state.c.writes))
    = some (some (some GoError.EOF),
        [(statusPacket 9 SSH_FX_NO_SUCH_FILE, some errWrite), (initReply, none)]) ∧
    (ServeChannel (emptyEnv firstWriteFails) 3 removeThenInit ()).map
      (fun r => (r.returned, r.state.c.writes))
    = some (some (some GoError.EOF),
        [(statusPacket 7 SSH_FX_FAILURE, some errWrite), (statusPacket 7 SSH_FX_OK, none),
          (initReply, none)]) := by
  constructor
  · decide
  · decide

/-- C7, amended. In every round of the loop whose last write fails, `ServeChannel`
returns a non-nil error, and so reads no further request, exactly when the round is not
a dropped one (`DroppedRound`): a round that passes the head of the loop and whose body
writes a single reply at a place where the code drops the outcome of the write, namely
STATUS PERMISSION_DENIED, STATUS NO_SUCH_FILE, the STATUS EOF or STATUS FAILURE of a
READDIR request, the reply of a READLINK request that parsed, or the STATUS BAD_MESSAGE
for an unknown packet type. When the round is not a dropped one and the reply is not a
STATUS BAD_MESSAGE, the error returned is the error of the write (after a BAD_MESSAGE
reply to a request that does not parse, the code returns the error of the parse). When
the round is a dropped one, the loop continues or `ServeChannel` returns `nil`. -/
theorem failed_write_ends_session (env : Env σ) (s : State σ) (w : List Nat) (err : GoError)
    (hlast : (roundWrites s (iter env s).state).getLast? = some (w, some err)) :
    ((∃ t e, iter env s = .ret t (some e)) ↔ ¬ DroppedRound env s) ∧
    (¬ DroppedRound env s → ¬ StatusWith SSH_FX_BAD_MESSAGE w →
      ∃ t, iter env s = .ret t (some err)) ∧
    (DroppedRound env s → (∃ t, iter env s = .next t) ∨ ∃ t, iter env s = .ret t none) := by
  unfold iter at hlast ⊢
  unfold DroppedRound
  cases hh : loopHead env s with
  | next s1 =>
    rw [hh] at hlast
    simp only [] at hlast ⊢
    obtain ⟨ws, hws⟩ := loopBody_extends env s1
    have hrw1 : roundWrites s1 (loopBody env s1).state = ws := by
      simp [roundWrites, hws]
    have hbody : (roundWrites s1 (loopBody env s1).state).getLast? = some (w, some err) := by
      rw [hrw1]
      rcases loopHead_next_writes env s s1 hh with h0 | h0
      · have hrw : roundWrites s (loopBody env s1).state = ws := by
          simp [roundWrites, hws, h0]
        rw [hrw] at hlast
        exact hlast
      · have hrw : roundWrites s (loopBody env s1).state
            = (statusPacket s.id SSH_FX_EOF, none) :: ws := by
          simp [roundWrites, hws, h0]
        rw [hrw] at hlast
        cases ws with
        | nil => simp at hlast
        | cons x xs =>
          rw [List.getLast?_cons_cons] at hlast
          exact hlast
    obtain ⟨o1, o2, o3⟩ := outcome_iff _ _ w err _ (loopBody_outcome env s1 w err hbody)
    have hex : (∃ s2, Step.next s1 = Step.next s2 ∧
        DroppedReply (requestOp s2) (roundWrites s2 (loopBody env s2).state)) ↔
        DroppedReply (requestOp s1) (roundWrites s1 (loopBody env s1).state) := by
      constructor
      · rintro ⟨s2, h2, hd⟩
        cases h2
        exact hd
      · intro hd
        exact ⟨s1, rfl, hd⟩
    rw [hex]
    exact ⟨o1, o2, o3⟩
  | ret s1 e =>
    rw [hh] at hlast
    simp only [state_ret] at hlast ⊢
    have hno : ¬ ∃ s2, Step.ret s1 e = Step.next s2 ∧
        DroppedReply (requestOp s2) (roundWrites s2 (loopBody env s2).state) := by
      rintro ⟨s2, h2, _⟩
      cases h2
    unfold loopHead at hh
    split at hh
    · simp only [] at hh
      split at hh
      · rename_i e1 he1
        cases hh
        simp [roundWrites, writeResponse, wrc] at hlast he1
        obtain ⟨_, hw⟩ := hlast
        rw [hw] at he1
        cases he1
        exact ⟨⟨fun _ => hno, fun _ => ⟨_, _, rfl⟩⟩, fun _ _ => ⟨_, rfl⟩, fun h => absurd h hno⟩
      · cases hh
    · cases hh
  | panic s1 =>
    exfalso
    unfold loopHead at hh
    split at hh
    · simp only [] at hh; split at hh <;> cases hh
    · cases hh

/-- The reply to an INIT packet on a channel whose first write fails: the round is not a
dropped one and `ServeChannel` returns the error of the write. -/
theorem failed_write_ends_session_witness :
    (roundWrites (initState [0, 0, 0, 5, 1, 0, 0, 0, 3] ())
        (iter (emptyEnv firstWriteFails) (initState [0, 0, 0, 5, 1, 0, 0, 0, 3] ())).state).getLast?
        = some (initReply, some errWrite) ∧
      ¬ DroppedRound (emptyEnv firstWriteFails) (initState [0, 0, 0, 5, 1, 0, 0, 0, 3] ()) ∧
      ∃ t, iter (emptyEnv firstWriteFails) (initState [0, 0, 0, 5, 1, 0, 0, 0, 3] ())
        = .ret t (some errWrite) :=
  ⟨by decide,
    (failed_write_ends_session (emptyEnv firstWriteFails)
      (initState [0, 0, 0, 5, 1, 0, 0, 0, 3] ()) initReply errWrite (by decide)).1.1
        ⟨_, _, rfl⟩,
    (failed_write_ends_session (emptyEnv firstWriteFails)
      (initState [0, 0, 0, 5, 1, 0, 0, 0, 3] ()) initReply errWrite (by decide)).2.1
        ((failed_write_ends_session (emptyEnv firstWriteFails)
          (initState [0, 0, 0, 5, 1, 0, 0, 0, 3] ()) initReply errWrite (by decide)).1.1
            ⟨_, _, rfl⟩)
        (by simp)⟩

end Sftpd

namespace Sftpd

/-! ## Attributes on the wire -/

theorem attrBytes_eq (a : Attr) : attrBytes a = attrFields a := by
  simp [attrBytes, attrPacket_eq, Printer.withLen, be32]

theorem B32_be32 (n : Nat) (rest : List Nat) (d : Nat) (h : n < 2 ^ 32) :
    Parser.B32 { rest := be32 n ++ rest, ok := true } d = ({ rest := rest, ok := true }, n) := by
  simp only [Parser.B32, be32, List.cons_append, List.nil_append, if_true, Prod.mk.injEq,
    true_and]
  omega

theorem B64_be64 (n : Nat) (rest : List Nat) (d : Nat) (h : n < 2 ^ 64) :
    Parser.B64 { rest := be64 n ++ rest, ok := true } d = ({ rest := rest, ok := true }, n) := by
  have e1 := B32_be32 (n / 2 ^ 32) (be32 (n % 2 ^ 32) ++ rest) 0 (by omega)
  have e2 := B32_be32 (n % 2 ^ 32) rest 0 (by omega)
  have e3 : be32 n = be32 (n % 2 ^ 32) := by
    simp only [be32, List.cons.injEq, and_true]
    omega
  have h8 : 8 ≤ (be32 (n / 2 ^ 32) ++ (be32 (n % 2 ^ 32) ++ rest)).length := by simp [be32]
  unfold Parser.B64
  simp only [be64, List.append_assoc]
  rw [e3, if_pos ⟨trivial, h8⟩]
  simp only [e1, e2, Prod.mk.injEq, true_and]
  omega

theorem B32String_str (x rest d : List Nat) (h : x.length < 2 ^ 32) :
    Parser.B32String { rest := be32 x.length ++ (x ++ rest), ok := true } d
      = ({ rest := rest, ok := true }, x) := by
  simp [Parser.B32String, B32_be32 _ _ _ h]

theorem parseExtended_extBytes (n : Nat) (ss : List (List Nat)) (rest : List Nat)
    (hlen : ss.length = 2 * n) (hs : ∀ x ∈ ss, x.length < 2 ^ 32) :
    parseExtended { rest := extBytes ss ++ rest, ok := true } n
      = ({ rest := rest, ok := true }, ss) := by
  induction n generalizing ss with
  | zero =>
    have : ss = [] := List.length_eq_zero.mp (by omega)
    subst this
    simp [parseExtended, extBytes]
  | succ m ih =>
    match ss, hlen, hs with
    | k :: v :: tl, hlen, hs =>
      have hk : k.length < 2 ^ 32 := hs k (by simp)
      have hv : v.length < 2 ^ 32 := hs v (by simp)
      have htl : tl.length = 2 * m := by simp at hlen; omega
      have ih' := ih tl htl (fun x hx => hs x (by simp [hx]))
      simp only [parseExtended, extBytes, List.append_assoc, B32String_str _ _ _ hk,
        B32String_str _ _ _ hv, ih']
    | [], hlen, _ => simp at hlen
    | [_], hlen, _ => simp at hlen; omega

theorem unix32_lt (t : Int) : unix32 t < 2 ^ 32 := by
  unfold unix32
  omega

theorem unix32_cast (t : Int) (h0 : 0 ≤ t) (h1 : t < 2 ^ 32) : ((unix32 t : Nat) : Int) = t := by
  unfold unix32
  omega

end Sftpd

namespace Sftpd

set_option maxHeartbeats 1600000 in
/-- Go `parseAttr` reads back what `writeAttr` emits for an attribute that fits the wire. -/
theorem parseAttr_attrFields (a a0 : Attr) (rest : List Nat) (h : WireAttr a) :
    parseAttr { rest := attrFields a ++ rest, ok := true } a0
      = ({ rest := rest, ok := true }, overlay a0 a) := by
  obtain ⟨hF, hS, hU, hP, hT, hE⟩ := h
  have hFlt : a.Flags < 2 ^ 32 := by
    have h1 := @Nat.and_le_right a.Flags (SSH_FILEXFER_ATTR_SIZE ||| SSH_FILEXFER_ATTR_UIDGID |||
      SSH_FILEXFER_ATTR_PERMISSIONS ||| SSH_FILEXFER_ATTR_ACMODTIME |||
      SSH_FILEXFER_ATTR_EXTENDED)
    rw [hF] at h1
    have h2 : (SSH_FILEXFER_ATTR_SIZE ||| SSH_FILEXFER_ATTR_UIDGID |||
      SSH_FILEXFER_ATTR_PERMISSIONS ||| SSH_FILEXFER_ATTR_ACMODTIME |||
      SSH_FILEXFER_ATTR_EXTENDED) < 2 ^ 32 := by decide
    omega
  have hmode : a.Flags &&& SSH_FILEXFER_ATTR_PERMISSIONS ≠ 0 →
      fileModeToSftp a.Mode < 2 ^ 32 ∧ sftpToFileMode (fileModeToSftp a.Mode) = a.Mode := by
    intro hp
    obtain ⟨t, p, su, sg, st, ht, hpp, hm⟩ := hP hp
    rw [hm]
    exact closedMode_roundtrip t p su sg st ht hpp
  have hext : a.Flags &&& SSH_FILEXFER_ATTR_EXTENDED ≠ 0 →
      a.Extended.length / 2 % 2 ^ 32 = a.Extended.length / 2 ∧
      ¬ (a.Extended.length / 2 > 0xFF) ∧
      ∀ r, parseExtended { rest := extBytes a.Extended ++ r, ok := true } (a.Extended.length / 2)
        = ({ rest := r, ok := true }, a.Extended) := by
    intro he
    obtain ⟨h1, h2, h3⟩ := hE he
    refine ⟨by omega, by omega, fun r => parseExtended_extBytes _ _ r (by omega) h3⟩
  unfold parseAttr attrFields overlay
  simp only [List.append_assoc, B32_be32 _ _ _ hFlt]
  by_cases c1 : a.Flags &&& SSH_FILEXFER_ATTR_SIZE = 0 <;>
    by_cases c2 : a.Flags &&& SSH_FILEXFER_ATTR_UIDGID = 0 <;>
    by_cases c3 : a.Flags &&& SSH_FILEXFER_ATTR_PERMISSIONS = 0 <;>
    by_cases c4 : a.Flags &&& SSH_FILEXFER_ATTR_ACMODTIME = 0 <;>
    by_cases c5 : a.Flags &&& SSH_FILEXFER_ATTR_EXTENDED = 0
  all_goals
    simp only [c1, c2, c3, c4, c5, ne_eq, not_true_eq_false, not_false_eq_true, if_true, if_false,
      List.nil_append, List.append_assoc, forall_true_left, false_implies] at hS hU hmode hT hext ⊢
  all_goals
    simp (disch := first | assumption | omega | exact unix32_lt _) only [B64_be64, B32_be32,
      inTimes, unix32_cast, hmode, hext, hU, hT, hS, c1, c2, c3, c4, c5, ne_eq,
      not_true_eq_false, not_false_eq_true, if_false, if_true, gt_iff_lt]

end Sftpd

namespace Sftpd

/-- C2, counterexample. The attribute that `FillFrom` produces has the ACMODTIME flag and
the zero time as `ATime`; `parseAttr` accepts the bytes that `writeAttr` emits for it, but
the access time it yields differs, in whole seconds, from the one written. -/
theorem parseAttr_changes_zero_time :
    filledAttr.Flags &&& (SSH_FILEXFER_ATTR_SIZE ||| SSH_FILEXFER_ATTR_UIDGID |||
        SSH_FILEXFER_ATTR_PERMISSIONS ||| SSH_FILEXFER_ATTR_ACMODTIME |||
        SSH_FILEXFER_ATTR_EXTENDED) = filledAttr.Flags ∧
      filledAttr.Flags &&& SSH_FILEXFER_ATTR_ACMODTIME ≠ 0 ∧
      (parseAttr (NewParser (attrBytes filledAttr)) Attr.zero).1.End = none ∧
      (parseAttr (NewParser (attrBytes filledAttr)) Attr.zero).2.ATime ≠ filledAttr.ATime := by
  decide

/-- C2, amended. For every attribute whose flagged fields fit the wire (known flags,
integers within their types, a mode of the closed set of C1, times within 32-bit seconds,
extended strings in pairs, at most 255 of them): `parseAttr`, from any starting value `a0`
of the destination, succeeds on the attribute bytes that `writeAttr` emits, consumes
exactly those bytes (what follows them is left unread, and `End` accepts when nothing
follows), and yields the flags of `a` and every field whose flag is set. -/
theorem parseAttr_writeAttr_roundtrip (a a0 : Attr) (rest : List Nat) (h : WireAttr a) :
    (parseAttr (NewParser (attrBytes a ++ rest)) a0).1 = { rest := rest, ok := true } ∧
      (parseAttr (NewParser (attrBytes a)) a0).1.End = none ∧
      (parseAttr (NewParser (attrBytes a ++ rest)) a0).2.Flags = a.Flags ∧
      (a.Flags &&& SSH_FILEXFER_ATTR_SIZE ≠ 0 →
        (parseAttr (NewParser (attrBytes a ++ rest)) a0).2.Size = a.Size) ∧
      (a.Flags &&& SSH_FILEXFER_ATTR_UIDGID ≠ 0 →
        (parseAttr (NewParser (attrBytes a ++ rest)) a0).2.Uid = a.Uid ∧
          (parseAttr (NewParser (attrBytes a ++ rest)) a0).2.Gid = a.Gid) ∧
      (a.Flags &&& SSH_FILEXFER_ATTR_PERMISSIONS ≠ 0 →
        (parseAttr (NewParser (attrBytes a ++ rest)) a0).2.Mode = a.Mode) ∧
      (a.Flags &&& SSH_FILEXFER_ATTR_ACMODTIME ≠ 0 →
        (parseAttr (NewParser (attrBytes a ++ rest)) a0).2.ATime = a.ATime ∧
          (parseAttr (NewParser (attrBytes a ++ rest)) a0).2.MTime = a.MTime) ∧
      (a.Flags &&& SSH_FILEXFER_ATTR_EXTENDED ≠ 0 →
        (parseAttr (NewParser (attrBytes a ++ rest)) a0).2.Extended = a.Extended) := by
  have e1 : parseAttr (NewParser (attrBytes a ++ rest)) a0
      = ({ rest := rest, ok := true }, overlay a0 a) := by
    rw [attrBytes_eq]; exact parseAttr_attrFields a a0 rest h
  have e2 : parseAttr (NewParser (attrBytes a)) a0 = ({ rest := [], ok := true }, overlay a0 a) := by
    have := parseAttr_attrFields a a0 [] h
    rw [List.append_nil] at this
    rw [attrBytes_eq]; exact this
  rw [e1, e2]
  refine ⟨rfl, rfl, rfl, ?_, ?_, ?_, ?_, ?_⟩ <;> intro hf <;> simp [overlay, hf]

/-- An attribute with all five flags set. -/
theorem parseAttr_writeAttr_roundtrip_witness :
    WireAttr sampleAttr ∧
      (parseAttr (NewParser (attrBytes sampleAttr ++ [1, 2])) Attr.zero).1
        = { rest := [1, 2], ok := true } ∧
      (parseAttr (NewParser (attrBytes sampleAttr ++ [1, 2])) Attr.zero).2.Extended
        = sampleAttr.Extended :=
  have hw : WireAttr sampleAttr :=
    ⟨by decide, fun _ => by decide, fun _ => by decide,
      fun _ => ⟨0, 0o644, false, false, false, by decide, by decide, by decide⟩,
      fun _ => by decide, fun _ => by decide⟩
  ⟨hw, (parseAttr_writeAttr_roundtrip sampleAttr Attr.zero [1, 2] hw).1,
    (parseAttr_writeAttr_roundtrip sampleAttr Attr.zero [1, 2] hw).2.2.2.2.2.2.2 (by decide)⟩

end Sftpd

namespace Sftpd

/-! ## The handle table as a map -/

theorem mapDelete_of_not_mem (m : List (List Nat × Nat)) (k : List Nat)
    (h : k ∉ mapKeys m) : mapDelete m k = m := by
  unfold mapDelete
  rw [List.filter_eq_self]
  intro kv hkv
  simp only [decide_eq_true_eq]
  intro e
  exact h (by simpa [mapKeys] using ⟨kv.2, by rw [← e]; exact hkv⟩)

theorem mapGet_eq_none (m : List (List Nat × Nat)) (k : List Nat) :
    mapGet m k = none ↔ k ∉ mapKeys m := by
  induction m with
  | nil => simp [mapGet, mapKeys]
  | cons kv m ih =>
    by_cases e : kv.1 = k
    · simp [mapGet, mapKeys, List.find?, e]
    · have e2 : ¬ k = kv.1 := fun x => e x.symm
      simp only [mapGet, mapKeys] at ih
      simp [mapGet, mapKeys, List.find?, e, e2, ih]

theorem mapGet_mapDelete_self (m : List (List Nat × Nat)) (k : List Nat) :
    mapGet (mapDelete m k) k = none := by
  rw [mapGet_eq_none]
  simp [mapKeys, mapDelete]

theorem mapGet_mapDelete_other (m : List (List Nat × Nat)) (k j : List Nat) (hne : j ≠ k) :
    mapGet (mapDelete m k) j = mapGet m j := by
  unfold mapGet mapDelete
  rw [List.find?_filter]
  congr 2
  funext kv
  by_cases e : kv.1 = j
  · have e2 : ¬ kv.1 = k := fun x => hne (e.symm.trans x)
    simp [e, e2]
    exact fun x => e2 (e.trans x)
  · simp [e]

end Sftpd

namespace Sftpd

/-! ## `CloseHandle` on a string that is not a key -/

theorem CloseHandle_of_not_key (h : Handles) (k : List Nat)
    (hf : k ∉ mapKeys h.f) (hd : k ∉ mapKeys h.d) : h.CloseHandle k = (h, []) := by
  have gf : mapGet h.f k = none := (mapGet_eq_none _ _).2 hf
  have gd : mapGet h.d k = none := (mapGet_eq_none _ _).2 hd
  unfold Handles.CloseHandle
  cases k with
  | nil => rfl
  | cons k0 ks =>
    simp only [mapDelete_of_not_mem _ _ hf, mapDelete_of_not_mem _ _ hd, gf, gd]
    split_ifs <;> rfl

theorem CloseHandle_c (h : Handles) (k : List Nat) : (h.CloseHandle k).1.c = h.c := by
  unfold Handles.CloseHandle
  cases k with
  | nil => rfl
  | cons k0 ks => simp only []; split_ifs <;> rfl

theorem CloseHandle_other (h : Handles) (k j : List Nat) (hne : j ≠ k) :
    (h.CloseHandle k).1.GetFile j = h.GetFile j ∧
    (h.CloseHandle k).1.GetDir j = h.GetDir j := by
  unfold Handles.CloseHandle Handles.GetFile Handles.GetDir
  cases k with
  | nil => exact ⟨rfl, rfl⟩
  | cons k0 ks =>
    simp only []
    split_ifs
    · exact ⟨mapGet_mapDelete_other _ _ _ hne, rfl⟩
    · exact ⟨rfl, mapGet_mapDelete_other _ _ _ hne⟩
    · exact ⟨rfl, rfl⟩

theorem CloseHandle_twice (h : Handles) (k : List Nat) :
    (h.CloseHandle k).1.CloseHandle k = ((h.CloseHandle k).1, []) := by
  unfold Handles.CloseHandle
  cases k with
  | nil => rfl
  | cons k0 ks =>
    simp only []
    by_cases e1 : k0 = 102
    · simp only [if_pos e1, mapGet_mapDelete_self]
      rw [mapDelete_of_not_mem]
      simp [mapKeys, mapDelete]
    · by_cases e2 : k0 = 100
      · simp only [if_neg e1, if_pos e2, mapGet_mapDelete_self]
        rw [mapDelete_of_not_mem]
        simp [mapKeys, mapDelete]
      · simp only [if_neg e1, if_neg e2]

/-- C20: `CloseHandle(k)` on a string `k` that is a key of neither map closes nothing and
returns the table as it was (both maps and the counter); so do the empty string, a string
whose first byte is neither `f` nor `d`, and a second `CloseHandle` of the same string.
For every `k`, `CloseHandle(k)` keeps the counter and what `GetFile` and `GetDir` return
for every other string. -/
theorem CloseHandle_frame (h : Handles) (k : List Nat) :
    (k ∉ mapKeys h.f → k ∉ mapKeys h.d → h.CloseHandle k = (h, [])) ∧
    h.CloseHandle [] = (h, []) ∧
    (∀ k0 ks, k = k0 :: ks → k0 ≠ 102 → k0 ≠ 100 → h.CloseHandle k = (h, [])) ∧
    (h.CloseHandle k).1.CloseHandle k = ((h.CloseHandle k).1, []) ∧
    (h.CloseHandle k).1.c = h.c ∧
    (∀ j, j ≠ k → (h.CloseHandle k).1.GetFile j = h.GetFile j ∧
      (h.CloseHandle k).1.GetDir j = h.GetDir j) := by
  refine ⟨CloseHandle_of_not_key h k, rfl, ?_, CloseHandle_twice h k, CloseHandle_c h k,
    CloseHandle_other h k⟩
  intro k0 ks e h1 h2
  subst e
  simp [Handles.CloseHandle, h1, h2]

/-- The frame of `CloseHandle` at the table with the file `f1` and the strings `f2`
(not a key), `x` (neither `f` nor `d`) and `f1` against the other string `f2`. -/
theorem CloseHandle_frame_witness :
    (Handles.zero.Init.NewFile 7).1.CloseHandle [102, 50] = ((Handles.zero.Init.NewFile 7).1, []) ∧
    (Handles.zero.Init.NewFile 7).1.CloseHandle [120] = ((Handles.zero.Init.NewFile 7).1, []) ∧
    ((Handles.zero.Init.NewFile 7).1.CloseHandle [102, 49]).1.GetFile [102, 50] =
      (Handles.zero.Init.NewFile 7).1.GetFile [102, 50] :=
  ⟨(CloseHandle_frame (Handles.zero.Init.NewFile 7).1 [102, 50]).1 (by decide) (by decide),
    (CloseHandle_frame (Handles.zero.Init.NewFile 7).1 [120]).2.2.1 120 [] rfl (by decide)
      (by decide),
    ((CloseHandle_frame (Handles.zero.Init.NewFile 7).1 [102, 49]).2.2.2.2.2 [102, 50]
      (by decide)).1⟩

end Sftpd

namespace Sftpd

/-! ## `strconv.FormatInt(c, 16)` -/

theorem unhex_hexDigit (d : Nat) (h : d < 16) : unhex (hexDigit d) = d := by
  unfold unhex hexDigit
  split_ifs <;> omega

theorem isHexChar_hexDigit (d : Nat) (h : d < 16) : isHexChar (hexDigit d) = true := by
  unfold isHexChar hexDigit
  split_ifs <;> simp <;> omega

theorem hexDigits_split (fuel n : Nat) (acc : List Nat) (h : n < 16 ^ (fuel + 1)) :
    ∃ ds, hexDigits (fuel + 1) n acc = ds ++ acc ∧ hexValue ds = n ∧ ds ≠ [] := by
  induction fuel generalizing n acc with
  | zero =>
    have h16 : n < 16 := by simpa using h
    refine ⟨[hexDigit n], ?_, ?_, by simp⟩
    · simp [hexDigits, h16]
    · simp [hexValue, unhex_hexDigit n h16]
  | succ fuel ih =>
    by_cases h16 : n < 16
    · refine ⟨[hexDigit n], ?_, ?_, by simp⟩
      · rw [hexDigits, if_pos h16]; rfl
      · simp [hexValue, unhex_hexDigit n h16]
    · have hq : n / 16 < 16 ^ (fuel + 1) := by
        rw [Nat.div_lt_iff_lt_mul (by norm_num)]
        calc n < 16 ^ (fuel + 1 + 1) := h
          _ = 16 ^ (fuel + 1) * 16 := by ring
      obtain ⟨ds, e, v, _⟩ := ih (n / 16) (hexDigit (n % 16) :: acc) hq
      refine ⟨ds ++ [hexDigit (n % 16)], ?_, ?_, by simp⟩
      · rw [hexDigits, if_neg h16, e]; simp
      · unfold hexValue at v ⊢
        rw [List.foldl_append, v]
        simp only [List.foldl_cons, List.foldl_nil]
        rw [unhex_hexDigit _ (Nat.mod_lt _ (by norm_num))]
        omega

theorem hexValue_hexDigits (n : Nat) (h : n < 16 ^ 16) : hexValue (hexDigits 16 n []) = n := by
  obtain ⟨ds, e, v, _⟩ := hexDigits_split 15 n [] h
  rw [e, List.append_nil, v]

theorem hexDigits_ne_nil (n : Nat) : hexDigits 16 n [] ≠ [] := by
  rw [hexDigits]
  split_ifs
  · simp
  · intro e
    have : ∀ fuel m acc, acc ≠ [] → hexDigits fuel m acc ≠ [] := by
      intro fuel
      induction fuel with
      | zero => intro m acc h; simpa [hexDigits] using h
      | succ fuel ih =>
        intro m acc h
        rw [hexDigits]
        split_ifs
        · simp
        · exact ih _ _ (by simp)
    exact this _ _ _ (by simp) e

theorem hexDigits_length (fuel n : Nat) (acc : List Nat) :
    (hexDigits fuel n acc).length ≤ fuel + acc.length := by
  induction fuel generalizing n acc with
  | zero => simp [hexDigits]
  | succ fuel ih =>
    rw [hexDigits]
    split_ifs
    · simp; omega
    · have := ih (n / 16) (hexDigit (n % 16) :: acc)
      simp only [List.length_cons] at this
      omega

theorem hexDigits_chars (fuel n : Nat) (acc : List Nat)
    (hacc : ∀ ch ∈ acc, isHexChar ch = true) :
    ∀ ch ∈ hexDigits fuel n acc, isHexChar ch = true := by
  induction fuel generalizing n acc with
  | zero => simpa [hexDigits] using hacc
  | succ fuel ih =>
    rw [hexDigits]
    split_ifs with h16
    · intro ch hch
      rcases List.mem_cons.1 hch with e | e
      · rw [e]; exact isHexChar_hexDigit n h16
      · exact hacc ch e
    · apply ih
      intro ch hch
      rcases List.mem_cons.1 hch with e | e
      · rw [e]; exact isHexChar_hexDigit _ (Nat.mod_lt _ (by norm_num))
      · exact hacc ch e

theorem FormatInt16_of_nonneg (c : Int) (h : 0 ≤ c) : FormatInt16 c = hexDigits 16 c.toNat [] := by
  unfold FormatInt16
  rw [if_neg (by omega)]

theorem FormatInt16_inj (a b : Int) (ha : 0 ≤ a) (hb : 0 ≤ b) (ha2 : a < 2 ^ 64)
    (hb2 : b < 2 ^ 64) (e : FormatInt16 a = FormatInt16 b) : a = b := by
  rw [FormatInt16_of_nonneg a ha, FormatInt16_of_nonneg b hb] at e
  have va := hexValue_hexDigits a.toNat (by norm_num; omega)
  have vb := hexValue_hexDigits b.toNat (by norm_num; omega)
  rw [e, vb] at va
  omega

theorem digitChar_toNat (d : Nat) (h : d < 16) : (Nat.digitChar d).toNat = hexDigit d := by
  interval_cases d <;> rfl

theorem toDigitsCore_hexDigits (fuel2 fuel1 n : Nat) (ds : List Char) (h1 : n < fuel1)
    (h2 : n < 16 ^ (fuel2 + 1)) :
    (Nat.toDigitsCore 16 fuel1 n ds).map Char.toNat =
      hexDigits (fuel2 + 1) n (ds.map Char.toNat) := by
  induction fuel2 generalizing fuel1 n ds with
  | zero =>
    have h16 : n < 16 := by simpa using h2
    obtain ⟨f1, rfl⟩ : ∃ f1, fuel1 = f1 + 1 := ⟨fuel1 - 1, by omega⟩
    have hq : n / 16 = 0 := by omega
    have hm : n % 16 = n := by omega
    simp [Nat.toDigitsCore, hexDigits, hq, hm, h16, digitChar_toNat n h16]
  | succ fuel2 ih =>
    obtain ⟨f1, rfl⟩ : ∃ f1, fuel1 = f1 + 1 := ⟨fuel1 - 1, by omega⟩
    by_cases h16 : n < 16
    · have hq : n / 16 = 0 := by omega
      have hm : n % 16 = n := by omega
      rw [hexDigits, if_pos h16]
      simp [Nat.toDigitsCore, hq, hm, digitChar_toNat n h16]
    · have hq : ¬ n / 16 = 0 := by omega
      have hq2 : n / 16 < 16 ^ (fuel2 + 1) := by
        rw [Nat.div_lt_iff_lt_mul (by norm_num)]
        calc n < 16 ^ (fuel2 + 1 + 1) := h2
          _ = 16 ^ (fuel2 + 1) * 16 := by ring
      rw [hexDigits, if_neg h16]
      simp only [Nat.toDigitsCore, hq, if_false]
      rw [ih f1 (n / 16) _ (by omega) hq2]
      simp [digitChar_toNat _ (Nat.mod_lt n (by norm_num : 0 < 16))]

theorem FormatInt16_eq_hexRendering (c : Int) (h1 : -(2 ^ 64) < c) (h2 : c < 2 ^ 64) :
    FormatInt16 c = hexRendering c := by
  unfold FormatInt16 hexRendering Nat.toDigits
  split_ifs
  · rw [toDigitsCore_hexDigits 15 _ _ [] (by omega) (by norm_num; omega)]; rfl
  · rw [toDigitsCore_hexDigits 15 _ _ [] (by omega) (by norm_num; omega)]; rfl

end Sftpd

namespace Sftpd

theorem incInt64_of_lt (c : Int) (h : c < 2 ^ 63 - 1) : incInt64 c = c + 1 := by
  unfold incInt64
  rw [if_neg (by omega)]

theorem FormatInt16_shape (c : Int) (h : 0 ≤ c) :
    (FormatInt16 c).length ≤ 16 ∧ (∀ ch ∈ FormatInt16 c, isHexChar ch = true) ∧
      FormatInt16 c ≠ [] := by
  rw [FormatInt16_of_nonneg c h]
  exact ⟨by simpa using hexDigits_length 16 c.toNat [],
    hexDigits_chars 16 c.toNat [] (by simp), hexDigits_ne_nil _⟩

/-- C16, the claim as stated fails on the code: on a table whose counter is
`2^63 - 1` the increment wraps to `-2^63`, and `NewFile` returns `f-8000000000000000`,
which is not `f` followed by the hexadecimal rendering `8000000000000000` of `c + 1`. -/
theorem NewFile_at_max_counter_is_not_hex :
    (({ f := [], d := [], c := 2 ^ 63 - 1 } : Handles).NewFile 0).2 =
      102 :: 45 :: 56 :: List.replicate 15 48 ∧
    hexRendering (2 ^ 63 - 1 + 1) = 56 :: List.replicate 15 48 ∧
    (({ f := [], d := [], c := 2 ^ 63 - 1 } : Handles).NewFile 0).2 ≠
      102 :: hexRendering (2 ^ 63 - 1 + 1) := by
  have e : hexRendering (2 ^ 63 - 1 + 1) = 56 :: List.replicate 15 48 := by
    rw [← FormatInt16_eq_hexRendering _ (by norm_num) (by norm_num)]
    decide
  refine ⟨by decide, e, ?_⟩
  rw [e]
  decide

/-- C17, the claim as stated fails on the code: on a table whose counter is `2^63 - 1`
the handle returned by `NewFile` has 18 characters, the second being the minus sign,
which is none of `0`-`9`, `a`-`f`. -/
theorem NewFile_at_max_counter_is_long :
    (({ f := [], d := [], c := 2 ^ 63 - 1 } : Handles).NewFile 0).2.length = 18 ∧
    (({ f := [], d := [], c := 2 ^ 63 - 1 } : Handles).NewFile 0).2.tail.head? = some 45 ∧
    isHexChar 45 = false := by
  decide

/-- C17, amended: for every counter `c` with `-1 ≤ c < 2^63 - 1` (the incremented counter
is between 0 and `2^63 - 1`), the handle returned by `NewFile` is `f`, and the one
returned by `NewDir` is `d`, followed by at least one and at most 16 characters, all
from `0`-`9`, `a`-`f`; each handle has at most 17 characters. -/
theorem handle_shape (h : Handles) (x : Nat) (h1 : -1 ≤ h.c) (h2 : h.c < 2 ^ 63 - 1) :
    ((h.NewFile x).2.length ≤ 17 ∧ (h.NewFile x).2.head? = some 102 ∧
      (h.NewFile x).2.tail ≠ [] ∧ ∀ ch ∈ (h.NewFile x).2.tail, isHexChar ch = true) ∧
    ((h.NewDir x).2.length ≤ 17 ∧ (h.NewDir x).2.head? = some 100 ∧
      (h.NewDir x).2.tail ≠ [] ∧ ∀ ch ∈ (h.NewDir x).2.tail, isHexChar ch = true) := by
  have hs := FormatInt16_shape (h.c + 1) (by omega)
  simp only [Handles.NewFile, Handles.NewDir, incInt64_of_lt h.c h2, List.length_cons,
    List.head?_cons, List.tail_cons]
  exact ⟨⟨by omega, trivial, hs.2.2, hs.2.1⟩, ⟨by omega, trivial, hs.2.2, hs.2.1⟩⟩

/-- The shape of the handles at the largest admitted counter, `2^63 - 2`. -/
theorem handle_shape_witness :
    (-1 : Int) ≤ ({ f := [], d := [], c := 2 ^ 63 - 2 } : Handles).c ∧
    ((({ f := [], d := [], c := 2 ^ 63 - 2 } : Handles).NewFile 0).2.length ≤ 17 ∧
      (({ f := [], d := [], c := 2 ^ 63 - 2 } : Handles).NewFile 0).2.head? = some 102 ∧
      (({ f := [], d := [], c := 2 ^ 63 - 2 } : Handles).NewFile 0).2.tail ≠ [] ∧
      ∀ ch ∈ (({ f := [], d := [], c := 2 ^ 63 - 2 } : Handles).NewFile 0).2.tail,
        isHexChar ch = true) :=
  ⟨by decide, (handle_shape { f := [], d := [], c := 2 ^ 63 - 2 } 0 (by decide) (by decide)).1⟩

end Sftpd

namespace Sftpd

/-! ## Sessions on the handle table -/

theorem mapGet_mapSet_self (m : List (List Nat × Nat)) (k : List Nat) (v : Nat) :
    mapGet (mapSet m k v) k = some v := by
  have h := mapGet_mapDelete_self m k
  unfold mapGet at h ⊢
  unfold mapSet
  rw [List.find?_append]
  cases hf : List.find? (fun kv => decide (kv.1 = k)) (mapDelete m k) with
  | none => simp
  | some y => rw [hf] at h; simp at h

theorem mapSet_of_not_mem (m : List (List Nat × Nat)) (k : List Nat) (v : Nat)
    (h : k ∉ mapKeys m) : mapSet m k v = m ++ [(k, v)] := by
  unfold mapSet
  rw [mapDelete_of_not_mem m k h]

theorem mapDelete_perm (m : List (List Nat × Nat)) (k : List Nat) (x : Nat)
    (hn : (mapKeys m).Nodup) (hg : mapGet m k = some x) :
    m.Perm ((k, x) :: mapDelete m k) := by
  induction m with
  | nil => simp [mapGet] at hg
  | cons kv m ih =>
    have hn2 : kv.1 ∉ mapKeys m ∧ (mapKeys m).Nodup := by
      simpa [mapKeys] using hn
    by_cases e : kv.1 = k
    · have hx : kv.2 = x := by simpa [mapGet, List.find?, e] using hg
      have hk : k ∉ mapKeys m := e ▸ hn2.1
      have : mapDelete (kv :: m) k = m := by
        have h1 : mapDelete (kv :: m) k = mapDelete m k := by
          simp [mapDelete, List.filter, e]
        rw [h1, mapDelete_of_not_mem m k hk]
      rw [this]
      have : kv = (k, x) := Prod.ext e hx
      rw [this]
    · have hg2 : mapGet m k = some x := by simpa [mapGet, List.find?, e] using hg
      have h1 : mapDelete (kv :: m) k = kv :: mapDelete m k := by
        simp [mapDelete, List.filter, e]
      rw [h1]
      exact ((ih hn2.2 hg2).cons kv).trans (List.Perm.swap _ _ _)

theorem mapKeys_mapDelete_sublist (m : List (List Nat × Nat)) (k : List Nat) :
    (mapKeys (mapDelete m k)).Sublist (mapKeys m) :=
  List.Sublist.map _ (List.filter_sublist m)

theorem mem_of_mem_mapDelete (m : List (List Nat × Nat)) (k : List Nat) (kv : List Nat × Nat)
    (h : kv ∈ mapDelete m k) : kv ∈ m :=
  (List.mem_filter.1 h).1

theorem mapGet_mem (m : List (List Nat × Nat)) (k : List Nat) (x : Nat)
    (h : mapGet m k = some x) : (k, x) ∈ m := by
  unfold mapGet at h
  cases hf : List.find? (fun kv => decide (kv.1 = k)) m with
  | none => rw [hf] at h; simp at h
  | some y =>
    rw [hf] at h
    have h1 := List.find?_some hf
    have h2 := List.mem_of_find?_eq_some hf
    simp only [decide_eq_true_eq] at h1
    simp only [Option.map_some', Option.some.injEq] at h
    have : y = (k, x) := Prod.ext h1 h
    rw [← this]
    exact h2

theorem incInt64_wrap (x : Int) :
    incInt64 ((x + 2 ^ 63) % 2 ^ 64 - 2 ^ 63) = (x + 1 + 2 ^ 63) % 2 ^ 64 - 2 ^ 63 := by
  unfold incInt64
  split_ifs <;> omega

theorem counterAfter_range (n : Nat) :
    -(2 ^ 63) ≤ counterAfter n ∧ counterAfter n < 2 ^ 63 := by
  unfold counterAfter
  omega

theorem counterAfter_of_lt (n : Nat) (h : n < 2 ^ 63) : counterAfter n = n := by
  unfold counterAfter
  omega

theorem counterAfter_inj (i j : Nat) (hi : i ≤ 2 ^ 64) (hj : j ≤ 2 ^ 64) (h1 : 1 ≤ i)
    (h2 : 1 ≤ j) (e : counterAfter i = counterAfter j) : i = j := by
  unfold counterAfter at e
  omega

theorem incInt64_counterAfter (n : Nat) : incInt64 (counterAfter n) = counterAfter (n + 1) := by
  unfold counterAfter
  rw [incInt64_wrap]
  push_cast
  rfl

theorem FormatInt16_inj_int64 (a b : Int) (ha : -(2 ^ 64) < a) (hb : -(2 ^ 64) < b)
    (ha2 : a < 2 ^ 64) (hb2 : b < 2 ^ 64) (e : FormatInt16 a = FormatInt16 b) : a = b := by
  by_cases sa : a < 0 <;> by_cases sb : b < 0
  · unfold FormatInt16 at e
    rw [if_pos sa, if_pos sb] at e
    have e2 := (List.cons.inj e).2
    have va := hexValue_hexDigits (-a).toNat (by norm_num; omega)
    have vb := hexValue_hexDigits (-b).toNat (by norm_num; omega)
    rw [e2, vb] at va
    omega
  · exfalso
    unfold FormatInt16 at e
    rw [if_pos sa, if_neg sb] at e
    have hm : 45 ∈ hexDigits 16 b.toNat [] := by rw [← e]; exact List.mem_cons_self _ _
    have := hexDigits_chars 16 b.toNat [] (by simp) 45 hm
    revert this
    decide
  · exfalso
    unfold FormatInt16 at e
    rw [if_neg sa, if_pos sb] at e
    have hm : 45 ∈ hexDigits 16 a.toNat [] := by rw [e]; exact List.mem_cons_self _ _
    have := hexDigits_chars 16 a.toNat [] (by simp) 45 hm
    revert this
    decide
  · exact FormatInt16_inj a b (by omega) (by omega) ha2 hb2 e

theorem key_fresh (m : List (List Nat × Nat)) (p n : Nat) (hn : n < 2 ^ 64)
    (hk : ∀ kv ∈ m, ∃ j : Nat, 1 ≤ j ∧ j ≤ n ∧ kv.1 = p :: FormatInt16 (counterAfter j)) :
    (p :: FormatInt16 (counterAfter (n + 1))) ∉ mapKeys m := by
  intro hmem
  obtain ⟨kv, hkv, e⟩ := List.mem_map.1 hmem
  obtain ⟨j, hj1, hj, ej⟩ := hk kv hkv
  rw [ej] at e
  have r1 := counterAfter_range j
  have r2 := counterAfter_range (n + 1)
  have := FormatInt16_inj_int64 _ _ (by omega) (by omega) (by omega) (by omega)
    (List.cons.inj e).2
  have := counterAfter_inj j (n + 1) (by omega) (by omega) hj1 (by omega) this
  omega

end Sftpd

namespace Sftpd

theorem good_init : Trace.init.Good 0 where
  c_eq := by decide
  fkeys := by intro kv h; cases h
  dkeys := by intro kv h; cases h
  fnodup := List.nodup_nil
  dnodup := List.nodup_nil
  issued_len := rfl
  issued_ctr := rfl
  issued_key := by intro p h; cases h
  closes := List.Perm.refl _
  nfiles := rfl
  ndirs := rfl

theorem good_NewFile (t : Trace) (n x : Nat) (g : t.Good n) (hn : n < 2 ^ 64) :
    (t.step (.NewFile x)).Good (n + 1) := by
  have hc : incInt64 t.h.c = counterAfter (n + 1) := by
    rw [g.c_eq, incInt64_counterAfter]
  have hfresh := key_fresh t.h.f 102 n hn g.fkeys
  have hset := mapSet_of_not_mem t.h.f _ x hfresh
  refine ⟨?_, ?_, ?_, ?_, ?_, ?_, ?_, ?_, ?_, ?_, ?_⟩
  · simp [Trace.step, Handles.NewFile, hc]
  · intro kv hkv
    simp only [Trace.step, Handles.NewFile, hc, hset, List.mem_append, List.mem_singleton] at hkv
    rcases hkv with h | h
    · obtain ⟨j, h1, h2, h3⟩ := g.fkeys kv h
      exact ⟨j, h1, by omega, h3⟩
    · exact ⟨n + 1, by omega, le_refl _, by rw [h]⟩
  · intro kv hkv
    obtain ⟨j, h1, h2, h3⟩ := g.dkeys kv hkv
    exact ⟨j, h1, by omega, h3⟩
  · simp only [Trace.step, Handles.NewFile, hc, hset, mapKeys, List.map_append, List.map_cons,
      List.map_nil]
    rw [List.nodup_append]
    refine ⟨g.fnodup, List.nodup_singleton _, ?_⟩
    intro a ha hb
    rw [List.mem_singleton] at hb
    rw [hb] at ha
    exact hfresh ha
  · exact g.dnodup
  · simp [Trace.step, g.issued_len]
  · simp only [Trace.step, Handles.NewFile, hc, List.map_append, List.map_cons, List.map_nil,
      List.range_succ, g.issued_ctr]
  · intro p hp
    simp only [Trace.step, Handles.NewFile, hc, List.mem_append, List.mem_singleton] at hp
    rcases hp with h | h
    · exact g.issued_key p h
    · rw [h]; exact Or.inl rfl
  · have hcl := g.closes
    simp only [Trace.step, Handles.NewFile, Handles.CloseAll, hc, hset, List.map_append,
      List.map_cons, List.map_nil] at hcl ⊢
    refine List.Perm.trans ?_ (List.Perm.append_right _ hcl)
    simp only [List.append_assoc]
    refine List.Perm.append_left _ (List.Perm.append_left _ ?_)
    exact List.perm_append_comm
  · have := g.nfiles
    simp only [Trace.step, Handles.NewFile, hc, hset, List.length_append, List.length_singleton,
      List.countP_append, List.countP_singleton, Closed.isFile, if_true]
    omega
  · have := g.ndirs
    simp only [Trace.step, Handles.NewFile, List.countP_append, List.countP_singleton,
      Closed.isDir, Bool.false_eq_true, if_false]
    omega

theorem good_NewDir (t : Trace) (n x : Nat) (g : t.Good n) (hn : n < 2 ^ 64) :
    (t.step (.NewDir x)).Good (n + 1) := by
  have hc : incInt64 t.h.c = counterAfter (n + 1) := by
    rw [g.c_eq, incInt64_counterAfter]
  have hfresh := key_fresh t.h.d 100 n hn g.dkeys
  have hset := mapSet_of_not_mem t.h.d _ x hfresh
  refine ⟨?_, ?_, ?_, ?_, ?_, ?_, ?_, ?_, ?_, ?_, ?_⟩
  · simp [Trace.step, Handles.NewDir, hc]
  · intro kv hkv
    obtain ⟨j, h1, h2, h3⟩ := g.fkeys kv hkv
    exact ⟨j, h1, by omega, h3⟩
  · intro kv hkv
    simp only [Trace.step, Handles.NewDir, hc, hset, List.mem_append, List.mem_singleton] at hkv
    rcases hkv with h | h
    · obtain ⟨j, h1, h2, h3⟩ := g.dkeys kv h
      exact ⟨j, h1, by omega, h3⟩
    · exact ⟨n + 1, by omega, le_refl _, by rw [h]⟩
  · exact g.fnodup
  · simp only [Trace.step, Handles.NewDir, hc, hset, mapKeys, List.map_append, List.map_cons,
      List.map_nil]
    rw [List.nodup_append]
    refine ⟨g.dnodup, List.nodup_singleton _, ?_⟩
    intro a ha hb
    rw [List.mem_singleton] at hb
    rw [hb] at ha
    exact hfresh ha
  · simp [Trace.step, g.issued_len]
  · simp only [Trace.step, Handles.NewDir, hc, List.map_append, List.map_cons, List.map_nil,
      List.range_succ, g.issued_ctr]
  · intro p hp
    simp only [Trace.step, Handles.NewDir, hc, List.mem_append, List.mem_singleton] at hp
    rcases hp with h | h
    · exact g.issued_key p h
    · rw [h]; exact Or.inr rfl
  · have hcl := g.closes
    simp only [Trace.step, Handles.NewDir, Handles.CloseAll, hc, hset, List.map_append,
      List.map_cons, List.map_nil] at hcl ⊢
    refine List.Perm.trans ?_ (List.Perm.append_right _ hcl)
    simp only [List.append_assoc]
    exact List.Perm.refl _
  · have := g.nfiles
    simp only [Trace.step, Handles.NewDir, List.countP_append, List.countP_singleton,
      Closed.isFile, Bool.false_eq_true, if_false]
    omega
  · have := g.ndirs
    simp only [Trace.step, Handles.NewDir, hc, hset, List.length_append, List.length_singleton,
      List.countP_append, List.countP_singleton, Closed.isDir, if_true]
    omega

end Sftpd

namespace Sftpd

theorem CloseHandle_cases (h : Handles) (k : List Nat) :
    h.CloseHandle k = (h, []) ∨
    (∃ x, k.head? = some 102 ∧ mapGet h.f k = some x ∧
      h.CloseHandle k = ({ h with f := mapDelete h.f k }, [Closed.file x])) ∨
    (∃ x, k.head? = some 100 ∧ mapGet h.d k = some x ∧
      h.CloseHandle k = ({ h with d := mapDelete h.d k }, [Closed.dir x])) := by
  cases k with
  | nil => exact Or.inl rfl
  | cons k0 ks =>
    unfold Handles.CloseHandle
    simp only []
    by_cases e1 : k0 = 102
    · rw [if_pos e1]
      cases hg : mapGet h.f (k0 :: ks) with
      | none =>
        left
        rw [mapDelete_of_not_mem _ _ ((mapGet_eq_none _ _).1 hg)]
      | some x => exact Or.inr (Or.inl ⟨x, by simp [e1], rfl, rfl⟩)
    · rw [if_neg e1]
      by_cases e2 : k0 = 100
      · rw [if_pos e2]
        cases hg : mapGet h.d (k0 :: ks) with
        | none =>
          left
          rw [mapDelete_of_not_mem _ _ ((mapGet_eq_none _ _).1 hg)]
        | some x => exact Or.inr (Or.inr ⟨x, by simp [e2], rfl, rfl⟩)
      · rw [if_neg e2]
        exact Or.inl rfl

theorem good_file_key (t : Trace) (n : Nat) (g : t.Good n) (k : List Nat) (x : Nat)
    (h : t.h.GetFile k = some x) : ∃ ks, k = 102 :: ks := by
  obtain ⟨j, _, _, e⟩ := g.fkeys (k, x) (mapGet_mem _ _ _ h)
  exact ⟨_, e⟩

theorem good_dir_key (t : Trace) (n : Nat) (g : t.Good n) (k : List Nat) (x : Nat)
    (h : t.h.GetDir k = some x) : ∃ ks, k = 100 :: ks := by
  obtain ⟨j, _, _, e⟩ := g.dkeys (k, x) (mapGet_mem _ _ _ h)
  exact ⟨_, e⟩

theorem good_close_cases (t : Trace) (n : Nat) (g : t.Good n) (k : List Nat) :
    (t.h.GetFile k = none ∧ t.h.GetDir k = none ∧ t.h.CloseHandle k = (t.h, [])) ∨
    (∃ x, t.h.GetFile k = some x ∧ t.h.GetDir k = none ∧
      t.h.CloseHandle k = ({ t.h with f := mapDelete t.h.f k }, [Closed.file x])) ∨
    (∃ x, t.h.GetFile k = none ∧ t.h.GetDir k = some x ∧
      t.h.CloseHandle k = ({ t.h with d := mapDelete t.h.d k }, [Closed.dir x])) := by
  cases hf : t.h.GetFile k with
  | some x =>
    obtain ⟨ks, rfl⟩ := good_file_key t n g k x hf
    have hd : t.h.GetDir (102 :: ks) = none := by
      cases hd : t.h.GetDir (102 :: ks) with
      | none => rfl
      | some y =>
        obtain ⟨ks2, e⟩ := good_dir_key t n g _ y hd
        simp at e
    refine Or.inr (Or.inl ⟨x, rfl, hd, ?_⟩)
    unfold Handles.GetFile at hf
    simp [Handles.CloseHandle, hf]
  | none =>
    cases hd : t.h.GetDir k with
    | some x =>
      obtain ⟨ks, rfl⟩ := good_dir_key t n g k x hd
      refine Or.inr (Or.inr ⟨x, rfl, rfl, ?_⟩)
      unfold Handles.GetDir at hd
      simp [Handles.CloseHandle, hd]
    | none =>
      exact Or.inl ⟨rfl, rfl, CloseHandle_of_not_key _ _ ((mapGet_eq_none _ _).1 hf)
        ((mapGet_eq_none _ _).1 hd)⟩

theorem length_mapDelete (m : List (List Nat × Nat)) (k : List Nat) (x : Nat)
    (hn : (mapKeys m).Nodup) (hg : mapGet m k = some x) :
    (mapDelete m k).length + 1 = m.length := by
  have := (mapDelete_perm m k x hn hg).length_eq
  simp only [List.length_cons] at this
  omega

theorem good_CloseHandle (t : Trace) (n : Nat) (k : List Nat) (g : t.Good n) :
    (t.step (.CloseHandle k)).Good n := by
  rcases good_close_cases t n g k with ⟨hf, hd, e⟩ | ⟨x, hf, hd, e⟩ | ⟨x, hf, hd, e⟩
  · have : t.step (.CloseHandle k) = t := by
      simp [Trace.step, e, hf, hd]
    rw [this]
    exact g
  · have hg : mapGet t.h.f k = some x := hf
    refine ⟨?_, ?_, ?_, ?_, ?_, ?_, ?_, ?_, ?_, ?_, ?_⟩
    · simp only [Trace.step, e]; exact g.c_eq
    · intro kv hkv
      simp only [Trace.step, e] at hkv
      exact g.fkeys kv (mem_of_mem_mapDelete _ _ _ hkv)
    · simp only [Trace.step, e]; exact g.dkeys
    · simp only [Trace.step, e]
      exact g.fnodup.sublist (mapKeys_mapDelete_sublist _ _)
    · simp only [Trace.step, e]; exact g.dnodup
    · simp only [Trace.step]; exact g.issued_len
    · simp only [Trace.step]; exact g.issued_ctr
    · simp only [Trace.step]; exact g.issued_key
    · have hcl := g.closes
      have hp := (mapDelete_perm t.h.f k x g.fnodup hg).map (fun kv => Closed.file kv.2)
      simp only [Trace.step, e, Handles.CloseAll, List.map_cons] at hcl hp ⊢
      refine List.Perm.trans ?_ hcl
      simp only [List.append_assoc]
      refine List.Perm.append_left _ ?_
      simp only [List.singleton_append]
      exact (hp.append_right _).symm
    · have := g.nfiles
      have hl := length_mapDelete t.h.f k x g.fnodup hg
      simp only [Trace.step, e, hf, Option.isSome_some, if_true]
      omega
    · have := g.ndirs
      simp only [Trace.step, e, hd, Option.isSome_none, Bool.false_eq_true, if_false]
      omega
  · have hg : mapGet t.h.d k = some x := hd
    refine ⟨?_, ?_, ?_, ?_, ?_, ?_, ?_, ?_, ?_, ?_, ?_⟩
    · simp only [Trace.step, e]; exact g.c_eq
    · simp only [Trace.step, e]; exact g.fkeys
    · intro kv hkv
      simp only [Trace.step, e] at hkv
      exact g.dkeys kv (mem_of_mem_mapDelete _ _ _ hkv)
    · simp only [Trace.step, e]; exact g.fnodup
    · simp only [Trace.step, e]
      exact g.dnodup.sublist (mapKeys_mapDelete_sublist _ _)
    · simp only [Trace.step]; exact g.issued_len
    · simp only [Trace.step]; exact g.issued_ctr
    · simp only [Trace.step]; exact g.issued_key
    · have hcl := g.closes
      have hp := (mapDelete_perm t.h.d k x g.dnodup hg).map (fun kv => Closed.dir kv.2)
      simp only [Trace.step, e, Handles.CloseAll, List.map_cons] at hcl hp ⊢
      refine List.Perm.trans ?_ hcl
      simp only [List.append_assoc]
      refine List.Perm.append_left _ ?_
      simp only [List.singleton_append]
      refine List.Perm.trans ?_ (List.Perm.append_left _ hp.symm)
      exact List.perm_middle.symm
    · have := g.nfiles
      simp only [Trace.step, e, hf, Option.isSome_none, Bool.false_eq_true, if_false]
      omega
    · have := g.ndirs
      have hl := length_mapDelete t.h.d k x g.dnodup hg
      simp only [Trace.step, e, hd, Option.isSome_some, if_true]
      omega

theorem run_snoc (ops : List HOp) (op : HOp) :
    Trace.run (ops ++ [op]) = (Trace.run ops).step op := by
  simp [Trace.run, List.foldl_append]

theorem issues_snoc (ops : List HOp) (op : HOp) :
    issues (ops ++ [op]) = issues ops + (if op.isNew then 1 else 0) := by
  simp [issues, List.countP_append, List.countP_cons]

theorem good_run (ops : List HOp) (hb : issues ops ≤ 2 ^ 64) :
    (Trace.run ops).Good (issues ops) := by
  induction ops using List.reverseRecOn with
  | nil => exact good_init
  | append_singleton ops op ih =>
    rw [run_snoc]
    rw [issues_snoc] at hb ⊢
    cases op with
    | NewFile x =>
      simp only [HOp.isNew, if_true] at hb ⊢
      exact good_NewFile _ _ x (ih (by omega)) (by omega)
    | NewDir x =>
      simp only [HOp.isNew, if_true] at hb ⊢
      exact good_NewDir _ _ x (ih (by omega)) (by omega)
    | CloseHandle k =>
      simp only [HOp.isNew, Bool.false_eq_true, if_false, Nat.add_zero] at hb ⊢
      exact good_CloseHandle _ _ k (ih hb)

end Sftpd

namespace Sftpd

/-! ## The counter after `2^64` increments -/

theorem iterate_incInt64 (n : Nat) (c : Int) (h1 : -(2 ^ 63) ≤ c) (h2 : c < 2 ^ 63) :
    incInt64^[n] c = (c + n + 2 ^ 63) % 2 ^ 64 - 2 ^ 63 := by
  induction n with
  | zero => simp only [Function.iterate_zero, id_eq, Nat.cast_zero]; omega
  | succ n ih =>
    rw [Function.iterate_succ_apply', ih, incInt64_wrap]
    push_cast
    ring_nf

theorem churn_after (n : Nat) :
    ∀ (h : Handles) (iss : List (List Nat × Int)) (reg cl : List Closed) (fc dc : Nat),
      h.d = [] → (∀ ks, mapGet h.f (100 :: ks) = none) →
      ∃ iss2 dc2, Trace.after (Trace.mk h iss reg cl fc dc) (churnOps n h.c) =
          Trace.mk { h with c := incInt64^[n] h.c } (iss ++ iss2)
            (reg ++ List.replicate n (Closed.dir 0)) (cl ++ List.replicate n (Closed.dir 0))
            fc dc2 := by
  induction n with
  | zero =>
    intro h iss reg cl fc dc _ _
    exact ⟨[], dc, by simp [Trace.after, churnOps]⟩
  | succ n ih =>
    intro h iss reg cl fc dc hd hf
    have hstep : Trace.after (Trace.mk h iss reg cl fc dc) (churnOps (n + 1) h.c) =
        Trace.after (Trace.mk { h with c := incInt64 h.c }
            (iss ++ [(100 :: FormatInt16 (incInt64 h.c), incInt64 h.c)])
            (reg ++ [Closed.dir 0]) (cl ++ [Closed.dir 0]) fc (dc + 1))
          (churnOps n (incInt64 h.c)) := by
      have hf2 := hf (FormatInt16 (incInt64 h.c))
      unfold mapGet at hf2
      simp [Trace.after, churnOps, Trace.step, Handles.NewDir, Handles.CloseHandle,
        Handles.GetFile, Handles.GetDir, hd, hf2, mapSet, mapDelete, mapGet]
    obtain ⟨iss2, dc2, e⟩ := ih { h with c := incInt64 h.c }
      (iss ++ [(100 :: FormatInt16 (incInt64 h.c), incInt64 h.c)])
      (reg ++ [Closed.dir 0]) (cl ++ [Closed.dir 0]) fc (dc + 1) hd hf
    refine ⟨(100 :: FormatInt16 (incInt64 h.c), incInt64 h.c) :: iss2, dc2, ?_⟩
    rw [hstep, e]
    simp [Function.iterate_succ_apply, List.replicate_succ]

end Sftpd

namespace Sftpd

theorem wrap_count : incInt64^[2 ^ 64 - 1] 1 = 0 := by
  rw [iterate_incInt64 _ _ (by norm_num) (by norm_num)]
  norm_num

theorem wrap_trace (n : Nat) :
    ∃ iss2 dc2, Trace.run (HOp.NewFile 7 :: churnOps n 1) =
      Trace.mk { f := [([102, 49], 7)], d := [], c := incInt64^[n] 1 } (([102, 49], 1) :: iss2)
        (Closed.file 7 :: List.replicate n (Closed.dir 0)) (List.replicate n (Closed.dir 0))
        0 dc2 := by
  have h0 : Trace.run (HOp.NewFile 7 :: churnOps n 1) =
      Trace.after (Trace.mk { f := [([102, 49], 7)], d := [], c := 1 } [([102, 49], 1)]
        [Closed.file 7] [] 0 0) (churnOps n 1) := rfl
  obtain ⟨iss2, dc2, e⟩ := churn_after n { f := [([102, 49], 7)], d := [], c := 1 }
    [([102, 49], 1)] [Closed.file 7] [] 0 0 rfl (by intro ks; simp [mapGet])
  exact ⟨iss2, dc2, by rw [h0, e]; rfl⟩

theorem max_count : incInt64^[2 ^ 63 - 2] 1 = 2 ^ 63 - 1 := by
  rw [iterate_incInt64 _ _ (by norm_num) (by norm_num)]
  norm_num

theorem wrap_then_NewFile (n : Nat) (c : Int) (hw : incInt64^[n] 1 = c) :
    ∃ iss2 dc2, Trace.run ((HOp.NewFile 7 :: churnOps n 1) ++ [HOp.NewFile 8]) =
      Trace.mk
        { f := mapSet [([102, 49], 7)] (102 :: FormatInt16 (incInt64 c)) 8, d := [],
          c := incInt64 c }
        (([102, 49], 1) :: (iss2 ++ [(102 :: FormatInt16 (incInt64 c), incInt64 c)]))
        (Closed.file 7 :: (List.replicate n (Closed.dir 0) ++ [Closed.file 8]))
        (List.replicate n (Closed.dir 0)) 0 dc2 := by
  obtain ⟨iss2, dc2, e⟩ := wrap_trace n
  refine ⟨iss2, dc2, ?_⟩
  rw [run_snoc, e, hw]
  rfl

end Sftpd

namespace Sftpd

theorem registered_counts (ops : List HOp) :
    (Trace.run ops).registered.countP Closed.isFile = ops.countP HOp.isNewFile ∧
    (Trace.run ops).registered.countP Closed.isDir = ops.countP HOp.isNewDir := by
  induction ops using List.reverseRecOn with
  | nil => exact ⟨rfl, rfl⟩
  | append_singleton ops op ih =>
    rw [run_snoc]
    cases op <;>
      simp [Trace.step, List.countP_append, List.countP_singleton, Closed.isFile, Closed.isDir,
        HOp.isNewFile, HOp.isNewDir, ih.1, ih.2]

/-! ## C14: the counts of the table -/

/-- C14, the claim as stated fails on the code: the table reached from `Init` by
`NewFile(7)` and `2^64 - 1` rounds of `NewDir` and `CloseHandle` holds the file 7 under
`f1` and has the counter 0 again; the next `NewFile(8)` returns `f1` once more, replaces
the entry, and `Nfiles()` stays 1. -/
theorem NewFile_after_wrap_keeps_Nfiles :
    (Trace.run wrapOps).h.GetFile [102, 49] = some 7 ∧
    ((Trace.run wrapOps).h.NewFile 8).2 = [102, 49] ∧
    (Trace.run wrapOps).h.Nfiles = 1 ∧
    ((Trace.run wrapOps).h.NewFile 8).1.Nfiles = 1 := by
  obtain ⟨iss2, dc2, e⟩ := wrap_trace (2 ^ 64 - 1)
  rw [wrap_count] at e
  unfold wrapOps
  rw [e]
  exact ⟨rfl, rfl, rfl, rfl⟩

/-- C14, amended: for every table `t.h` reached from `Init` by a sequence `ops` of
`NewFile`, `NewDir` and `CloseHandle` calls of which fewer than `2^64` are `NewFile` or
`NewDir` (the counter has not gone through all its values): `NewFile(x)` returns a handle
under which `GetFile` gives `x`, raises `Nfiles()` by one and keeps `Ndir()`; `NewDir`
likewise for `GetDir` and `Ndir()`; `CloseHandle(k)` on an open file handle closes that
file, makes `GetFile(k)` nil, lowers `Nfiles()` by one and keeps `Ndir()`; likewise for
an open directory handle; and `Nfiles()` is the number of `NewFile` calls less the number
of `CloseHandle` calls on open file handles (likewise `Ndir()`). -/
theorem table_counts (ops : List HOp) (hb : issues ops < 2 ^ 64) (t : Trace)
    (ht : t = Trace.run ops) :
    (∀ x, (t.h.NewFile x).1.GetFile (t.h.NewFile x).2 = some x ∧
      (t.h.NewFile x).1.Nfiles = t.h.Nfiles + 1 ∧ (t.h.NewFile x).1.Ndir = t.h.Ndir) ∧
    (∀ x, (t.h.NewDir x).1.GetDir (t.h.NewDir x).2 = some x ∧
      (t.h.NewDir x).1.Ndir = t.h.Ndir + 1 ∧ (t.h.NewDir x).1.Nfiles = t.h.Nfiles) ∧
    (∀ k x, t.h.GetFile k = some x →
      (t.h.CloseHandle k).2 = [Closed.file x] ∧ (t.h.CloseHandle k).1.GetFile k = none ∧
      (t.h.CloseHandle k).1.Nfiles = t.h.Nfiles - 1 ∧
      (t.h.CloseHandle k).1.Ndir = t.h.Ndir) ∧
    (∀ k x, t.h.GetDir k = some x →
      (t.h.CloseHandle k).2 = [Closed.dir x] ∧ (t.h.CloseHandle k).1.GetDir k = none ∧
      (t.h.CloseHandle k).1.Ndir = t.h.Ndir - 1 ∧
      (t.h.CloseHandle k).1.Nfiles = t.h.Nfiles) ∧
    t.h.Nfiles = (ops.countP HOp.isNewFile : Int) - t.fileCloses ∧
    t.h.Ndir = (ops.countP HOp.isNewDir : Int) - t.dirCloses := by
  have g : t.Good (issues ops) := ht ▸ good_run ops (by omega)
  have hc : incInt64 t.h.c = counterAfter (issues ops + 1) := by
    rw [g.c_eq, incInt64_counterAfter]
  refine ⟨?_, ?_, ?_, ?_, ?_, ?_⟩
  · intro x
    have hfresh := key_fresh t.h.f 102 (issues ops) hb g.fkeys
    refine ⟨mapGet_mapSet_self _ _ _, ?_, rfl⟩
    simp [Handles.NewFile, Handles.Nfiles, hc, mapSet_of_not_mem _ _ x hfresh]
  · intro x
    have hfresh := key_fresh t.h.d 100 (issues ops) hb g.dkeys
    refine ⟨mapGet_mapSet_self _ _ _, ?_, rfl⟩
    simp [Handles.NewDir, Handles.Ndir, hc, mapSet_of_not_mem _ _ x hfresh]
  · intro k x hk
    rcases good_close_cases t _ g k with ⟨hf, _, _⟩ | ⟨y, hf, _, e⟩ | ⟨y, hf, _, _⟩
    · rw [hf] at hk; cases hk
    · rw [hf] at hk
      cases hk
      have hl := length_mapDelete t.h.f k _ g.fnodup hf
      rw [e]
      refine ⟨rfl, mapGet_mapDelete_self _ _, ?_, rfl⟩
      simp only [Handles.Nfiles]
      omega
    · rw [hf] at hk; cases hk
  · intro k x hk
    rcases good_close_cases t _ g k with ⟨_, hd, _⟩ | ⟨y, _, hd, _⟩ | ⟨y, _, hd, e⟩
    · rw [hd] at hk; cases hk
    · rw [hd] at hk; cases hk
    · rw [hd] at hk
      cases hk
      have hl := length_mapDelete t.h.d k _ g.dnodup hd
      rw [e]
      refine ⟨rfl, mapGet_mapDelete_self _ _, ?_, rfl⟩
      simp only [Handles.Ndir]
      omega
  · have h1 := g.nfiles
    have h2 := (registered_counts ops).1
    rw [ht] at h1 ⊢
    simp only [Handles.Nfiles]
    omega
  · have h1 := g.ndirs
    have h2 := (registered_counts ops).2
    rw [ht] at h1 ⊢
    simp only [Handles.Ndir]
    omega

/-- The counts after `NewFile(7)`, `NewDir(9)`, `NewFile(8)` and `CloseHandle("f1")`: two
`NewFile` calls less one close of an open file handle, and closing `f3` closes the
file 8. -/
theorem table_counts_witness :
    issues [HOp.NewFile 7, HOp.NewDir 9, HOp.NewFile 8, HOp.CloseHandle [102, 49]] < 2 ^ 64 ∧
    (Trace.run [HOp.NewFile 7, HOp.NewDir 9, HOp.NewFile 8, HOp.CloseHandle [102, 49]]).h.Nfiles
      = ((2 : Nat) : Int) - ((1 : Nat) : Int) ∧
    ((Trace.run [HOp.NewFile 7, HOp.NewDir 9, HOp.NewFile 8,
      HOp.CloseHandle [102, 49]]).h.CloseHandle [102, 51]).2 = [Closed.file 8] :=
  ⟨by decide,
    (table_counts [HOp.NewFile 7, HOp.NewDir 9, HOp.NewFile 8, HOp.CloseHandle [102, 49]]
      (by decide) _ rfl).2.2.2.2.1,
    ((table_counts [HOp.NewFile 7, HOp.NewDir 9, HOp.NewFile 8, HOp.CloseHandle [102, 49]]
      (by decide) _ rfl).2.2.1 [102, 51] 8 (by decide)).1⟩

end Sftpd

namespace Sftpd

/-! ## C15: issued handles differ -/

/-- C15, the claim as stated fails on the code. In the session `NewFile(7)`, `2^63 - 2`
rounds of `NewDir` and `CloseHandle`, `NewFile(8)`, with `2^63` handles issued, the last
handle is `f-8000000000000000`, made from the counter `-2^63`, below the counter 1 of the
first handle: the counters are not strictly increasing. In the session `NewFile(7)`,
`2^64 - 1` rounds of `NewDir` and `CloseHandle`, `NewFile(8)`, with `2^64 + 1` handles
issued, the first and the last handle are both `f1`: the handles are not all
different. -/
theorem handle_repeats_after_wrap :
    (Trace.run (maxOps ++ [HOp.NewFile 8])).issued.head? = some ([102, 49], 1) ∧
    (Trace.run (maxOps ++ [HOp.NewFile 8])).issued.getLast?
      = some (102 :: 45 :: 56 :: List.replicate 15 48, -(2 ^ 63)) ∧
    ¬ ((Trace.run (maxOps ++ [HOp.NewFile 8])).issued.map Prod.snd).Pairwise
      (fun a b => a < b) ∧
    (Trace.run (wrapOps ++ [HOp.NewFile 8])).issued.head? = some ([102, 49], 1) ∧
    (Trace.run (wrapOps ++ [HOp.NewFile 8])).issued.getLast? = some ([102, 49], 1) ∧
    ¬ ((Trace.run (wrapOps ++ [HOp.NewFile 8])).issued.map Prod.fst).Nodup := by
  obtain ⟨iss1, dc1, e1⟩ := wrap_then_NewFile (2 ^ 63 - 2) _ max_count
  obtain ⟨iss2, dc2, e2⟩ := wrap_then_NewFile (2 ^ 64 - 1) _ wrap_count
  have k1 : incInt64 (2 ^ 63 - 1) = -(2 ^ 63) := by decide
  have k2 : FormatInt16 (-(2 ^ 63)) = 45 :: 56 :: List.replicate 15 48 := by decide
  have k3 : incInt64 0 = 1 := by decide
  have k4 : FormatInt16 1 = [49] := by decide
  rw [k1, k2] at e1
  rw [k3, k4] at e2
  unfold maxOps wrapOps
  rw [e1, e2]
  refine ⟨rfl, ?_, ?_, rfl, ?_, ?_⟩
  · rw [← List.cons_append, List.getLast?_concat]
  · intro h
    have h1 := (List.pairwise_cons.1 h).1 (-(2 ^ 63)) (by simp)
    omega
  · rw [← List.cons_append, List.getLast?_concat]
  · simp

/-- C15, amended: in every session after `Init` (any sequence of `NewFile`, `NewDir` and
`CloseHandle`) in which at most `2^64` handles are issued, no two issued handles are equal,
closed or not, and every handle is `f` or `d` followed by the rendering of the counter
value it was made from; as long as fewer than `2^63` handles are issued, these counter
values are strictly increasing. -/
theorem issued_handles_differ (ops : List HOp) (hb : issues ops ≤ 2 ^ 64) :
    ((Trace.run ops).issued.map Prod.fst).Nodup ∧
    (∀ p ∈ (Trace.run ops).issued,
      p.1 = 102 :: FormatInt16 p.2 ∨ p.1 = 100 :: FormatInt16 p.2) ∧
    (Trace.run ops).issued.length = issues ops ∧
    (issues ops < 2 ^ 63 →
      ((Trace.run ops).issued.map Prod.snd).Pairwise (fun a b => a < b)) := by
  have g := good_run ops hb
  refine ⟨?_, g.issued_key, g.issued_len, ?_⟩
  · have hn : ((Trace.run ops).issued.map Prod.snd).Nodup := by
      rw [g.issued_ctr]
      refine List.Nodup.map_on ?_ (List.nodup_range _)
      intro i hi j hj e
      have hi2 := List.mem_range.1 hi
      have hj2 := List.mem_range.1 hj
      have := counterAfter_inj (i + 1) (j + 1) (by omega) (by omega) (by omega) (by omega) e
      omega
    have hmem : ∀ p ∈ (Trace.run ops).issued, -(2 ^ 63) ≤ p.2 ∧ p.2 < 2 ^ 63 := by
      intro p hp
      have : p.2 ∈ (Trace.run ops).issued.map Prod.snd := List.mem_map.2 ⟨p, hp, rfl⟩
      rw [g.issued_ctr] at this
      obtain ⟨i, _, hi⟩ := List.mem_map.1 this
      rw [← hi]
      exact counterAfter_range _
    unfold List.Nodup at hn ⊢
    rw [List.pairwise_map] at hn ⊢
    refine hn.imp_of_mem ?_
    intro p q hp hq hne e
    have bp := hmem p hp
    have bq := hmem q hq
    have e2 : FormatInt16 p.2 = FormatInt16 q.2 := by
      rcases g.issued_key p hp with h1 | h1 <;> rcases g.issued_key q hq with h2 | h2 <;>
        rw [h1, h2] at e <;> simp at e <;> exact e
    exact hne (FormatInt16_inj_int64 p.2 q.2 (by omega) (by omega) (by omega) (by omega) e2)
  · intro hlt
    rw [g.issued_ctr, List.pairwise_map]
    refine (List.pairwise_lt_range _).imp_of_mem ?_
    intro i j hi hj hij
    have hi2 := List.mem_range.1 hi
    have hj2 := List.mem_range.1 hj
    rw [counterAfter_of_lt _ (by omega), counterAfter_of_lt _ (by omega)]
    omega

/-- The handles issued by `NewFile(7)`, `NewDir(9)`, `CloseHandle("f1")`, `NewFile(8)` are
`f1`, `d2`, `f3`: the closed `f1` is not issued again. -/
theorem issued_handles_differ_witness :
    issues [HOp.NewFile 7, HOp.NewDir 9, HOp.CloseHandle [102, 49], HOp.NewFile 8] ≤ 2 ^ 64 ∧
    (Trace.run [HOp.NewFile 7, HOp.NewDir 9, HOp.CloseHandle [102, 49], HOp.NewFile 8]).issued
      = [([102, 49], 1), ([100, 50], 2), ([102, 51], 3)] ∧
    ((Trace.run [HOp.NewFile 7, HOp.NewDir 9, HOp.CloseHandle [102, 49],
      HOp.NewFile 8]).issued.map Prod.fst).Nodup ∧
    ((Trace.run [HOp.NewFile 7, HOp.NewDir 9, HOp.CloseHandle [102, 49],
      HOp.NewFile 8]).issued.map Prod.snd).Pairwise (fun a b => a < b) :=
  ⟨by decide, by decide,
    (issued_handles_differ
      [HOp.NewFile 7, HOp.NewDir 9, HOp.CloseHandle [102, 49], HOp.NewFile 8]
      (by decide)).1,
    (issued_handles_differ
      [HOp.NewFile 7, HOp.NewDir 9, HOp.CloseHandle [102, 49], HOp.NewFile 8]
      (by decide)).2.2.2 (by decide)⟩

/-! ## C19: every registered object is closed once -/

/-- C19, the claim as stated fails on the code: in the session `NewFile(7)`, `2^64 - 1`
rounds of `NewDir` and `CloseHandle`, `NewFile(8)`, with `2^64 + 1` handles issued, the
second `NewFile` returns `f1` again and replaces the entry of the file 7; the file 7 was
registered, but neither a `CloseHandle` of the session nor the final `CloseAll` calls
`Close` on it. -/
theorem file_lost_after_wrap :
    Closed.file 7 ∈ (Trace.run (wrapOps ++ [HOp.NewFile 8])).registered ∧
    Closed.file 7 ∉ (Trace.run (wrapOps ++ [HOp.NewFile 8])).closed ++
      ((Trace.run (wrapOps ++ [HOp.NewFile 8])).h.CloseAll).2 := by
  obtain ⟨iss2, dc2, e⟩ := wrap_then_NewFile (2 ^ 64 - 1) _ wrap_count
  have k3 : incInt64 0 = 1 := by decide
  have k4 : FormatInt16 1 = [49] := by decide
  have k5 : mapSet [([102, 49], 7)] [102, 49] 8 = [([102, 49], 8)] := by decide
  rw [k3, k4, k5] at e
  unfold wrapOps
  rw [e]
  refine ⟨List.mem_cons_self _ _, ?_⟩
  intro h
  rcases List.mem_append.1 h with h1 | h1
  · have := List.eq_of_mem_replicate h1
    cases this
  · simp [Handles.CloseAll] at h1

/-- C19, amended: for every sequence of `NewFile`, `NewDir` and `CloseHandle` calls after
`Init` in which at most `2^64` handles are issued, followed by one `CloseAll`: the objects
on which `Close` is called, by the `CloseHandle` calls and then by `CloseAll`, are the
registered objects, each as often as it was registered (a permutation). -/
theorem every_object_closed_once (ops : List HOp) (hb : issues ops ≤ 2 ^ 64) :
    ((Trace.run ops).closed ++ ((Trace.run ops).h.CloseAll).2).Perm
      (Trace.run ops).registered :=
  (good_run ops hb).closes

/-- The session `NewFile(7)`, `NewDir(9)`, `CloseHandle("f1")`, `NewFile(8)`, `CloseAll`:
the file 7 is closed by `CloseHandle`, the file 8 and the directory 9 by `CloseAll`. -/
theorem every_object_closed_once_witness :
    issues [HOp.NewFile 7, HOp.NewDir 9, HOp.CloseHandle [102, 49], HOp.NewFile 8] ≤ 2 ^ 64 ∧
    (Trace.run [HOp.NewFile 7, HOp.NewDir 9, HOp.CloseHandle [102, 49], HOp.NewFile 8]).closed
      = [Closed.file 7] ∧
    ((Trace.run [HOp.NewFile 7, HOp.NewDir 9, HOp.CloseHandle [102, 49],
      HOp.NewFile 8]).h.CloseAll).2 = [Closed.file 8, Closed.dir 9] ∧
    ((Trace.run [HOp.NewFile 7, HOp.NewDir 9, HOp.CloseHandle [102, 49], HOp.NewFile 8]).closed
      ++ ((Trace.run [HOp.NewFile 7, HOp.NewDir 9, HOp.CloseHandle [102, 49],
        HOp.NewFile 8]).h.CloseAll).2).Perm
      (Trace.run [HOp.NewFile 7, HOp.NewDir 9, HOp.CloseHandle [102, 49],
        HOp.NewFile 8]).registered :=
  ⟨by decide, by decide, by decide,
    every_object_closed_once
      [HOp.NewFile 7, HOp.NewDir 9, HOp.CloseHandle [102, 49], HOp.NewFile 8] (by decide)⟩

end Sftpd

namespace Sftpd

variable {σ : Type}

/-! ## C11: READ at the end of the file -/

theorem parse_readPayload (I off len : Nat) (handle : List Nat) (d : Nat) (hI : I < 2 ^ 32)
    (hh : handle.length < 2 ^ 32) (ho : off < 2 ^ 64) (hl : len < 2 ^ 32) :
    (NewParser (readPayload I handle off len)).B32 d
        = ({ rest := be32 handle.length ++ (handle ++ (be64 off ++ be32 len)), ok := true }, I) ∧
    Parser.B32String (Parser.mk (be32 handle.length ++ (handle ++ (be64 off ++ be32 len))) true)
        [] = ({ rest := be64 off ++ be32 len, ok := true }, handle) ∧
    Parser.B64 { rest := be64 off ++ be32 len, ok := true } 0
        = ({ rest := be32 len, ok := true }, off) ∧
    Parser.B32 { rest := be32 len, ok := true } 0 = ({ rest := [], ok := true }, len) := by
  refine ⟨B32_be32 I _ d hI, B32String_str handle _ [] hh, B64_be64 off _ 0 ho, ?_⟩
  have := B32_be32 len [] 0 hl
  rwa [List.append_nil] at this

theorem caseREAD_known (env : Env σ) (s : State σ) (I off len f : Nat) (handle : List Nat)
    (hI : I < 2 ^ 32) (hh : handle.length < 2 ^ 32) (ho : off < 2 ^ 64) (hl : len < 2 ^ 32)
    (hopen : s.h.GetFile handle = some f) :
    dispatch env s SSH_FXP_READ (readPayload I handle off len) =
      (let length := if len > 64 * 1024 then 64 * 1024 else len
       let rd := env.fs.ReadAt s.fs f length (toInt64 off)
       let bs := rd.2.1.take length
       let s1 : State σ :=
         { s with
           id := I
           e := none
           fs := rd.1
           calls := s.calls ++ [Call.ReadAt f length (toInt64 off)] }
       let e := if rd.2.2 = some GoError.EOF ∧ bs.length > 0 then none else rd.2.2
       let s2 : State σ := { s1 with e := e }
       if e ≠ none then .next s2
       else
         let w := wrc env s2 (dataHeader I bs.length)
         if w.2 = none then finish { (wrc env w.1 bs).1 with e := (wrc env w.1 bs).2 }
         else finish { w.1 with e := w.2 }) := by
  obtain ⟨p1, p2, p3, p4⟩ := parse_readPayload I off len handle s.id hI hh ho hl
  show caseREAD env s (NewParser (readPayload I handle off len)) = _
  unfold caseREAD
  simp only [p1, p2, p3, p4, Parser.End, hopen]
  simp

end Sftpd

namespace Sftpd

variable {σ : Type}

/-- C11. A READ request (id `I`, handle, offset, length) on an open file handle whose
`ReadAt` returns `io.EOF`. With no byte read, the round of the request writes nothing,
keeps the handle table and ends with `e == io.EOF`; the head of the next round then
writes exactly one packet, STATUS EOF with the id `I` (the 21 bytes made of the length
17, the type byte STATUS, the id, the code EOF as a `uint32` and two empty strings),
keeps the table, and, when that write succeeds, goes on to read the next request with
`e == nil`. With `n > 0` bytes read, the round writes the DATA header for `I` and `n`
(the length `9 + n`, the type byte DATA, the id and `n`) and then the `n` bytes, keeps
the table, and continues with `e == nil` when both writes succeed. -/
theorem read_at_eof (env : Env σ) (s : State σ) (I off len f : Nat) (handle data : List Nat)
    (fs2 : σ) (hI : I < 2 ^ 32) (hh : handle.length < 2 ^ 32) (ho : off < 2 ^ 64)
    (hl : len < 2 ^ 32) (hopen : s.h.GetFile handle = some f)
    (hread : env.fs.ReadAt s.fs f (if len > 64 * 1024 then 64 * 1024 else len) (toInt64 off)
      = (fs2, (data, some GoError.EOF))) :
    (data.take (if len > 64 * 1024 then 64 * 1024 else len) = [] →
      ∃ t, dispatch env s SSH_FXP_READ (readPayload I handle off len) = .next t ∧
        t.c = s.c ∧ t.h = s.h ∧ t.id = I ∧ t.e = some GoError.EOF ∧
        (loopHead env t).state.c.writes
          = s.c.writes ++
            [(be32 17 ++ (SSH_FXP_STATUS :: (be32 I ++ (be32 SSH_FX_EOF ++ (be32 0 ++ be32 0)))),
              env.werr s.c.writes.length)] ∧
        SSH_FXP_STATUS = 101 ∧ SSH_FX_EOF = 1 ∧
        (loopHead env t).state.h = s.h ∧
        (env.werr s.c.writes.length = none → ∃ u, loopHead env t = .next u ∧ u.e = none)) ∧
    (data.take (if len > 64 * 1024 then 64 * 1024 else len) ≠ [] →
      (dispatch env s SSH_FXP_READ (readPayload I handle off len)).state.c.writes
        = s.c.writes ++
          (be32 (9 + (data.take (if len > 64 * 1024 then 64 * 1024 else len)).length) ++
              (SSH_FXP_DATA :: (be32 I ++
                be32 (data.take (if len > 64 * 1024 then 64 * 1024 else len)).length)),
            env.werr s.c.writes.length) ::
          (if env.werr s.c.writes.length = none then
            [(data.take (if len > 64 * 1024 then 64 * 1024 else len),
              env.werr (s.c.writes.length + 1))]
          else []) ∧
      SSH_FXP_DATA = 103 ∧
      (dispatch env s SSH_FXP_READ (readPayload I handle off len)).state.h = s.h ∧
      (env.werr s.c.writes.length = none → env.werr (s.c.writes.length + 1) = none →
        ∃ t, dispatch env s SSH_FXP_READ (readPayload I handle off len) = .next t ∧
          t.e = none)) := by
  rw [caseREAD_known env s I off len f handle hI hh ho hl hopen]
  simp only [hread]
  have hb : statusPacket I SSH_FX_EOF
      = be32 17 ++ (SSH_FXP_STATUS :: (be32 I ++ (be32 SSH_FX_EOF ++ (be32 0 ++ be32 0)))) := by
    simp [statusPacket, be32, SSH_FX_EOF]
  rw [← hb]
  have hdr : ∀ n, be32 (9 + n) ++ (SSH_FXP_DATA :: (be32 I ++ be32 n)) = dataHeader I n := by
    intro n
    have e : 1 + 4 + 4 + n = 9 + n := by omega
    simp [dataHeader, Printer.Out, Printer.B32, Printer.Byte, Out, e, SSH_FXP_DATA]
  rw [hdr]
  constructor
  · intro h0
    simp only [h0, List.length_nil, gt_iff_lt, lt_self_iff_false, and_false, if_false, ne_eq,
      reduceCtorEq, not_false_eq_true, if_true]
    refine ⟨_, rfl, rfl, rfl, rfl, rfl, ?_, rfl, rfl, ?_, ?_⟩
    · simp only [loopHead, writeResponse, wrc, if_true]
      cases hw : env.werr s.c.writes.length <;> rfl
    · simp only [loopHead, writeResponse, wrc, if_true]
      cases hw : env.werr s.c.writes.length <;> rfl
    · intro hw
      simp only [loopHead, writeResponse, wrc, if_true, hw]
      exact ⟨_, rfl, rfl⟩
  · intro h0
    have hpos : (data.take (if len > 64 * 1024 then 64 * 1024 else len)).length > 0 :=
      List.length_pos.2 h0
    simp only [hpos, and_self, if_true, ne_eq, not_true_eq_false, if_false]
    cases hw1 : env.werr s.c.writes.length with
    | some e1 =>
      simp [wrc, finish, hw1, Step.state, SSH_FXP_DATA]
    | none =>
      cases hw2 : env.werr (s.c.writes.length + 1) with
      | some e2 => simp [wrc, finish, hw1, hw2, Step.state, SSH_FXP_DATA]
      | none => simp [wrc, finish, hw1, hw2, Step.state, SSH_FXP_DATA]

end Sftpd

namespace Sftpd

variable {σ : Type}

/-! ## C12: READDIR at the end of the directory -/

theorem mapKeys_mapSet_nodup (m : List (List Nat × Nat)) (k : List Nat) (v : Nat)
    (h : (mapKeys m).Nodup) : (mapKeys (mapSet m k v)).Nodup := by
  unfold mapSet
  simp only [mapKeys, List.map_append, List.map_cons, List.map_nil]
  rw [List.nodup_append]
  refine ⟨h.sublist (mapKeys_mapDelete_sublist m k), List.nodup_singleton _, ?_⟩
  intro a ha hb
  rw [List.mem_singleton] at hb
  subst hb
  have := (mapGet_eq_none (mapDelete m a) a).1 (mapGet_mapDelete_self m a)
  exact this ha

theorem mem_mapKeys_mapSet (m : List (List Nat × Nat)) (k j : List Nat) (v : Nat)
    (h : j ∈ mapKeys (mapSet m k v)) : j ∈ mapKeys m ∨ j = k := by
  unfold mapSet at h
  simp only [mapKeys, List.map_append, List.map_cons, List.map_nil, List.mem_append,
    List.mem_singleton] at h
  rcases h with h | h
  · exact Or.inl ((mapKeys_mapDelete_sublist m k).subset h)
  · exact Or.inr h

theorem wf_init : Handles.zero.Init.WF := by
  refine ⟨List.nodup_nil, List.nodup_nil, ?_, ?_⟩ <;> intro k h <;> cases h

theorem wf_NewFile (h : Handles) (x : Nat) (w : h.WF) : (h.NewFile x).1.WF := by
  refine ⟨mapKeys_mapSet_nodup _ _ _ w.1, w.2.1, ?_, w.2.2.2⟩
  intro k hk
  rcases mem_mapKeys_mapSet _ _ _ _ hk with h1 | h1
  · exact w.2.2.1 k h1
  · rw [h1]; rfl

theorem wf_NewDir (h : Handles) (x : Nat) (w : h.WF) : (h.NewDir x).1.WF := by
  refine ⟨w.1, mapKeys_mapSet_nodup _ _ _ w.2.1, w.2.2.1, ?_⟩
  intro k hk
  rcases mem_mapKeys_mapSet _ _ _ _ hk with h1 | h1
  · exact w.2.2.2 k h1
  · rw [h1]; rfl

theorem wf_CloseHandle (h : Handles) (k : List Nat) (w : h.WF) : (h.CloseHandle k).1.WF := by
  rcases CloseHandle_cases h k with e | ⟨x, _, _, e⟩ | ⟨x, _, _, e⟩
  · rw [e]; exact w
  · rw [e]
    exact ⟨w.1.sublist (mapKeys_mapDelete_sublist _ _), w.2.1,
      fun j hj => w.2.2.1 j ((mapKeys_mapDelete_sublist _ _).subset hj), w.2.2.2⟩
  · rw [e]
    exact ⟨w.1, w.2.1.sublist (mapKeys_mapDelete_sublist _ _), w.2.2.1,
      fun j hj => w.2.2.2 j ((mapKeys_mapDelete_sublist _ _).subset hj)⟩

theorem wf_run (ops : List HOp) : (Trace.run ops).h.WF := by
  induction ops using List.reverseRecOn with
  | nil => exact wf_init
  | append_singleton ops op ih =>
    rw [run_snoc]
    cases op with
    | NewFile x => exact wf_NewFile _ x ih
    | NewDir x => exact wf_NewDir _ x ih
    | CloseHandle k => exact wf_CloseHandle _ k ih

theorem mem_mapKeys_of_mapGet (m : List (List Nat × Nat)) (k : List Nat) (x : Nat)
    (h : mapGet m k = some x) : k ∈ mapKeys m :=
  List.mem_map.2 ⟨(k, x), mapGet_mem m k x h, rfl⟩

theorem CloseHandle_dir (h : Handles) (k : List Nat) (x : Nat) (w : h.WF)
    (hd : h.GetDir k = some x) :
    h.CloseHandle k = ({ h with d := mapDelete h.d k }, [Closed.dir x]) ∧
      (mapDelete h.d k).length + 1 = h.d.length := by
  have hk := w.2.2.2 k (mem_mapKeys_of_mapGet _ _ _ hd)
  refine ⟨?_, length_mapDelete _ _ _ w.2.1 hd⟩
  cases k with
  | nil => simp at hk
  | cons k0 ks =>
    simp only [List.head?_cons, Option.some.injEq] at hk
    subst hk
    unfold Handles.GetDir at hd
    simp [Handles.CloseHandle, hd]

theorem parse_readdirPayload (I : Nat) (handle : List Nat) (d : Nat) (hI : I < 2 ^ 32)
    (hh : handle.length < 2 ^ 32) :
    (NewParser (readdirPayload I handle)).B32 d
        = ({ rest := be32 handle.length ++ (handle ++ []), ok := true }, I) ∧
    Parser.B32String (Parser.mk (be32 handle.length ++ (handle ++ [])) true) []
        = ({ rest := [], ok := true }, handle) :=
  ⟨B32_be32 I _ d hI, B32String_str handle _ [] hh⟩

/-- C12. A READDIR request (id `I`, handle) on an open directory handle of a table
reached from `Init`, whose `Readdir` returns `io.EOF`: the round writes exactly one
packet, STATUS EOF with the id `I` (the 21 bytes made of the length 17, the type byte
STATUS, the id, the code EOF as a `uint32` and two empty strings; the outcome of the
write is ignored), calls `Close` on
the directory, removes the handle (`GetDir` is nil, `Ndir()` is one less, the files stay),
and ends with `e == nil`, so that the head of the next round writes nothing and the
session continues. -/
theorem readdir_at_eof (env : Env σ) (s : State σ) (ops : List HOp) (I d : Nat)
    (handle : List Nat) (ents : List NamedAttr) (fs2 : σ) (hI : I < 2 ^ 32)
    (hh : handle.length < 2 ^ 32) (hreach : s.h = (Trace.run ops).h)
    (hopen : s.h.GetDir handle = some d)
    (hread : env.fs.Readdir s.fs d 1024 = (fs2, (ents, some GoError.EOF))) :
    ∃ t, dispatch env s SSH_FXP_READDIR (readdirPayload I handle) = .next t ∧
      t.c.writes = s.c.writes ++
        [(be32 17 ++ (SSH_FXP_STATUS :: (be32 I ++ (be32 SSH_FX_EOF ++ (be32 0 ++ be32 0)))),
          env.werr s.c.writes.length)] ∧
      SSH_FXP_STATUS = 101 ∧ SSH_FX_EOF = 1 ∧
      t.calls = s.calls ++ [Call.Readdir d 1024, Call.DirClose d] ∧
      t.h.GetDir handle = none ∧ t.h.Ndir = s.h.Ndir - 1 ∧ t.h.f = s.h.f ∧ t.h.c = s.h.c ∧
      (∀ j, j ≠ handle → t.h.GetDir j = s.h.GetDir j) ∧
      t.e = none ∧ loopHead env t = .next t := by
  have w : s.h.WF := hreach ▸ wf_run ops
  obtain ⟨hc, hlen⟩ := CloseHandle_dir s.h handle d w hopen
  obtain ⟨p1, p2⟩ := parse_readdirPayload I handle s.id hI hh
  have hd : dispatch env s SSH_FXP_READDIR (readdirPayload I handle)
      = caseREADDIR env s (NewParser (readdirPayload I handle)) := rfl
  rw [hd]
  unfold caseREADDIR
  simp only [p1, p2, Parser.End, hopen, hread]
  simp only [and_self, if_true, ne_eq, not_true_eq_false, if_false, closeHandle, writeResponse,
    wrc, hc, closeObjects]
  have hb : statusPacket I SSH_FX_EOF
      = be32 17 ++ (SSH_FXP_STATUS :: (be32 I ++ (be32 SSH_FX_EOF ++ (be32 0 ++ be32 0)))) := by
    simp [statusPacket, be32, SSH_FX_EOF]
  rw [← hb]
  refine ⟨_, rfl, rfl, rfl, rfl, ?_, ?_, ?_, rfl, rfl, ?_, rfl, ?_⟩
  · simp
  · exact mapGet_mapDelete_self _ _
  · simp only [Handles.Ndir]; omega
  · intro j hj
    exact mapGet_mapDelete_other _ _ _ hj
  · simp [loopHead]

end Sftpd

namespace Sftpd

variable {σ : Type}

theorem nameEntry_attrBytes (env : Env σ) (o : Printer) (fi : NamedAttr) (n : List Nat)
    (hn : utf8ToGb18030 env.codec fi.Name = some n)
    (hx : fi.Flags &&& SSH_FILEXFER_ATTR_EXTENDED = 0) :
    nameEntry env o fi = some (Printer.mk (o.w ++ (be32 n.length ++ n) ++
      (be32 (env.longName fi env.sysType).length ++ env.longName fi env.sysType) ++
      attrBytes fi.toAttr)) := by
  rw [attrBytes_eq]
  unfold nameEntry attrFields
  simp only [hn, hx, ATTR_SIZE, ATTR_UIDGID, ATTR_MODE, ATTR_TIME]
  by_cases h1 : fi.Flags &&& SSH_FILEXFER_ATTR_SIZE = 0 <;>
    by_cases h2 : fi.Flags &&& SSH_FILEXFER_ATTR_UIDGID = 0 <;>
    by_cases h3 : fi.Flags &&& SSH_FILEXFER_ATTR_PERMISSIONS = 0 <;>
    by_cases h4 : fi.Flags &&& SSH_FILEXFER_ATTR_ACMODTIME = 0 <;>
    simp [h1, h2, h3, h4, Printer.B32String, Printer.B32, Printer.B64, outTimes]

end Sftpd

namespace Sftpd

/-- The READ requests of the example session on the file `f1`: at offset 11 the backend
reads no byte and reports `io.EOF`, and STATUS EOF for the id 5 is written at the head of
the next round; at offset 0 it reads the two bytes of `hi` with `io.EOF`, and the reply is
the DATA header for the id 5 and 2 bytes, followed by the bytes. -/
theorem read_at_eof_witness :
    (∃ t, dispatch (exampleEnv ([], none)) openState SSH_FXP_READ
          (readPayload 5 [102, 49] 11 4096) = .next t ∧
        t.c = openState.c ∧ t.h = openState.h ∧ t.id = 5 ∧ t.e = some GoError.EOF ∧
        (loopHead (exampleEnv ([], none)) t).state.c.writes
          = openState.c.writes ++
            [(be32 17 ++ (SSH_FXP_STATUS :: (be32 5 ++ (be32 SSH_FX_EOF ++ (be32 0 ++ be32 0)))),
              (exampleEnv ([], none)).werr openState.c.writes.length)] ∧
        SSH_FXP_STATUS = 101 ∧ SSH_FX_EOF = 1 ∧
        (loopHead (exampleEnv ([], none)) t).state.h = openState.h ∧
        ((exampleEnv ([], none)).werr openState.c.writes.length = none →
          ∃ u, loopHead (exampleEnv ([], none)) t = .next u ∧ u.e = none)) ∧
    (dispatch (exampleEnv ([], none)) openState SSH_FXP_READ
        (readPayload 5 [102, 49] 0 4096)).state.c.writes
      = [([0, 0, 0, 11, 103, 0, 0, 0, 5, 0, 0, 0, 2], none), ([104, 105], none)] :=
  ⟨(read_at_eof (exampleEnv ([], none)) openState 5 11 4096 7 [102, 49] [] ()
      (by decide) (by decide) (by decide) (by decide) (by decide) (by decide)).1 (by decide),
    ((read_at_eof (exampleEnv ([], none)) openState 5 0 4096 7 [102, 49] [104, 105] ()
      (by decide) (by decide) (by decide) (by decide) (by decide) (by decide)).2
        (by decide)).1⟩

/-- The READDIR request with id 6 on the directory `d2` of the example session, at the
end of the directory: STATUS EOF for the id 6, `Close` on the directory 9, and `d2` is no
longer a handle. -/
theorem readdir_at_eof_witness :
    ∃ t, dispatch (exampleEnv ([], some GoError.EOF)) openState SSH_FXP_READDIR
        (readdirPayload 6 [100, 50]) = .next t ∧
      t.c.writes = openState.c.writes ++
        [(be32 17 ++ (SSH_FXP_STATUS :: (be32 6 ++ (be32 SSH_FX_EOF ++ (be32 0 ++ be32 0)))),
          (exampleEnv ([], some GoError.EOF)).werr openState.c.writes.length)] ∧
      SSH_FXP_STATUS = 101 ∧ SSH_FX_EOF = 1 ∧
      t.calls = openState.calls ++ [Call.Readdir 9 1024, Call.DirClose 9] ∧
      t.h.GetDir [100, 50] = none ∧ t.h.Ndir = openState.h.Ndir - 1 ∧
      t.h.f = openState.h.f ∧ t.h.c = openState.h.c ∧
      (∀ j, j ≠ [100, 50] → t.h.GetDir j = openState.h.GetDir j) ∧
      t.e = none ∧ loopHead (exampleEnv ([], some GoError.EOF)) t = .next t :=
  readdir_at_eof (exampleEnv ([], some GoError.EOF)) openState [HOp.NewFile 7, HOp.NewDir 9]
    6 9 [100, 50] [] () (by decide) (by decide) (by decide) (by decide) rfl

/-! ## C13: the attributes of a NAME record -/

/-- C13. The claim fails on the code: for the directory entry `a` whose flags announce
extended attributes (the pair `k`, `v`), the record in the NAME packet ends with the
flags word `80 00 00 00`, while `writeAttr` emits for the same `Attr` the flags word
followed by the count 1 and the two strings. The READDIR reply of the session with this
entry is the 26-byte NAME packet shown, without the extended fields its flags announce. -/
theorem readdir_drops_extended :
    (nameEntry (exampleEnv ([extendedEntry], none)) Out extendedEntry).map
        (fun o => (o.w.take 9, o.w.drop 9))
      = some ([0, 0, 0, 1, 97, 0, 0, 0, 0], [128, 0, 0, 0]) ∧
    attrBytes extendedEntry.toAttr
      = [128, 0, 0, 0, 0, 0, 0, 1, 0, 0, 0, 1, 107, 0, 0, 0, 1, 118] ∧
    (dispatch (exampleEnv ([extendedEntry], none)) openState SSH_FXP_READDIR
        (readdirPayload 6 [100, 50])).state.c.writes
      = [([0, 0, 0, 22, 104, 0, 0, 0, 6, 0, 0, 0, 1, 0, 0, 0, 1, 97, 0, 0, 0, 0,
          128, 0, 0, 0], none)] := by
  decide

/-! ## C16: the handle is the prefix and the counter in hexadecimal -/

/-- C16, amended: on a handle table whose counter `c` is an `int64` other than the largest
one, `2^63 - 1`, `NewFile` returns `f` followed by the lower-case hexadecimal rendering of
`c + 1`, `NewDir` returns `d` followed by it, and either call leaves the counter at
`c + 1`; the first handle after `Init` is `f1` (or `d1`), and the session of an OPEN (id 9)
followed by an OPENDIR (id 10) replies with the handles `f1` and `d2`. -/
theorem NewFile_handle_is_hex (h : Handles) (x : Nat) (h1 : -(2 ^ 63) ≤ h.c)
    (h2 : h.c < 2 ^ 63 - 1) :
    (h.NewFile x).2 = 102 :: hexRendering (h.c + 1) ∧
    (h.NewDir x).2 = 100 :: hexRendering (h.c + 1) ∧
    (h.NewFile x).1.c = h.c + 1 ∧ (h.NewDir x).1.c = h.c + 1 ∧
    (Handles.zero.Init.NewFile x).2 = [102, 49] ∧
    (Handles.zero.Init.NewDir x).2 = [100, 49] ∧
    (ServeChannel (exampleEnv ([], none)) 3
        ([0, 0, 0, 18, 3, 0, 0, 0, 9, 0, 0, 0, 1, 65, 0, 0, 0, 1, 0, 0, 0, 0] ++
          [0, 0, 0, 10, 11, 0, 0, 0, 10, 0, 0, 0, 1, 65]) ()).map
      (fun r => r.state.c.writes.map Prod.fst)
      = some [handlePacket 9 [102, 49], handlePacket 10 [100, 50]] := by
  have hc := incInt64_of_lt h.c h2
  have hr := FormatInt16_eq_hexRendering (h.c + 1) (by omega) (by omega)
  refine ⟨?_, ?_, ?_, ?_, rfl, rfl, by decide⟩
  · simp only [Handles.NewFile, hc, hr]
  · simp only [Handles.NewDir, hc, hr]
  · simp only [Handles.NewFile, hc]
  · simp only [Handles.NewDir, hc]

/-- The handles on the table after 254 issues: `fff` and `dff`. -/
theorem NewFile_handle_is_hex_witness :
    (-(2 ^ 63) : Int) ≤ ({ f := [], d := [], c := 254 } : Handles).c ∧
    (({ f := [], d := [], c := 254 } : Handles).NewFile 0).2
      = 102 :: hexRendering (({ f := [], d := [], c := 254 } : Handles).c + 1) ∧
    hexRendering (254 + 1) = [102, 102] :=
  ⟨by decide,
    (NewFile_handle_is_hex { f := [], d := [], c := 254 } 0 (by decide) (by decide)).1,
    by decide⟩

/-! ## C18: `CloseAll` -/

/-- C18, counterexample. `CloseAll` calls `Close` on every object and sets the counter
to 0, but leaves both maps as they were. On the table with the file 7 under
`f1` and the directory 9 under `d2`, after `CloseAll` `GetFile("f1")` is still the file 7,
`GetDir("d2")` is still the directory 9, and `Nfiles()` and `Ndir()` are still 1. -/
theorem CloseAll_keeps_entries :
    (∀ h : Handles, (h.CloseAll).1 = { h with c := 0 }) ∧
    (((Handles.zero.Init.NewFile 7).1.NewDir 9).1.CloseAll).2 = [Closed.file 7, Closed.dir 9] ∧
    (((Handles.zero.Init.NewFile 7).1.NewDir 9).1.CloseAll).1.GetFile [102, 49] = some 7 ∧
    (((Handles.zero.Init.NewFile 7).1.NewDir 9).1.CloseAll).1.GetDir [100, 50] = some 9 ∧
    (((Handles.zero.Init.NewFile 7).1.NewDir 9).1.CloseAll).1.Nfiles = 1 ∧
    (((Handles.zero.Init.NewFile 7).1.NewDir 9).1.CloseAll).1.Ndir = 1 ∧
    (((Handles.zero.Init.NewFile 7).1.NewDir 9).1.CloseAll).1.c = 0 :=
  ⟨fun _ => rfl, by decide, by decide, by decide, by decide, by decide, by decide⟩

variable {σ : Type}

theorem mapGet_of_mem (m : List (List Nat × Nat)) (k : List Nat) (x : Nat)
    (hn : (mapKeys m).Nodup) (h : (k, x) ∈ m) : mapGet m k = some x := by
  induction m with
  | nil => cases h
  | cons kv m ih =>
    simp only [mapKeys, List.map_cons, List.nodup_cons] at hn
    rcases List.mem_cons.1 h with h1 | h1
    · subst h1
      simp [mapGet, List.find?]
    · have hne : kv.1 ≠ k := by
        intro e
        apply hn.1
        rw [e]
        exact List.mem_map.2 ⟨(k, x), h1, rfl⟩
      have := ih hn.2 h1
      unfold mapGet at this ⊢
      simp only [List.find?, hne, decide_False]
      exact this

theorem closeObjects_h (env : Env σ) (s : State σ) (l : List Closed) :
    (closeObjects env s l).h = s.h := by
  induction l generalizing s with
  | nil => rfl
  | cons x rest ih => cases x <;> simp [closeObjects, ih]

theorem loop_not_next (env : Env σ) (fuel : Nat) (s t : State σ) :
    loop env fuel s ≠ some (.next t) := by
  induction fuel generalizing s with
  | zero => intro h; cases h
  | succ n ih =>
    unfold loop
    cases hi : iter env s with
    | next s1 => exact ih s1
    | ret s1 e => intro h; cases h
    | panic s1 => intro h; cases h

/-- C18, amended: on a table reached from `Init` by `NewFile`, `NewDir` and `CloseHandle`
calls, `CloseAll` calls `Close` once for every entry: the objects closed are exactly the
files that `GetFile` returns for some handle and the directories that `GetDir` returns
for some handle, `Nfiles() + Ndir()` calls in all; it resets the counter to 0; and it
leaves the entries where they are, so that `GetFile`, `GetDir`, `Nfiles` and `Ndir` answer
as before. In `ServeChannel` the deferred `CloseAll` is the end of the session: the
result is a return or a panic, never a further round, in a state whose table has the
counter 0 and whose channel is closed. -/
theorem CloseAll_closes_and_resets (env : Env σ) (ops : List HOp) (h : Handles)
    (hreach : h = (Trace.run ops).h) :
    (h.CloseAll).1.c = 0 ∧
    (∀ x, Closed.file x ∈ (h.CloseAll).2 ↔ ∃ k, h.GetFile k = some x) ∧
    (∀ x, Closed.dir x ∈ (h.CloseAll).2 ↔ ∃ k, h.GetDir k = some x) ∧
    (((h.CloseAll).2.length : Nat) : Int) = h.Nfiles + h.Ndir ∧
    (∀ k, (h.CloseAll).1.GetFile k = h.GetFile k) ∧
    (∀ k, (h.CloseAll).1.GetDir k = h.GetDir k) ∧
    (h.CloseAll).1.Nfiles = h.Nfiles ∧ (h.CloseAll).1.Ndir = h.Ndir ∧
    (∀ fuel input fs r, ServeChannel env fuel input fs = some r →
      (∀ t, r ≠ .next t) ∧ r.state.h.c = 0 ∧ r.state.c.closed = true) := by
  have w : h.WF := hreach ▸ wf_run ops
  refine ⟨rfl, ?_, ?_, ?_, fun _ => rfl, fun _ => rfl, rfl, rfl, ?_⟩
  · intro x
    simp only [Handles.CloseAll, List.mem_append, List.mem_map, Closed.file.injEq,
      reduceCtorEq, and_false, exists_false, or_false, Handles.GetFile]
    constructor
    · rintro ⟨kv, hkv, rfl⟩
      exact ⟨kv.1, mapGet_of_mem _ _ _ w.1 hkv⟩
    · rintro ⟨k, hk⟩
      exact ⟨(k, x), mapGet_mem _ _ _ hk, rfl⟩
  · intro x
    simp only [Handles.CloseAll, List.mem_append, List.mem_map, Closed.dir.injEq,
      reduceCtorEq, and_false, exists_false, false_or, Handles.GetDir]
    constructor
    · rintro ⟨kv, hkv, rfl⟩
      exact ⟨kv.1, mapGet_of_mem _ _ _ w.2.1 hkv⟩
    · rintro ⟨k, hk⟩
      exact ⟨(k, x), mapGet_mem _ _ _ hk, rfl⟩
  · simp [Handles.CloseAll, Handles.Nfiles, Handles.Ndir]
  · intro fuel input fs r hr
    unfold ServeChannel at hr
    cases hl : loop env fuel (initState input fs) with
    | none => rw [hl] at hr; cases hr
    | some r1 =>
      rw [hl] at hr
      cases r1 with
      | next s1 => exact absurd hl (loop_not_next env fuel _ s1)
      | ret s1 e =>
        simp only [Option.some.injEq] at hr
        subst hr
        refine ⟨fun t ht => (by cases ht), ?_, ?_⟩
        · simp only [state_ret, deferred, closeObjects_h]
          rfl
        · simp [deferred]
      | panic s1 =>
        simp only [Option.some.injEq] at hr
        subst hr
        refine ⟨fun t ht => (by cases ht), ?_, ?_⟩
        · simp only [state_panic, deferred, closeObjects_h]
          rfl
        · simp [deferred]

/-- The table with the file 7 under `f1` and the directory 9 under `d2`: `CloseAll` closes
the file 7, which `GetFile("f1")` returns before and after, and resets the counter; the
session on the empty input ends with the channel closed. -/
theorem CloseAll_closes_and_resets_witness :
    ((Trace.run [HOp.NewFile 7, HOp.NewDir 9]).h.CloseAll).1.c = 0 ∧
    (Closed.file 7 ∈ ((Trace.run [HOp.NewFile 7, HOp.NewDir 9]).h.CloseAll).2 ↔
      ∃ k, (Trace.run [HOp.NewFile 7, HOp.NewDir 9]).h.GetFile k = some 7) ∧
    ((Trace.run [HOp.NewFile 7, HOp.NewDir 9]).h.CloseAll).1.GetFile [102, 49]
      = (Trace.run [HOp.NewFile 7, HOp.NewDir 9]).h.GetFile [102, 49] ∧
    (Trace.run [HOp.NewFile 7, HOp.NewDir 9]).h.GetFile [102, 49] = some 7 ∧
    (∀ r, ServeChannel (emptyEnv (fun _ => none)) 1 [] () = some r →
      (∀ t, r ≠ .next t) ∧ r.state.h.c = 0 ∧ r.state.c.closed = true) :=
  ⟨(CloseAll_closes_and_resets (emptyEnv (fun _ => none)) [HOp.NewFile 7, HOp.NewDir 9] _
      rfl).1,
    (CloseAll_closes_and_resets (emptyEnv (fun _ => none)) [HOp.NewFile 7, HOp.NewDir 9] _
      rfl).2.1 7,
    (CloseAll_closes_and_resets (emptyEnv (fun _ => none)) [HOp.NewFile 7, HOp.NewDir 9] _
      rfl).2.2.2.2.1 [102, 49],
    by decide,
    (CloseAll_closes_and_resets (emptyEnv (fun _ => none)) [HOp.NewFile 7, HOp.NewDir 9] _
      rfl).2.2.2.2.2.2.2.2 1 [] ()⟩

end Sftpd

namespace Sftpd

/-! ## C24: `RealPath` -/

/-- C24. `RealPath` of the three backends (`EmptyFS` through `simpleRealPath`, `LocalFs`,
`sftpFs`) never returns an error; for every path it returns `/` when the path is empty
or `.`, and `path.Clean` of the path otherwise; the three results are the same. -/
theorem RealPath_agree (clean : List Nat → List Nat) (p : List Nat) :
    ((EmptyFS clean).RealPath () p).2.2 = none ∧
    (LocalFs.RealPath clean p).2 = none ∧ (sftpFs.RealPath clean p).2 = none ∧
    ((EmptyFS clean).RealPath () []).2.1 = [47] ∧ ((EmptyFS clean).RealPath () [46]).2.1 = [47] ∧
    (p ≠ [] → p ≠ [46] → ((EmptyFS clean).RealPath () p).2.1 = clean p) ∧
    (LocalFs.RealPath clean p).1 = ((EmptyFS clean).RealPath () p).2.1 ∧
    (sftpFs.RealPath clean p).1 = ((EmptyFS clean).RealPath () p).2.1 := by
  refine ⟨rfl, rfl, rfl, rfl, rfl, ?_, rfl, rfl⟩
  intro h1 h2
  simp [EmptyFS, simpleRealPath, h1, h2]

/-- The path `/a/../b` with a cleaner that answers `/b`: every backend returns `/b`. -/
theorem RealPath_agree_witness :
    ((EmptyFS (fun _ => [47, 98])).RealPath () [47, 97, 47, 46, 46, 47, 98]).2.1 = [47, 98] ∧
    (LocalFs.RealPath (fun _ => [47, 98]) [47, 97, 47, 46, 46, 47, 98]).1
      = ((EmptyFS (fun _ => [47, 98])).RealPath () [47, 97, 47, 46, 46, 47, 98]).2.1 :=
  ⟨by
    have h := (RealPath_agree (fun _ => [47, 98]) [47, 97, 47, 46, 46, 47, 98]).2.2.2.2.2.1
      (by decide) (by decide)
    exact h,
   (RealPath_agree (fun _ => [47, 98]) [47, 97, 47, 46, 46, 47, 98]).2.2.2.2.2.2.1⟩

/-! ## C25: the mode string -/

theorem low_and_of_perm (x b : Nat) (hx : x &&& ModePerm = 0) (hb : b &&& ModePerm = b) :
    x &&& b = 0 := by
  rw [← hb, ← Nat.and_assoc, Nat.and_comm x b, Nat.and_assoc, hx, Nat.and_zero]

theorem closedMode_low (t p b : Nat) (su sg st : Bool) (ht : t ∈ typeClasses)
    (hb : b &&& ModePerm = b) : closedMode t p su sg st &&& b = p &&& b := by
  have h1 := (closed_hi_facts t ht su sg st).1
  have hre : closedMode t p su sg st = (t ||| specialBits su sg st) ||| p := by
    unfold closedMode; ac_rfl
  rw [hre, Nat.and_distrib_right, low_and_of_perm _ b h1 hb, Nat.zero_or]

theorem closedMode_high (t p M : Nat) (su sg st : Bool) (hM : HighMask M) (hp : p < 512) :
    closedMode t p su sg st &&& M = (t ||| specialBits su sg st) &&& M := by
  have hre : closedMode t p su sg st = (t ||| specialBits su sg st) ||| p := by
    unfold closedMode; ac_rfl
  rw [hre, highMask_and hM _ hp]

theorem closed_type_facts :
    ∀ t ∈ typeClasses, ∀ su sg st : Bool,
      (if (t ||| specialBits su sg st) &&& ModeDir ≠ 0 then 100
        else if (t ||| specialBits su sg st) &&& ModeDevice ≠ 0 then
          (if (t ||| specialBits su sg st) &&& ModeCharDevice ≠ 0 then 99 else 98)
        else if (t ||| specialBits su sg st) &&& ModeSymlink ≠ 0 then 108
        else if (t ||| specialBits su sg st) &&& ModeSocket ≠ 0 then 115
        else if (t ||| specialBits su sg st) &&& ModeNamedPipe ≠ 0 then 112
        else 45) = typeChar t ∧
      decide ((t ||| specialBits su sg st) &&& ModeSetuid ≠ 0) = su ∧
      decide ((t ||| specialBits su sg st) &&& ModeSetgid ≠ 0) = sg ∧
      decide ((t ||| specialBits su sg st) &&& ModeSticky ≠ 0) = st := by
  decide!

/-- C25. For every mode of the closed set (one type class, permission bits within
`0o777`, any of setuid, setgid, sticky) `runLsTypeWord` returns exactly 10 characters:
the type character `d`, `l`, `b`, `c`, `s`, `p` or `-` of the type class, then for owner,
group and others `r` or `-`, `w` or `-`, and the execute character, which is `s` (`t` for
others) for execute with setuid, setgid or sticky, `S` (`T`) for the special bit alone,
`x` for execute alone and `-` for neither. A regular file with mode `0o755` and sticky
renders as `-rwxr-xr-t`. -/
theorem runLsTypeWord_closed (t p : Nat) (su sg st : Bool) (ht : t ∈ typeClasses)
    (hp : p &&& 0o777 = p) :
    runLsTypeWord (closedMode t p su sg st) = lsWord t p su sg st ∧
    (runLsTypeWord (closedMode t p su sg st)).length = 10 ∧
    runLsTypeWord (closedMode 0 0o755 false false true)
      = [45, 114, 119, 120, 114, 45, 120, 114, 45, 116] := by
  have hp512 : p < 512 := by
    have := Nat.and_lt_two_pow p (show 0o777 < 2 ^ 9 by decide)
    omega
  obtain ⟨f1, f2, f3, f4⟩ := closed_type_facts t ht su sg st
  refine ⟨?_, rfl, by decide⟩
  unfold runLsTypeWord lsWord permChar execChar
  simp only [closedMode_high t p _ su sg st hm_ModeDir hp512,
    closedMode_high t p _ su sg st hm_ModeDevice hp512,
    closedMode_high t p _ su sg st hm_ModeCharDevice hp512,
    closedMode_high t p _ su sg st hm_ModeSymlink hp512,
    closedMode_high t p _ su sg st hm_ModeSocket hp512,
    closedMode_high t p _ su sg st hm_ModeNamedPipe hp512,
    closedMode_high t p _ su sg st hm_ModeSetuid hp512,
    closedMode_high t p _ su sg st hm_ModeSetgid hp512,
    closedMode_high t p _ su sg st hm_ModeSticky hp512,
    closedMode_low t p 0o400 su sg st ht (by decide),
    closedMode_low t p 0o200 su sg st ht (by decide),
    closedMode_low t p 0o100 su sg st ht (by decide),
    closedMode_low t p 0o40 su sg st ht (by decide),
    closedMode_low t p 0o20 su sg st ht (by decide),
    closedMode_low t p 0o10 su sg st ht (by decide),
    closedMode_low t p 0o4 su sg st ht (by decide),
    closedMode_low t p 0o2 su sg st ht (by decide),
    closedMode_low t p 0o1 su sg st ht (by decide), f1, f2, f3, f4]
  cases su <;> cases sg <;> cases st <;>
    by_cases h1 : p &&& 0o100 = 0 <;> by_cases h2 : p &&& 0o10 = 0 <;>
    by_cases h3 : p &&& 0o1 = 0 <;> simp [h1, h2, h3]

/-- The mode string of a directory with mode `0o750` and setgid: `drwxr-s---`. -/
theorem runLsTypeWord_closed_witness :
    ModeDir ∈ typeClasses ∧ 0o750 &&& 0o777 = 0o750 ∧
    runLsTypeWord (closedMode ModeDir 0o750 false true false)
      = lsWord ModeDir 0o750 false true false ∧
    lsWord ModeDir 0o750 false true false = [100, 114, 119, 120, 114, 45, 115, 45, 45, 45] :=
  ⟨by decide, by decide,
    (runLsTypeWord_closed ModeDir 0o750 false true false (by decide) (by decide)).1,
    by decide⟩

end Sftpd

namespace Sftpd

/-! ## C26: the round trip from the wire word -/

theorem wire_hi_facts :
    ∀ k < 128, (512 * k) &&& S_IFMT ∈ [S_IFREG, S_IFDIR, S_IFLNK, S_IFCHR, S_IFBLK, S_IFIFO,
        S_IFSOCK] →
      sftpToFileMode (512 * k) &&& ModePerm = 0 ∧
      fileModeToSftp (sftpToFileMode (512 * k)) = 512 * k := by
  decide!

theorem wire_split (u : Nat) (hbits : u &&& (S_IFMT ||| 0o7777) = u) :
    u = (u &&& 0xFE00) ||| (u &&& 0o777) ∧ (u &&& 0xFE00) &&& 0o777 = 0 ∧
      u &&& 0o777 < 512 ∧ (u &&& 0xFE00) &&& S_IFMT = u &&& S_IFMT ∧
      ∃ k, k < 128 ∧ u &&& 0xFE00 = 512 * k := by
  have e1 : (S_IFMT ||| 0o7777 : Nat) = 0xFE00 ||| 0o777 := by decide
  have e2 : (0xFE00 &&& 0o777 : Nat) = 0 := by decide
  have e3 : (0xFE00 &&& S_IFMT : Nat) = S_IFMT := by decide
  have e4 : (0xFE00 &&& (2 ^ 9 - 1) : Nat) = 0 := by decide
  refine ⟨?_, ?_, ?_, ?_, ?_⟩
  · rw [Nat.and_comm u 0xFE00, Nat.and_comm u 0o777, ← Nat.and_distrib_right, ← e1,
      Nat.and_comm, hbits]
  · rw [Nat.and_assoc, e2, Nat.and_zero]
  · exact Nat.and_lt_two_pow u (show 0o777 < 2 ^ 9 by decide)
  · rw [Nat.and_assoc, e3]
  · have h1 : (u &&& 0xFE00) % 512 = 0 := by
      have := Nat.and_pow_two_sub_one_eq_mod (u &&& 0xFE00) 9
      have h0 : (u &&& 0xFE00) &&& (2 ^ 9 - 1) = 0 := by rw [Nat.and_assoc, e4, Nat.and_zero]
      omega
    have h2 : u &&& 0xFE00 ≤ 0xFE00 := Nat.and_le_right
    exact ⟨(u &&& 0xFE00) / 512, by omega, by omega⟩

/-- C26. For every 32-bit word `u` without bits outside `S_IFMT | 0o7777` whose type
field `u & S_IFMT` is one of `S_IFREG`, `S_IFDIR`, `S_IFLNK`, `S_IFCHR`, `S_IFBLK`,
`S_IFIFO`, `S_IFSOCK`: `fileModeToSftp(sftpToFileMode(u)) = u`, and the permission bits
of `sftpToFileMode(u)` are `u & 0o777`. -/
theorem fileModeToSftp_sftpToFileMode (u : Nat) (hbits : u &&& (S_IFMT ||| 0o7777) = u)
    (hty : u &&& S_IFMT ∈ [S_IFREG, S_IFDIR, S_IFLNK, S_IFCHR, S_IFBLK, S_IFIFO, S_IFSOCK]) :
    fileModeToSftp (sftpToFileMode u) = u ∧ sftpToFileMode u &&& ModePerm = u &&& 0o777 := by
  obtain ⟨hu, hc, hp, ht, k, hk, ek⟩ := wire_split u hbits
  rw [← ht, ek] at hty
  obtain ⟨f1, f2⟩ := wire_hi_facts k hk hty
  rw [ek] at hu hc
  have e1 : sftpToFileMode u = sftpToFileMode (512 * k) ||| (u &&& 0o777) := by
    conv_lhs => rw [hu]
    exact sftpToFileMode_or_perm _ _ hc hp
  constructor
  · rw [e1, fileModeToSftp_or_perm _ _ f1 hp, f2]
    exact hu.symm
  · rw [e1, Nat.and_distrib_right, f1, Nat.zero_or]
    exact perm_and_self _ hp

/-- The word `0o104755` (regular file, setuid, `rwxr-xr-x`) survives the round trip. -/
theorem fileModeToSftp_sftpToFileMode_witness :
    0o104755 &&& (S_IFMT ||| 0o7777) = 0o104755 ∧
    fileModeToSftp (sftpToFileMode 0o104755) = 0o104755 ∧
    sftpToFileMode 0o104755 &&& ModePerm = 0o104755 &&& 0o777 :=
  ⟨by decide, fileModeToSftp_sftpToFileMode 0o104755 (by decide) (by decide)⟩

end Sftpd

namespace Sftpd

/-! ## C28, C29: the validity tests of the recoding -/

/-- C28. The claim fails on the code. `isUtf8` takes a lead byte only when `preNUm` is
above 2, so the two-byte sequence `C3 A9` (the letter e with acute accent), whose lead
byte has two leading one-bits, is rejected, and `gb18030ToUtf8` hands it to the GB18030
decoder (`isGbk` holds) rather than passing it through. In the other direction `isUtf8`
accepts the lead bytes `FE` and `FF`, with 7 and 8 leading one-bits, followed by 6 and 7
continuation bytes. -/
theorem isUtf8_rejects_two_byte_sequences :
    preNUm 0xC3 = 2 ∧ isUtf8 [0xC3, 0xA9] = some false ∧
    isGbk [0xC3, 0xA9] = some true ∧
    (∀ cd : Codec, gb18030ToUtf8 cd [0xC3, 0xA9]
      = some ((cd.decode [0xC3, 0xA9]).getD [0xC3, 0xA9])) ∧
    isUtf8 [0xFE, 0x80, 0x80, 0x80, 0x80, 0x80, 0x80] = some true ∧
    isUtf8 [0xFF, 0x80, 0x80, 0x80, 0x80, 0x80, 0x80, 0x80] = some true := by
  refine ⟨by decide, by decide, by decide, ?_, by decide, by decide⟩
  intro cd
  have h1 : isUtf8 [0xC3, 0xA9] = some false := by decide
  have h2 : isGbk [0xC3, 0xA9] = some true := by decide
  unfold gb18030ToUtf8
  rw [h1, h2]
  cases cd.decode [0xC3, 0xA9] <;> rfl

theorem isGbkLoop_true (data : List Nat) (hb : ∀ b ∈ data, b ≤ 0xff) (fuel i : Nat) :
    isGbkLoop data fuel i = some true := by
  induction fuel generalizing i with
  | zero => rfl
  | succ fuel ih =>
    unfold isGbkLoop
    by_cases hi : i < data.length
    · have hget : data[i]? = some data[i] := List.getElem?_eq_getElem hi
      have hle : data[i] ≤ 0xff := hb _ (List.getElem_mem hi)
      simp only [hi, if_true, hget, hle]
      exact ih _
    · simp only [hi, if_false]

/-- Go `isGbk` holds of every byte string: the first test of its loop, `data[i] <= 0xff`,
is true of every byte. -/
theorem isGbk_always (data : List Nat) (hb : ∀ b ∈ data, b ≤ 0xff) : isGbk data = some true :=
  isGbkLoop_true data hb _ _

/-- C29. The claim fails on the code. `isGbk` returns true for the one-byte input `80` and
for the pair `81 30`, whose second byte is below `0x40`; neither is valid UTF-8 for
`isUtf8`, so `gb18030ToUtf8` hands both to the GB18030 decoder and returns what it
decodes rather than passing the input through. -/
theorem isGbk_accepts_everything :
    isGbk [0x80] = some true ∧ isGbk [0x81, 0x30] = some true ∧
    isUtf8 [0x80] = some false ∧ isUtf8 [0x81, 0x30] = some false ∧
    (∀ cd : Codec, gb18030ToUtf8 cd [0x80] = some ((cd.decode [0x80]).getD [0x80])) ∧
    (∀ cd : Codec, gb18030ToUtf8 cd [0x81, 0x30]
      = some ((cd.decode [0x81, 0x30]).getD [0x81, 0x30])) := by
  have h1 : isUtf8 [0x80] = some false := by decide
  have h2 : isGbk [0x80] = some true := by decide
  have h3 : isUtf8 [0x81, 0x30] = some false := by decide
  have h4 : isGbk [0x81, 0x30] = some true := by decide
  refine ⟨h2, h4, h1, h3, ?_, ?_⟩
  · intro cd
    unfold gb18030ToUtf8
    rw [h1, h2]
    cases cd.decode [0x80] <;> rfl
  · intro cd
    unfold gb18030ToUtf8
    rw [h3, h4]
    cases cd.decode [0x81, 0x30] <;> rfl

/-! ## C30: the user and group fields of the long name -/

/-- C30. The claim fails on the code. With `sysType` 1, empty maps and a lookup that
prints nothing (or fails), the fallback is `string(fi.Uid)`, the character with that code
point: for the uid 1000 the user field is the two bytes `CF A8` (the letter U+03E8)
followed by `(1000)`, not `1000(1000)`, and for the gid 100 the group field is `d(100)`.
With `sysType` 2 the fields are the decimal `1000` and `100`. -/
theorem longName_fallback_is_a_rune :
    (longNameFields (exampleHost [] none) emptyCache ownedEntry 1).1
      = [0xCF, 0xA8, 40, 49, 48, 48, 48, 41] ∧
    (longNameFields (exampleHost [] none) emptyCache ownedEntry 1).2.1
      = [100, 40, 49, 48, 48, 41] ∧
    (longNameFields (exampleHost [114] (some Failure)) emptyCache ownedEntry 1).1
      = [0xCF, 0xA8, 40, 49, 48, 48, 48, 41] ∧
    sprintD 1000 ++ [40] ++ sprintD 1000 ++ [41] = [49, 48, 48, 48, 40, 49, 48, 48, 48, 41] ∧
    (longNameFields (exampleHost [] none) emptyCache ownedEntry 2).1 = [49, 48, 48, 48] ∧
    (longNameFields (exampleHost [] none) emptyCache ownedEntry 2).2.1 = [49, 48, 48] ∧
    (readdirLongName (exampleHost [] none) emptyCache ownedEntry 1).1
      = [32, 49, 32, 0xCF, 0xA8, 40, 49, 48, 48, 48, 41, 32, 100, 40, 49, 48, 48, 41, 32, 48,
          32, 32, 97] := by
  decide

end Sftpd

namespace Sftpd

variable {σ : Type}

/-! ## C21: the READ buffer and the DATA reply -/

theorem cap_eq_min (len : Nat) : (if len > 64 * 1024 then 64 * 1024 else len) = min len 65536 := by
  split_ifs <;> omega

theorem dataHeader_eq (I n : Nat) :
    dataHeader I n = be32 (9 + n) ++ (SSH_FXP_DATA :: (be32 I ++ be32 n)) := by
  have e : 1 + 4 + 4 + n = 9 + n := by omega
  simp [dataHeader, Printer.Out, Printer.B32, Printer.Byte, Out, e, SSH_FXP_DATA]

/-- C21. A READ request (id `I`, handle, offset, length `len`) on an open file handle
calls `ReadAt` once, with a buffer of exactly `min(len, 65536)` bytes. When the read
succeeds (no error, or `io.EOF` with at least one byte) the number `n` of bytes read is
at most `min(len, 65536)`, and the round writes the DATA header, whose packet-length
field is `9 + n` and whose data-length field is `n`, followed, when that write succeeds,
by the `n` bytes. -/
theorem read_is_capped (env : Env σ) (s : State σ) (I off len f : Nat) (handle : List Nat)
    (hI : I < 2 ^ 32) (hh : handle.length < 2 ^ 32) (ho : off < 2 ^ 64) (hl : len < 2 ^ 32)
    (hopen : s.h.GetFile handle = some f) :
    (dispatch env s SSH_FXP_READ (readPayload I handle off len)).state.calls
      = s.calls ++ [Call.ReadAt f (min len 65536) (toInt64 off)] ∧
    ∀ data e fs2, env.fs.ReadAt s.fs f (min len 65536) (toInt64 off) = (fs2, (data, e)) →
      (e = none ∨ (e = some GoError.EOF ∧ data.take (min len 65536) ≠ [])) →
      (data.take (min len 65536)).length ≤ min len 65536 ∧
      (dispatch env s SSH_FXP_READ (readPayload I handle off len)).state.c.writes
        = s.c.writes ++
          (be32 (9 + (data.take (min len 65536)).length) ++
              (SSH_FXP_DATA :: (be32 I ++ be32 (data.take (min len 65536)).length)),
            env.werr s.c.writes.length) ::
          (if env.werr s.c.writes.length = none then
            [(data.take (min len 65536), env.werr (s.c.writes.length + 1))]
          else []) := by
  rw [caseREAD_known env s I off len f handle hI hh ho hl hopen]
  simp only [cap_eq_min, dataHeader_eq]
  constructor
  · generalize env.fs.ReadAt s.fs f (min len 65536) (toInt64 off) = rd
    obtain ⟨fs2, data, e⟩ := rd
    by_cases h1 : (if e = some GoError.EOF ∧ (data.take (min len 65536)).length > 0 then none
        else e) ≠ none
    · rw [if_pos h1]; rfl
    · rw [if_neg h1]
      by_cases h2 : env.werr s.c.writes.length = none
      · simp [wrc, h2]
      · simp [wrc, h2]
  · intro data e fs2 hread hok
    refine ⟨by simp, ?_⟩
    simp only [hread]
    have h1 : (if e = some GoError.EOF ∧ (data.take (min len 65536)).length > 0 then none
        else e) = none := by
      rcases hok with h | ⟨h, h0⟩
      · rw [h]; simp
      · rw [h, if_pos ⟨rfl, List.length_pos.2 h0⟩]
    rw [if_neg (by rw [h1]; simp)]
    by_cases h2 : env.werr s.c.writes.length = none
    · simp [wrc, h2]
    · simp [wrc, h2]

/-- The READ of 100000 bytes at offset 0 on the file `f1` of the example session: the
buffer has 65536 bytes, the two bytes of `hi` are read, and the DATA header announces a
packet of 11 bytes with 2 bytes of data. -/
theorem read_is_capped_witness :
    (dispatch (exampleEnv ([], none)) openState SSH_FXP_READ
        (readPayload 5 [102, 49] 0 100000)).state.calls
      = openState.calls ++ [Call.ReadAt 7 (min 100000 65536) (toInt64 0)] ∧
    (dispatch (exampleEnv ([], none)) openState SSH_FXP_READ
        (readPayload 5 [102, 49] 0 100000)).state.c.writes
      = [([0, 0, 0, 11, 103, 0, 0, 0, 5, 0, 0, 0, 2], none), ([104, 105], none)] :=
  ⟨(read_is_capped (exampleEnv ([], none)) openState 5 0 100000 7 [102, 49]
      (by decide) (by decide) (by decide) (by decide) (by decide)).1,
    ((read_is_capped (exampleEnv ([], none)) openState 5 0 100000 7 [102, 49]
      (by decide) (by decide) (by decide) (by decide) (by decide)).2
        [104, 105] (some GoError.EOF) () (by decide) (Or.inr ⟨rfl, by decide⟩)).2⟩

end Sftpd

namespace Sftpd

variable {σ : Type}

/-! ## C22: requests on a handle that is not in the table -/

theorem parse_handle_prefix (I : Nat) (handle rest : List Nat) (d : Nat) (hI : I < 2 ^ 32)
    (hh : handle.length < 2 ^ 32) :
    (NewParser (be32 I ++ (be32 handle.length ++ (handle ++ rest)))).B32 d
        = ({ rest := be32 handle.length ++ (handle ++ rest), ok := true }, I) ∧
    Parser.B32String (Parser.mk (be32 handle.length ++ (handle ++ rest)) true) []
        = ({ rest := rest, ok := true }, handle) :=
  ⟨B32_be32 I _ d hI, B32String_str handle _ [] hh⟩

theorem unknown_READ (env : Env σ) (s : State σ) (I off len : Nat) (handle : List Nat)
    (hI : I < 2 ^ 32) (hh : handle.length < 2 ^ 32) (ho : off < 2 ^ 64) (hl : len < 2 ^ 32)
    (hun : s.h.GetFile handle = none)
    (hb : statusPacket I SSH_FX_NO_SUCH_FILE
      = be32 17 ++ (SSH_FXP_STATUS :: (be32 I ++
          (be32 SSH_FX_NO_SUCH_FILE ++ (be32 0 ++ be32 0))))) :
    NoSuchFileReply env s I (dispatch env s SSH_FXP_READ (readPayload I handle off len)) := by
  obtain ⟨p1, p2, p3, p4⟩ := parse_readPayload I off len handle s.id hI hh ho hl
  show NoSuchFileReply env s I (caseREAD env s (NewParser (readPayload I handle off len)))
  unfold caseREAD
  simp only [p1, p2, p3, p4, Parser.End, hun]
  simp only [and_self, ne_eq, not_true_eq_false, if_true, if_false]
  unfold NoSuchFileReply
  rw [← hb]
  exact ⟨_, rfl, rfl, rfl, rfl, rfl, rfl, rfl, rfl, rfl, rfl⟩

theorem unknown_WRITE (env : Env σ) (s : State σ) (I off : Nat) (handle data : List Nat)
    (hI : I < 2 ^ 32) (hh : handle.length < 2 ^ 32) (he : s.e = none)
    (hun : s.h.GetFile handle = none)
    (hb : statusPacket I SSH_FX_NO_SUCH_FILE
      = be32 17 ++ (SSH_FXP_STATUS :: (be32 I ++
          (be32 SSH_FX_NO_SUCH_FILE ++ (be32 0 ++ be32 0))))) :
    NoSuchFileReply env s I (dispatch env s SSH_FXP_WRITE (writePayload I handle off data)) := by
  obtain ⟨p1, p2⟩ := parse_handle_prefix I handle (be64 off ++ (be32 data.length ++ data)) s.id
    hI hh
  show NoSuchFileReply env s I (caseWRITE env s (NewParser (writePayload I handle off data)))
  unfold caseWRITE writePayload
  simp only [p1, p2, hun]
  unfold NoSuchFileReply
  rw [← hb]
  exact ⟨_, rfl, rfl, rfl, rfl, rfl, rfl, rfl, rfl, rfl, he⟩

theorem unknown_FSTAT (env : Env σ) (s : State σ) (I : Nat) (handle : List Nat)
    (hI : I < 2 ^ 32) (hh : handle.length < 2 ^ 32) (hun : s.h.GetFile handle = none)
    (hb : statusPacket I SSH_FX_NO_SUCH_FILE
      = be32 17 ++ (SSH_FXP_STATUS :: (be32 I ++
          (be32 SSH_FX_NO_SUCH_FILE ++ (be32 0 ++ be32 0))))) :
    NoSuchFileReply env s I (dispatch env s SSH_FXP_FSTAT (fstatPayload I handle)) := by
  obtain ⟨p1, p2⟩ := parse_handle_prefix I handle [] s.id hI hh
  show NoSuchFileReply env s I (caseFSTAT env s (NewParser (fstatPayload I handle)))
  unfold caseFSTAT fstatPayload
  simp only [p1, p2, Parser.End, hun]
  simp only [and_self, ne_eq, not_true_eq_false, if_true, if_false]
  unfold NoSuchFileReply
  rw [← hb]
  exact ⟨_, rfl, rfl, rfl, rfl, rfl, rfl, rfl, rfl, rfl, rfl⟩

theorem unknown_FSETSTAT (env : Env σ) (s : State σ) (I : Nat) (handle : List Nat) (a : Attr)
    (hI : I < 2 ^ 32) (hh : handle.length < 2 ^ 32) (ha : WireAttr a)
    (hun : s.h.GetFile handle = none)
    (hb : statusPacket I SSH_FX_NO_SUCH_FILE
      = be32 17 ++ (SSH_FXP_STATUS :: (be32 I ++
          (be32 SSH_FX_NO_SUCH_FILE ++ (be32 0 ++ be32 0))))) :
    NoSuchFileReply env s I
      (dispatch env s SSH_FXP_FSETSTAT (fsetstatPayload I handle a)) := by
  obtain ⟨p1, p2⟩ := parse_handle_prefix I handle (attrFields a ++ []) s.id hI hh
  have p3 := parseAttr_attrFields a Attr.zero [] ha
  show NoSuchFileReply env s I (caseFSETSTAT env s (NewParser (fsetstatPayload I handle a)))
  unfold caseFSETSTAT fsetstatPayload
  simp only [p1, p2, p3, Parser.End, hun]
  simp only [and_self, ne_eq, not_true_eq_false, if_true, if_false]
  unfold NoSuchFileReply
  rw [← hb]
  exact ⟨_, rfl, rfl, rfl, rfl, rfl, rfl, rfl, rfl, rfl, rfl⟩

theorem unknown_READDIR (env : Env σ) (s : State σ) (I : Nat) (handle : List Nat)
    (hI : I < 2 ^ 32) (hh : handle.length < 2 ^ 32) (hun : s.h.GetDir handle = none)
    (hb : statusPacket I SSH_FX_NO_SUCH_FILE
      = be32 17 ++ (SSH_FXP_STATUS :: (be32 I ++
          (be32 SSH_FX_NO_SUCH_FILE ++ (be32 0 ++ be32 0))))) :
    NoSuchFileReply env s I (dispatch env s SSH_FXP_READDIR (readdirPayload I handle)) := by
  obtain ⟨p1, p2⟩ := parse_handle_prefix I handle [] s.id hI hh
  show NoSuchFileReply env s I (caseREADDIR env s (NewParser (readdirPayload I handle)))
  unfold caseREADDIR readdirPayload
  simp only [p1, p2, Parser.End, hun]
  simp only [and_self, ne_eq, not_true_eq_false, if_true, if_false]
  unfold NoSuchFileReply
  rw [← hb]
  exact ⟨_, rfl, rfl, rfl, rfl, rfl, rfl, rfl, rfl, rfl, rfl⟩

theorem wf_kinds (h : Handles) (w : h.WF) (k : List Nat) :
    (∀ x, h.GetDir k = some x → h.GetFile k = none) ∧
    (∀ x, h.GetFile k = some x → h.GetDir k = none) := by
  constructor
  · intro x hd
    have hk := w.2.2.2 k (mem_mapKeys_of_mapGet _ _ _ hd)
    cases hf : h.GetFile k with
    | none => rfl
    | some y =>
      have hk2 := w.2.2.1 k (mem_mapKeys_of_mapGet _ _ _ hf)
      rw [hk] at hk2
      simp at hk2
  · intro x hf
    have hk := w.2.2.1 k (mem_mapKeys_of_mapGet _ _ _ hf)
    cases hd : h.GetDir k with
    | none => rfl
    | some y =>
      have hk2 := w.2.2.2 k (mem_mapKeys_of_mapGet _ _ _ hd)
      rw [hk] at hk2
      simp at hk2

theorem CloseHandle_branch (h : Handles) (k : List Nat) :
    (k.head? = some 102 → (h.CloseHandle k).1.f = mapDelete h.f k) ∧
    (k.head? = some 100 → (h.CloseHandle k).1.d = mapDelete h.d k) := by
  cases k with
  | nil => simp
  | cons k0 ks =>
    constructor
    · intro hk
      simp only [List.head?_cons, Option.some.injEq] at hk
      subst hk
      simp [Handles.CloseHandle]
    · intro hk
      simp only [List.head?_cons, Option.some.injEq] at hk
      subst hk
      simp [Handles.CloseHandle]

theorem wf_closed_is_unknown (h : Handles) (w : h.WF) (k : List Nat) :
    (h.CloseHandle k).1.GetFile k = none ∧ (h.CloseHandle k).1.GetDir k = none := by
  have w2 := wf_CloseHandle h k w
  constructor
  · cases hf : (h.CloseHandle k).1.GetFile k with
    | none => rfl
    | some y =>
      have hk := w2.2.2.1 k (mem_mapKeys_of_mapGet _ _ _ hf)
      unfold Handles.GetFile at hf
      rw [(CloseHandle_branch h k).1 hk, mapGet_mapDelete_self] at hf
      cases hf
  · cases hd : (h.CloseHandle k).1.GetDir k with
    | none => rfl
    | some y =>
      have hk := w2.2.2.2 k (mem_mapKeys_of_mapGet _ _ _ hd)
      unfold Handles.GetDir at hd
      rw [(CloseHandle_branch h k).2 hk, mapGet_mapDelete_self] at hd
      cases hd

/-- C22. A well-formed READ, WRITE, FSTAT or FSETSTAT request with id `I` on a string for
which `GetFile` is nil, and a well-formed READDIR request on a string for which `GetDir`
is nil, gets exactly one reply, STATUS NO_SUCH_FILE with the id `I` (`NoSuchFileReply`
gives the 21 bytes of the packet: the length 17, the type byte STATUS, the id, the code
NO_SUCH_FILE as a `uint32` and two empty strings); the round calls
nothing on the backend, leaves the handle table, the backend state and the unread input
as they were, and the loop continues with `e == nil`. On a table reached from `Init` a
directory handle is not a file handle, a file handle is not a directory handle, and a
handle that was closed is neither. -/
theorem unknown_handle_gets_no_such_file (env : Env σ) (s : State σ) (I : Nat)
    (handle : List Nat) (hI : I < 2 ^ 32) (hh : handle.length < 2 ^ 32) (he : s.e = none) :
    (s.h.GetFile handle = none →
      (∀ off len, off < 2 ^ 64 → len < 2 ^ 32 →
        NoSuchFileReply env s I
          (dispatch env s SSH_FXP_READ (readPayload I handle off len))) ∧
      (∀ off data,
        NoSuchFileReply env s I
          (dispatch env s SSH_FXP_WRITE (writePayload I handle off data))) ∧
      NoSuchFileReply env s I (dispatch env s SSH_FXP_FSTAT (fstatPayload I handle)) ∧
      (∀ a, WireAttr a →
        NoSuchFileReply env s I
          (dispatch env s SSH_FXP_FSETSTAT (fsetstatPayload I handle a)))) ∧
    (s.h.GetDir handle = none →
      NoSuchFileReply env s I (dispatch env s SSH_FXP_READDIR (readdirPayload I handle))) ∧
    (∀ ops, s.h = (Trace.run ops).h →
      (∀ x, s.h.GetDir handle = some x → s.h.GetFile handle = none) ∧
      (∀ x, s.h.GetFile handle = some x → s.h.GetDir handle = none) ∧
      (s.h.CloseHandle handle).1.GetFile handle = none ∧
      (s.h.CloseHandle handle).1.GetDir handle = none) := by
  have hb : statusPacket I SSH_FX_NO_SUCH_FILE
      = be32 17 ++ (SSH_FXP_STATUS :: (be32 I ++
          (be32 SSH_FX_NO_SUCH_FILE ++ (be32 0 ++ be32 0)))) := by
    simp [statusPacket, be32, SSH_FX_NO_SUCH_FILE]
  refine ⟨?_, ?_, ?_⟩
  · intro hun
    exact ⟨fun off len ho hl => unknown_READ env s I off len handle hI hh ho hl hun hb,
      fun off data => unknown_WRITE env s I off handle data hI hh he hun hb,
      unknown_FSTAT env s I handle hI hh hun hb,
      fun a ha => unknown_FSETSTAT env s I handle a hI hh ha hun hb⟩
  · intro hun
    exact unknown_READDIR env s I handle hI hh hun hb
  · intro ops hreach
    have w : s.h.WF := hreach ▸ wf_run ops
    exact ⟨(wf_kinds s.h w handle).1, (wf_kinds s.h w handle).2,
      wf_closed_is_unknown s.h w handle⟩

/-- In the example session, where `f1` is a file and `d2` a directory: a READ on `d2`, an
FSTAT on the closed handle `f9` and a READDIR on `f1` are answered with NO_SUCH_FILE. -/
theorem unknown_handle_gets_no_such_file_witness :
    NoSuchFileReply (exampleEnv ([], none)) openState 5
      (dispatch (exampleEnv ([], none)) openState SSH_FXP_READ (readPayload 5 [100, 50] 0 16)) ∧
    NoSuchFileReply (exampleEnv ([], none)) openState 5
      (dispatch (exampleEnv ([], none)) openState SSH_FXP_FSTAT (fstatPayload 5 [102, 57])) ∧
    NoSuchFileReply (exampleEnv ([], none)) openState 6
      (dispatch (exampleEnv ([], none)) openState SSH_FXP_READDIR
        (readdirPayload 6 [102, 49])) :=
  ⟨((unknown_handle_gets_no_such_file (exampleEnv ([], none)) openState 5 [100, 50]
      (by decide) (by decide) rfl).1 (by decide)).1 0 16 (by decide) (by decide),
    ((unknown_handle_gets_no_such_file (exampleEnv ([], none)) openState 5 [102, 57]
      (by decide) (by decide) rfl).1 (by decide)).2.2.1,
    (unknown_handle_gets_no_such_file (exampleEnv ([], none)) openState 6 [102, 49]
      (by decide) (by decide) rfl).2.1 (by decide)⟩

end Sftpd

namespace Sftpd

variable {σ : Type}

/-! ## C23: the framing of the replies -/

theorem readPacketHeader_be32 (n ty : Nat) (rest : List Nat) (h : n < 2 ^ 32) :
    readPacketHeader (be32 n ++ ty :: rest) = (rest, (n : Int), ty, none) := by
  simp only [readPacketHeader, be32, List.cons_append, List.nil_append, Prod.mk.injEq, true_and,
    and_true, Nat.cast_inj]
  omega

theorem framed_of (ty : Nat) (body : List Nat) (hlen : body.length + 1 < 2 ^ 32) :
    Framed (be32 (body.length + 1) ++ ty :: body) ty := by
  have hl : (be32 (body.length + 1) ++ ty :: body).length = 4 + (body.length + 1) := by
    simp [be32]; omega
  have ht : (be32 (body.length + 1) ++ ty :: body).take 4 = be32 (body.length + 1) := by
    simp [be32]
  have hr := readPacketHeader_be32 (body.length + 1) ty body hlen
  refine ⟨by omega, by omega, ?_, ?_, ?_, ?_⟩
  · rw [ht, hl]; congr 1; omega
  · rw [hr, hl]; simp
  · rw [hr]
  · rw [hr]

theorem be32_length (n : Nat) : (be32 n).length = 4 := rfl

theorem statusPacket_shape (id code : Nat) :
    statusPacket id code = be32 ((be32 id ++ ([0, 0, 0, code % 256] ++ (be32 0 ++ be32 0))).length
      + 1) ++ SSH_FXP_STATUS ::
        (be32 id ++ ([0, 0, 0, code % 256] ++ (be32 0 ++ be32 0))) := by
  simp [statusPacket, be32]

theorem handlePacket_shape (id : Nat) (handle : List Nat) :
    handlePacket id handle = be32 ((be32 id ++ (be32 handle.length ++ handle)).length + 1) ++
      SSH_FXP_HANDLE :: (be32 id ++ (be32 handle.length ++ handle)) := by
  have e : (be32 id ++ (be32 handle.length ++ handle)).length + 1 = 9 + handle.length := by
    simp only [List.length_append, be32_length]; omega
  rw [e]
  simp [handlePacket, Printer.Out, Printer.B32String, Printer.B32, Printer.Byte, Out,
    SSH_FXP_HANDLE]

theorem attrPacket_shape (id : Nat) (a : Attr) :
    attrPacket id a = be32 ((be32 id ++ attrFields a).length + 1) ++
      SSH_FXP_ATTRS :: (be32 id ++ attrFields a) := by
  rw [attrPacket_eq]
  simp [Printer.withLen]

theorem nameOnlyPacket_shape (id : Nat) (path : List Nat) :
    nameOnlyPacket id path
      = be32 ((be32 id ++ (be32 1 ++ (be32 path.length ++ (path ++ (be32 path.length ++
          (path ++ be32 0)))))).length + 1) ++
        SSH_FXP_NAME :: (be32 id ++ (be32 1 ++ (be32 path.length ++ (path ++
          (be32 path.length ++ (path ++ be32 0)))))) := by
  simp [nameOnlyPacket, Printer.withLen, Printer.B32String, Printer.B32, Printer.Byte, Out,
    SSH_FXP_NAME]

theorem dataPacket_shape (id : Nat) (data : List Nat) :
    dataHeader id data.length ++ data
      = be32 ((be32 id ++ (be32 data.length ++ data)).length + 1) ++
        SSH_FXP_DATA :: (be32 id ++ (be32 data.length ++ data)) := by
  have e : (be32 id ++ (be32 data.length ++ data)).length + 1 = 1 + 4 + 4 + data.length := by
    simp only [List.length_append, be32_length]; omega
  rw [e]
  simp [dataHeader, Printer.Out, Printer.B32, Printer.Byte, Out, SSH_FXP_DATA]

theorem nameOnlyPacket_length (id : Nat) (path : List Nat) :
    (nameOnlyPacket id path).take 4 = be32 (2 * path.length + 21) ∧
    (nameOnlyPacket id path).length - 4 = 2 * path.length + 21 := by
  rw [nameOnlyPacket_shape]
  have e : (be32 id ++ (be32 1 ++ (be32 path.length ++ (path ++ (be32 path.length ++
      (path ++ be32 0)))))).length + 1 = 2 * path.length + 21 := by
    simp only [List.length_append, be32_length]; omega
  rw [e]
  constructor
  · rw [List.take_left' (be32_length _)]
  · simp only [List.length_append, List.length_cons, be32_length]; omega

/-- C23, the claim as stated fails on the code: the packet that `writeNameOnly` builds
for a path of `2^31` bytes has `2^32 + 21` bytes after its length field, which holds 21,
the count reduced to 32 bits. And `writeResponse` stores `byte(code)`: a status code of
258, taken as a number, is written as the code 2. -/
theorem long_name_packet_is_not_framed :
    (nameOnlyPacket 0 (List.replicate (2 ^ 31) 97)).take 4 = [0, 0, 0, 21] ∧
    (nameOnlyPacket 0 (List.replicate (2 ^ 31) 97)).length - 4 = 2 ^ 32 + 21 ∧
    statusPacket 0 258 = statusPacket 0 SSH_FX_NO_SUCH_FILE := by
  obtain ⟨h1, h2⟩ := nameOnlyPacket_length 0 (List.replicate (2 ^ 31) 97)
  rw [List.length_replicate] at h1 h2
  exact ⟨h1.trans (by decide), h2.trans (by norm_num), by decide⟩

/-- C23, amended: every response packet the server builds with fewer than `2^32` bytes
after its length field (the STATUS packet of `writeResponse`, also written by `writeAttr`
and `writeNameOnly` on an error; the HANDLE packet of `writeHandle`; the ATTRS packet of
`writeAttr`; the NAME packet of `writeNameOnly`; the DATA header together with its
payload) starts with the big-endian `uint32` number of the bytes that follow it, and
`readPacketHeader` applied to the packet returns that number and the packet type.
`writeResponse` emits exactly 21 bytes: the length 17, the type STATUS, the id, and for a
status code below 256 the code as a `uint32` and two empty strings. -/
theorem responses_are_framed (env : Env σ) (s : State σ) (id : Nat) :
    (∀ code,
      (writeResponse env s id code).1.c.writes
        = s.c.writes ++ [(statusPacket id code, env.werr s.c.writes.length)] ∧
      Framed (statusPacket id code) SSH_FXP_STATUS ∧ (statusPacket id code).length = 21 ∧
      (code < 256 → statusPacket id code
        = be32 17 ++ (SSH_FXP_STATUS :: (be32 id ++ (be32 code ++ (be32 0 ++ be32 0)))))) ∧
    (∀ handle,
      (writeHandle env s id handle).1.c.writes
        = s.c.writes ++ [(handlePacket id handle, env.werr s.c.writes.length)] ∧
      (handle.length + 9 < 2 ^ 32 → Framed (handlePacket id handle) SSH_FXP_HANDLE)) ∧
    (∀ a,
      (writeAttr env s id (.ok a)).1.c.writes
        = s.c.writes ++ [(attrPacket id a, env.werr s.c.writes.length)] ∧
      ((attrFields a).length + 5 < 2 ^ 32 → Framed (attrPacket id a) SSH_FXP_ATTRS)) ∧
    (∀ err,
      (writeAttr env s id (.error err)).1.c.writes
        = s.c.writes ++ [(statusPacket id SSH_FX_FAILURE, env.werr s.c.writes.length)]) ∧
    (∀ path,
      (writeNameOnly env s id path none).1.c.writes
        = s.c.writes ++ [(nameOnlyPacket id path, env.werr s.c.writes.length)] ∧
      (2 * path.length + 21 < 2 ^ 32 → Framed (nameOnlyPacket id path) SSH_FXP_NAME)) ∧
    (∀ path err,
      (writeNameOnly env s id path (some err)).1.c.writes
        = s.c.writes ++ [(statusPacket id SSH_FX_FAILURE, env.werr s.c.writes.length)]) ∧
    (∀ data, data.length + 9 < 2 ^ 32 →
      Framed (dataHeader id data.length ++ data) SSH_FXP_DATA) := by
  refine ⟨?_, ?_, ?_, ?_, ?_, ?_, ?_⟩
  · intro code
    refine ⟨rfl, ?_, by simp [statusPacket, be32], ?_⟩
    · rw [statusPacket_shape]
      exact framed_of _ _ (by simp [be32])
    · intro hc
      have : code % 256 = code := Nat.mod_eq_of_lt hc
      have h1 : code / 16777216 % 256 = 0 := by omega
      have h2 : code / 65536 % 256 = 0 := by omega
      have h3 : code / 256 % 256 = 0 := by omega
      simp [statusPacket, be32, h1, h2, h3, this]
  · intro handle
    refine ⟨rfl, ?_⟩
    intro hl
    rw [handlePacket_shape]
    exact framed_of _ _ (by simp only [List.length_append, be32_length]; omega)
  · intro a
    refine ⟨rfl, ?_⟩
    intro hl
    rw [attrPacket_shape]
    exact framed_of _ _ (by simp only [List.length_append, be32_length]; omega)
  · intro err; rfl
  · intro path
    refine ⟨by simp [writeNameOnly, wrc], ?_⟩
    intro hl
    rw [nameOnlyPacket_shape]
    exact framed_of _ _ (by simp only [List.length_append, be32_length]; omega)
  · intro path err
    simp [writeNameOnly, writeResponse, wrc]
  · intro data hl
    rw [dataPacket_shape]
    exact framed_of _ _ (by simp only [List.length_append, be32_length]; omega)

/-- The replies to request 7: a NO_SUCH_FILE status, the handle `f1`, the name `/` and
three bytes of data. -/
theorem responses_are_framed_witness :
    statusPacket 7 SSH_FX_NO_SUCH_FILE
      = be32 17 ++ (SSH_FXP_STATUS :: (be32 7 ++ (be32 SSH_FX_NO_SUCH_FILE ++ (be32 0 ++ be32 0))))
    ∧ Framed (statusPacket 7 SSH_FX_NO_SUCH_FILE) SSH_FXP_STATUS
    ∧ Framed (handlePacket 7 [102, 49]) SSH_FXP_HANDLE
    ∧ Framed (attrPacket 7 Attr.zero) SSH_FXP_ATTRS
    ∧ Framed (nameOnlyPacket 7 [47]) SSH_FXP_NAME
    ∧ Framed (dataHeader 7 [1, 2, 3].length ++ [1, 2, 3]) SSH_FXP_DATA :=
  ⟨((responses_are_framed (emptyEnv (fun _ => none)) (initState [] ()) 7).1
      SSH_FX_NO_SUCH_FILE).2.2.2 (by decide),
    ((responses_are_framed (emptyEnv (fun _ => none)) (initState [] ()) 7).1
      SSH_FX_NO_SUCH_FILE).2.1,
    ((responses_are_framed (emptyEnv (fun _ => none)) (initState [] ()) 7).2.1 [102, 49]).2
      (by decide),
    ((responses_are_framed (emptyEnv (fun _ => none)) (initState [] ()) 7).2.2.1 Attr.zero).2
      (by decide),
    ((responses_are_framed (emptyEnv (fun _ => none)) (initState [] ()) 7).2.2.2.2.1 [47]).2
      (by decide),
    (responses_are_framed (emptyEnv (fun _ => none)) (initState [] ()) 7).2.2.2.2.2.2 [1, 2, 3]
      (by decide)⟩

end Sftpd

namespace Sftpd

variable {σ : Type}

/-! ## C27: the INIT packet -/

theorem peek_prefix (payload rest : List Nat) (h64 : payload.length ≤ 65536) :
    peek (payload ++ rest) (((payload.length + 1 : Nat) : Int) - 1) = .ok payload := by
  have e : (((payload.length + 1 : Nat) : Int) - 1) = (payload.length : Int) := by
    push_cast; omega
  rw [e]
  unfold peek
  rw [if_neg (by omega), if_neg (by simp)]
  simp

theorem loopBody_INIT (env : Env σ) (s : State σ) (payload rest : List Nat)
    (h2 : 2 ≤ payload.length) (h64 : payload.length ≤ 65536)
    (hin : discard s.c.input s.plen
      = be32 (payload.length + 1) ++ (SSH_FXP_INIT :: (payload ++ rest))) :
    loopBody env s
      = caseINIT env { s with c := { s.c with input := payload ++ rest },
                              plen := ((payload.length + 1 : Nat) : Int) - 1, e := none } := by
  unfold loopBody
  rw [hin, readPacketHeader_be32 _ _ _ (by omega)]
  simp only []
  rw [if_neg (by push_cast; omega), peek_prefix payload rest h64]
  simp only [dispatch, if_true]

/-- C27, the claim as stated fails on the code. An INIT packet whose payload has 65537
bytes gets no reply: `Peek` on the 64 KiB reader fails and `ServeChannel` returns its
error with nothing written. On a channel whose write fails, the reply to the INIT packet
`00 00 00 05 01 00 00 00 03` is handed to the channel and `ServeChannel` returns the
error of that write: the session does not continue. -/
theorem long_init_packet_ends_session :
    (ServeChannel (emptyEnv (fun _ => none)) 1
        ([0, 1, 0, 2, SSH_FXP_INIT] ++ List.replicate 65537 0) ()).map
      (fun r => (r.returned, r.state.c.writes))
    = some (some (some (GoError.other "bufio: buffer full")), []) ∧
    (ServeChannel (emptyEnv firstWriteFails) 1 [0, 0, 0, 5, 1, 0, 0, 0, 3] ()).map
      (fun r => (r.returned, r.state.c.writes))
    = some (some (some errWrite), [(initReply, some errWrite)]) := by
  constructor
  · decide
  · decide

/-- C27, amended: for every INIT packet with a payload of at least 2 and at most 65536
bytes that is next in the input, the round of the loop hands the channel exactly one
write, the 9 bytes `00 00 00 05 02 00 00 00 03`, calls nothing of the VFS and leaves the
backend state and the handle table as they were; when that write succeeds the session
continues with the next round, which starts at the first byte after the packet. The
round starts with the packet unless the previous request ended at `io.EOF`. -/
theorem init_gets_version (env : Env σ) (s : State σ) (payload rest : List Nat)
    (h2 : 2 ≤ payload.length) (h64 : payload.length ≤ 65536)
    (hin : discard s.c.input s.plen
      = be32 (payload.length + 1) ++ (SSH_FXP_INIT :: (payload ++ rest))) :
    initReply = [0, 0, 0, 5, 2, 0, 0, 0, 3] ∧
    (loopBody env s).state.c.writes
      = s.c.writes ++ [(initReply, env.werr s.c.writes.length)] ∧
    (loopBody env s).state.calls = s.calls ∧ (loopBody env s).state.fs = s.fs ∧
    (loopBody env s).state.h = s.h ∧
    (env.werr s.c.writes.length = none →
      ∃ t, loopBody env s = .next t ∧ t.e = none ∧ discard t.c.input t.plen = rest) ∧
    (s.e ≠ some GoError.EOF → iter env s = loopBody env s) := by
  rw [loopBody_INIT env s payload rest h2 h64 hin]
  refine ⟨rfl, ?_, ?_, ?_, ?_, ?_, ?_⟩
  · unfold caseINIT finish wrc
    simp only []
    split <;> rfl
  · unfold caseINIT finish wrc
    simp only []
    split <;> rfl
  · unfold caseINIT finish wrc
    simp only []
    split <;> rfl
  · unfold caseINIT finish wrc
    simp only []
    split <;> rfl
  · intro hw
    unfold caseINIT finish wrc
    simp only [hw]
    refine ⟨_, rfl, rfl, ?_⟩
    simp [discard]
  · intro he
    unfold iter loopHead
    rw [if_neg he]
    simp only []
    exact (loopBody_INIT env s payload rest h2 h64 hin)

/-- The INIT packet `00 00 00 05 01 00 00 00 03` at the start of a session. -/
theorem init_gets_version_witness :
    initReply = [0, 0, 0, 5, 2, 0, 0, 0, 3] ∧
    (loopBody (emptyEnv (fun _ => none)) (initState [0, 0, 0, 5, 1, 0, 0, 0, 3] ())).state.c.writes
      = (initState [0, 0, 0, 5, 1, 0, 0, 0, 3] ()).c.writes ++
        [(initReply, (emptyEnv (fun _ => none)).werr
          (initState [0, 0, 0, 5, 1, 0, 0, 0, 3] ()).c.writes.length)] ∧
    (loopBody (emptyEnv (fun _ => none)) (initState [0, 0, 0, 5, 1, 0, 0, 0, 3] ())).state.calls
      = (initState [0, 0, 0, 5, 1, 0, 0, 0, 3] ()).calls ∧
    (loopBody (emptyEnv (fun _ => none)) (initState [0, 0, 0, 5, 1, 0, 0, 0, 3] ())).state.fs
      = (initState [0, 0, 0, 5, 1, 0, 0, 0, 3] ()).fs ∧
    (loopBody (emptyEnv (fun _ => none)) (initState [0, 0, 0, 5, 1, 0, 0, 0, 3] ())).state.h
      = (initState [0, 0, 0, 5, 1, 0, 0, 0, 3] ()).h ∧
    ((emptyEnv (fun _ => none)).werr (initState [0, 0, 0, 5, 1, 0, 0, 0, 3] ()).c.writes.length
        = none →
      ∃ t, loopBody (emptyEnv (fun _ => none)) (initState [0, 0, 0, 5, 1, 0, 0, 0, 3] ())
          = .next t ∧ t.e = none ∧ discard t.c.input t.plen = []) ∧
    ((initState [0, 0, 0, 5, 1, 0, 0, 0, 3] ()).e ≠ some GoError.EOF →
      iter (emptyEnv (fun _ => none)) (initState [0, 0, 0, 5, 1, 0, 0, 0, 3] ())
        = loopBody (emptyEnv (fun _ => none)) (initState [0, 0, 0, 5, 1, 0, 0, 0, 3] ())) :=
  init_gets_version (emptyEnv (fun _ => none)) (initState [0, 0, 0, 5, 1, 0, 0, 0, 3] ())
    [0, 0, 0, 3] [] (by decide) (by decide) (by decide)

end Sftpd

namespace Sftpd

/-! ## C31: `isUtf8` on a character cut short -/

/-- Go `isUtf8` panics on every input that consists of one byte from `E0` to `FF`: the
byte announces at least two continuation bytes and the loop over them reads `data[1]`. -/
theorem isUtf8_lone_lead : ∀ b < 256, 0xE0 ≤ b → isUtf8 [b] = none := by
  decide!

/-- C31. The claim fails on the code. `isUtf8` on the single byte `E4`, and on `61 E4 B8`,
reads past the end of the input: after a lead byte with `preNUm` above 2 the inner loop
indexes `data[i]` for each announced continuation byte without a length check, so the
call panics instead of returning true or false, and so does `gb18030ToUtf8`. A STAT
request whose path is the byte `E4` ends the session with that panic, without a reply or
a backend call. `isGbk` does return on a lone lead byte (`81`, `E4`): it returns true. -/
theorem isUtf8_reads_past_the_end :
    isUtf8 [0xE4] = none ∧ isUtf8 [0x61, 0xE4, 0xB8] = none ∧
    (∀ cd : Codec, gb18030ToUtf8 cd [0xE4] = none) ∧
    isGbk [0x81] = some true ∧ isGbk [0xE4] = some true ∧
    (ServeChannel (emptyEnv (fun _ => none)) 1
        [0, 0, 0, 10, SSH_FXP_STAT, 0, 0, 0, 9, 0, 0, 0, 1, 0xE4] ()).map
      (fun r => (r.isPanic, r.state.c.writes, r.state.calls)) = some (true, [], []) := by
  refine ⟨by decide, by decide, ?_, by decide, by decide, by decide⟩
  intro cd
  have h : isUtf8 [0xE4] = none := by decide
  unfold gb18030ToUtf8
  rw [h]

/-! ## C32, C34: `LocalFs.rfsMangle` -/

theorem stringsContains_nil_left : ∀ sub : List Nat, sub ≠ [] → stringsContains [] sub = false
  | [], h => absurd rfl h
  | _ :: _, _ => rfl

/-- Go `LocalFs.rfsMangle` rejects every path that contains `..`. -/
theorem LocalFs_rfsMangle_dotdot (root path : List Nat)
    (h : stringsContains path [46, 46] = true) :
    LocalFs.rfsMangle root path
      = some (strBytes "<Invalid Path>", some (GoError.other "Invalid Path")) := by
  unfold LocalFs.rfsMangle
  rw [if_pos h]

/-- The reference `rfsMangle` of the test suite rejects every path that contains `..`. -/
theorem test_rfsMangle_dotdot (path : List Nat) (h : stringsContains path [46, 46] = true) :
    rfsMangle path = some (strBytes "<invalid>", some (GoError.other "Invalid path")) := by
  unfold rfsMangle
  rw [if_pos h]

/-- Go `LocalFs.rfsMangle` on a path of at least one byte without `..`: the first byte
is dropped whatever it is, then one `/` when at least two bytes are left (a lone `/` or
`.` is dropped too), and the rest is appended to the root. -/
theorem LocalFs_rfsMangle_cons (root : List Nat) (c : Nat) (rest : List Nat)
    (h : stringsContains (c :: rest) [46, 46] = false) :
    LocalFs.rfsMangle root (c :: rest) = some (root ++ mangledTail rest, none) := by
  unfold LocalFs.rfsMangle
  rw [if_neg (by rw [h]; decide)]
  rcases rest with _ | ⟨b, _ | ⟨b2, r⟩⟩
  · simp [mangledTail]
  · by_cases hb : b = 47 ∨ b = 46
    · simp [mangledTail, hb]
    · simp [mangledTail, hb]
  · by_cases hb : b = 47
    · simp [mangledTail, hb]
    · simp [mangledTail, hb]

/-- The reference `rfsMangle` of the test suite on a path without `..`: one leading `/`
is dropped when present and the path is appended to the root. -/
theorem test_rfsMangle_spec (path : List Nat) (h : stringsContains path [46, 46] = false) :
    rfsMangle path = some (strBytes "/tmp/test-sftpd/" ++
      (if path.head? = some 47 then path.drop 1 else path), none) := by
  unfold rfsMangle
  rw [if_neg (by rw [h]; decide)]
  rcases path with _ | ⟨c, rest⟩
  · simp
  · by_cases hc : c = 47
    · simp [hc]
    · simp [hc]

/-- Go `LocalFs.rfsMangle` returns on every path of at least one byte. -/
theorem LocalFs_rfsMangle_nonempty (root path : List Nat) (h : path ≠ []) :
    ∃ r, LocalFs.rfsMangle root path = some r := by
  rcases path with _ | ⟨c, rest⟩
  · exact absurd rfl h
  · cases hc : stringsContains (c :: rest) [46, 46]
    · exact ⟨_, LocalFs_rfsMangle_cons root c rest hc⟩
    · exact ⟨_, LocalFs_rfsMangle_dotdot root _ hc⟩

/-- C32. The claim fails on the code. On the empty path `LocalFs.rfsMangle` evaluates
`len(path) > 0 || path[0] == '/'`, whose second operand indexes the empty string: the
call panics, whatever the root, and with it `Stat`, `OpenFile` and `OpenDir`, which call
it first. The reference `rfsMangle` of the test suite, written with `&&`, returns its
root. The server hands the empty path of a STAT, OPEN or OPENDIR request to the backend
as it is. -/
theorem rfsMangle_panics_on_empty_path :
    (∀ root, LocalFs.rfsMangle root [] = none) ∧
    (∀ osStat root isLstat, LocalFs.Stat osStat root [] isLstat = none) ∧
    (∀ osOpenFile root mode a, LocalFs.OpenFile osOpenFile root [] mode a = none) ∧
    (∀ osOpen root, LocalFs.OpenDir osOpen root [] = none) ∧
    rfsMangle [] = some (strBytes "/tmp/test-sftpd/", none) ∧
    (ServeChannel (emptyEnv (fun _ => none)) 2
        [0, 0, 0, 9, SSH_FXP_STAT, 0, 0, 0, 9, 0, 0, 0, 0] ()).map (fun r => r.state.calls)
      = some [Call.Stat [] false] ∧
    (ServeChannel (emptyEnv (fun _ => none)) 2
        [0, 0, 0, 17, SSH_FXP_OPEN, 0, 0, 0, 9, 0, 0, 0, 0, 0, 0, 0, 3, 0, 0, 0, 0] ()).map
        (fun r => r.state.calls)
      = some [Call.OpenFile [] 3 Attr.zero] ∧
    (ServeChannel (emptyEnv (fun _ => none)) 2
        [0, 0, 0, 9, SSH_FXP_OPENDIR, 0, 0, 0, 9, 0, 0, 0, 0] ()).map (fun r => r.state.calls)
      = some [Call.OpenDir []] := by
  refine ⟨fun _ => rfl, fun _ _ _ => rfl, fun _ _ _ _ => rfl, fun _ _ => rfl, by decide,
    by decide, by decide, by decide⟩

/-- C34. The claim fails on the code. With the root of the test suite, the relative
path `abc` maps to the root followed by `bc` under `LocalFs.rfsMangle`, while the
reference `rfsMangle` of the test suite returns the root followed by `abc`: the first
`if` of `LocalFs.rfsMangle` drops the first byte of every path, not only a `/`. The
one-byte path `a` maps to the bare root, and `a/b` to the root followed by `b`. The two
functions agree on `/abc`, and both reject `a..b`. -/
theorem rfsMangle_drops_first_byte :
    LocalFs.rfsMangle (strBytes "/tmp/test-sftpd/") (strBytes "abc")
      = some (strBytes "/tmp/test-sftpd/bc", none) ∧
    rfsMangle (strBytes "abc") = some (strBytes "/tmp/test-sftpd/abc", none) ∧
    LocalFs.rfsMangle (strBytes "/tmp/test-sftpd/") (strBytes "a")
      = some (strBytes "/tmp/test-sftpd/", none) ∧
    rfsMangle (strBytes "a") = some (strBytes "/tmp/test-sftpd/a", none) ∧
    LocalFs.rfsMangle (strBytes "/tmp/test-sftpd/") (strBytes "a/b")
      = some (strBytes "/tmp/test-sftpd/b", none) ∧
    rfsMangle (strBytes "a/b") = some (strBytes "/tmp/test-sftpd/a/b", none) ∧
    LocalFs.rfsMangle (strBytes "/tmp/test-sftpd/") (strBytes "/abc")
      = some (strBytes "/tmp/test-sftpd/abc", none) ∧
    rfsMangle (strBytes "/abc") = some (strBytes "/tmp/test-sftpd/abc", none) ∧
    LocalFs.rfsMangle (strBytes "/tmp/test-sftpd/") (strBytes "a..b")
      = some (strBytes "<Invalid Path>", some (GoError.other "Invalid Path")) ∧
    rfsMangle (strBytes "a..b")
      = some (strBytes "<invalid>", some (GoError.other "Invalid path")) := by
  refine ⟨by decide, by decide, by decide, by decide, by decide, by decide, by decide,
    by decide, by decide, by decide⟩

end Sftpd

namespace Sftpd

variable {σ : Type}

/-! ## C33: a READ whose `ReadAt` fails -/

/-- The round of a READ request (id `I`) on an open file handle whose `ReadAt` returns an
error: unless the error is `io.EOF` with at least one byte read, the round writes
nothing and ends at the `continue` with `e` set to that error. -/
theorem read_error_round (env : Env σ) (s : State σ) (I off len f : Nat)
    (handle data : List Nat) (fs2 : σ) (err : GoError)
    (hI : I < 2 ^ 32) (hh : handle.length < 2 ^ 32) (ho : off < 2 ^ 64) (hl : len < 2 ^ 32)
    (hopen : s.h.GetFile handle = some f)
    (hread : env.fs.ReadAt s.fs f (min len 65536) (toInt64 off) = (fs2, (data, some err)))
    (hne : err ≠ GoError.EOF ∨ data.take (min len 65536) = []) :
    ∃ t, dispatch env s SSH_FXP_READ (readPayload I handle off len) = .next t ∧
      t.c.writes = s.c.writes ∧ t.e = some err ∧ t.id = I ∧ t.h = s.h := by
  rw [caseREAD_known env s I off len f handle hI hh ho hl hopen]
  simp only [cap_eq_min, hread]
  have h1 : (if some err = some GoError.EOF ∧ (data.take (min len 65536)).length > 0 then none
      else some err) = some err := by
    rcases hne with h | h
    · rw [if_neg]
      rintro ⟨h2, _⟩
      exact h (Option.some.inj h2)
    · rw [if_neg]
      rintro ⟨_, h2⟩
      rw [h] at h2
      exact absurd h2 (by decide)
  rw [h1, if_pos (by simp)]
  exact ⟨_, rfl, rfl, rfl, rfl, rfl⟩

/-- The head of the loop writes nothing unless `e == io.EOF`. -/
theorem loopHead_of_not_EOF (env : Env σ) (s : State σ) (h : s.e ≠ some GoError.EOF) :
    loopHead env s = .next s := by
  unfold loopHead
  rw [if_neg h]

/-- C33. The claim fails on the code. With a backend whose `OpenFile` succeeds and whose
`ReadAt` fails with an error that is not `io.EOF`, the session of an OPEN request (id 9)
and a READ request (id 10) on the handle `f1` writes one packet only, the HANDLE reply
to the OPEN: `ReadAt` is called, the READ case leaves by `continue` without a reply, and
the head of the loop replies only when `e == io.EOF`. An FSTAT request on the same
handle, whose backend call fails too, gets its STATUS FAILURE. -/
theorem read_error_gets_no_reply :
    (ServeChannel readErrorEnv 3 openThenRead ()).map
      (fun r => (r.returned, r.state.c.writes, r.state.calls))
    = some (some (some GoError.EOF), [(handlePacket 9 [102, 49], none)],
        [Call.OpenFile [65] 3 Attr.zero, Call.ReadAt 7 16 0, Call.FileClose 7]) ∧
    (ServeChannel readErrorEnv 3 openThenFstat ()).map
      (fun r => (r.returned, r.state.c.writes, r.state.calls))
    = some (some (some GoError.EOF),
        [(handlePacket 9 [102, 49], none), (statusPacket 10 SSH_FX_FAILURE, none)],
        [Call.OpenFile [65] 3 Attr.zero, Call.FStat 7, Call.FileClose 7]) := by
  constructor
  · decide
  · decide

/-! ## C35: the open flags -/

theorem and3_ite_or (c : Prop) [Decidable c] (x k : Nat) (hk : k &&& 3 = 0) :
    (if c then x ||| k else x) &&& 3 = x &&& 3 := by
  split
  · rw [Nat.and_distrib_right, hk, Nat.or_zero]
  · rfl

/-- The access mode of the `flag` of `LocalFs.OpenFile`, its two low bits: `O_WRONLY`
when WRITE is set in the flag word and `O_RDONLY` otherwise. -/
theorem LocalFs_OpenFile_flag_access (mode : Nat) :
    LocalFs.OpenFile.flag mode &&& 3
      = if mode &&& SSH_FXF_WRITE ≠ 0 then O_WRONLY else O_RDONLY := by
  unfold LocalFs.OpenFile.flag
  simp only []
  rw [and3_ite_or _ _ O_EXCL (by decide), and3_ite_or _ _ O_TRUNC (by decide),
    and3_ite_or _ _ O_CREATE (by decide), and3_ite_or _ _ O_APPEND (by decide)]
  by_cases h2 : mode &&& SSH_FXF_WRITE ≠ 0 <;> by_cases h1 : mode &&& SSH_FXF_READ ≠ 0
  · simp only [if_pos h2, if_pos h1]; decide
  · simp only [if_pos h2, if_neg h1]; decide
  · simp only [if_neg h2, if_pos h1]; decide
  · simp only [if_neg h2, if_neg h1]; decide

/-- C35. The claim fails on the code. `LocalFs.OpenFile` and `sftpFs.OpenFile` compute
the same `flag` from the flag word, and READ alone gives `O_RDONLY`, WRITE alone
`O_WRONLY`; but READ together with WRITE gives `O_WRONLY`, not `O_RDWR`: the statement
`flag |= os.O_RDONLY` adds nothing, `os.O_RDONLY` being 0, and no statement sets
`os.O_RDWR`. For every flag word the access mode (the two low bits of `flag`) is
`O_WRONLY` when WRITE is set and `O_RDONLY` otherwise. The server passes the flag word 3
of an OPEN request to the backend as it is. -/
theorem OpenFile_flag_is_never_RDWR :
    (∀ mode, LocalFs.OpenFile.flag mode = sftpFs.OpenFile.flag mode) ∧
    LocalFs.OpenFile.flag SSH_FXF_READ = O_RDONLY ∧
    LocalFs.OpenFile.flag SSH_FXF_WRITE = O_WRONLY ∧
    LocalFs.OpenFile.flag (SSH_FXF_READ ||| SSH_FXF_WRITE) = O_WRONLY ∧ O_WRONLY ≠ O_RDWR ∧
    (∀ mode, LocalFs.OpenFile.flag mode &&& 3
      = if mode &&& SSH_FXF_WRITE ≠ 0 then O_WRONLY else O_RDONLY) ∧
    (∀ osOpenFile root a, LocalFs.OpenFile osOpenFile root [47, 65] 3 a
      = some (osOpenFile (root ++ [65]) O_WRONLY 0o644)) ∧
    (∀ clientOpenFile a, sftpFs.OpenFile clientOpenFile [47, 65] 3 a
      = clientOpenFile [47, 65] O_WRONLY) ∧
    (ServeChannel (emptyEnv (fun _ => none)) 2
        [0, 0, 0, 18, SSH_FXP_OPEN, 0, 0, 0, 9, 0, 0, 0, 1, 65, 0, 0, 0, 3, 0, 0, 0, 0] ()).map
        (fun r => r.state.calls)
      = some [Call.OpenFile [65] 3 Attr.zero] := by
  refine ⟨fun _ => rfl, by decide, by decide, by decide, by decide,
    LocalFs_OpenFile_flag_access, fun _ _ _ => rfl, fun _ _ => rfl, by decide⟩

end Sftpd
